import Mathlib

/-!
# Expense-Tracker client: a shallow embedding of its view models,
# gateway clients and mutation coordinator

The development follows the JavaScript sources:

* `src/services/ExpenseService.js` : `parseResponse`, `handleResponse`, the CRUD wrappers;
* `src/services/AuthService.js`    : its own `handleResponse`;
* `src/pages/Dashboard.jsx`        : `fetchExpenses` and the aggregation it performs;
* `src/pages/ViewExpenses.jsx`     : the `filteredExpenses` projection and `handleDelete`;
* `src/pages/AddExpense.jsx`       : `handleSubmit` and `formatServerDebug`;
* `src/pages/ModifyExpense.jsx`    : `fetchExpense` and `handleSubmit`;
* `src/pages/Signup.jsx`           : `calculateStrength`;
* `src/App.jsx`                    : the stored session.

JavaScript numbers are IEEE-754 binary64 values.  Every finite binary64 value is an
integer multiple of `2^-1074`, so a finite number is represented by that integer
(`JSNum.fin k` stands for `k * 2^-1074`); arithmetic rounds to 53 significant bits,
ties to even.  The sign of zero is not tracked.
-/

set_option maxRecDepth 100000
set_option exponentiation.threshold 5000

/-! ## Numbers -/

/-- Number of binary digits of `n`, by halving (`fuel` bounds the number of steps). -/
def bitLenAux : Nat → Nat → Nat
  | 0, _ => 0
  | fuel + 1, n => if n = 0 then 0 else bitLenAux fuel (n / 2) + 1

/-- Number of binary digits of `n`, 64 digits at a time. -/
def bitLenChunks : Nat → Nat → Nat
  | 0, _ => 0
  | fuel + 1, n => if n < 2 ^ 64 then bitLenAux 64 n else bitLenChunks fuel (n / 2 ^ 64) + 64

/-- Number of binary digits of `n` (`0` for `0`). -/
def bitLen (n : Nat) : Nat := bitLenChunks n n

/-- A JavaScript number: `NaN`, an infinity, or the finite value `k * 2^-1074`. -/
inductive JSNum where
  | nan
  | inf (neg : Bool)
  | fin (k : Int)
deriving DecidableEq, Repr

namespace JSNum

/-- The value `1`, in units of `2^-1074`. -/
def unit : Nat := 2 ^ 1074

/-- First magnitude (in units) that no longer rounds to a finite number: `2^1024`. -/
def overflowUnits : Nat := 2 ^ 2098

/-- Round the non-negative rational `num / den` (in units of `2^-1074`) to the nearest
value with at most 53 significant bits, ties to even.  Below `2^52` units the grid is the
unit itself, which is the subnormal range. -/
def roundUnits (num den : Nat) : Nat :=
  let sh := bitLen (num / den) - 53
  let d := den * 2 ^ sh
  let q := num / d
  let r := num % d
  let q1 := if d < 2 * r || (2 * r == d && q % 2 == 1) then q + 1 else q
  q1 * 2 ^ sh

/-- The number nearest to `± num / den` units; magnitudes from `2^1024` on overflow. -/
def ofRatio (neg : Bool) (num den : Nat) : JSNum :=
  let k := roundUnits num den
  if overflowUnits ≤ k then inf neg else fin (if neg then -(k : Int) else (k : Int))

/-- The number nearest to the exact value `k * 2^-1074`. -/
def ofUnits (k : Int) : JSNum := ofRatio (decide (k < 0)) k.natAbs 1

/-- The number nearest to the integer `n` (exact below `2^53`). -/
def ofNat (n : Nat) : JSNum := ofRatio false (n * unit) 1

/-- The finite value `m * 2^e` for `-1074 ≤ e`. -/
def ofMantExp (m : Int) (e : Int) : JSNum := fin (m * ((2 ^ (e + 1074).toNat : Nat) : Int))

/-- The number `0`. -/
def zero : JSNum := fin 0

/-- The number `100`. -/
def hundred : JSNum := fin ((100 * unit : Nat) : Int)

/-- JavaScript truthiness of a number: `0` and `NaN` are falsy. -/
def truthy : JSNum → Bool
  | nan => false
  | inf _ => true
  | fin k => k != 0

/-- The `+` operator on numbers. -/
def add : JSNum → JSNum → JSNum
  | fin a, fin b => ofUnits (a + b)
  | fin _, inf s => inf s
  | inf s, fin _ => inf s
  | inf s, inf t => if s = t then inf s else nan
  | _, _ => nan

/-- The `*` operator on numbers. -/
def mul : JSNum → JSNum → JSNum
  | fin a, fin b => ofRatio (decide (a < 0) != decide (b < 0)) (a.natAbs * b.natAbs) unit
  | fin a, inf s => if a = 0 then nan else inf (decide (a < 0) != s)
  | inf s, fin b => if b = 0 then nan else inf (s != decide (b < 0))
  | inf s, inf t => inf (s != t)
  | _, _ => nan

/-- The `/` operator on numbers (a zero divisor counts as `+0`). -/
def div : JSNum → JSNum → JSNum
  | fin a, fin b =>
    if b = 0 then (if a = 0 then nan else inf (decide (a < 0)))
    else ofRatio (decide (a < 0) != decide (b < 0)) (a.natAbs * unit) b.natAbs
  | fin _, inf _ => fin 0
  | inf s, fin b => inf (s != decide (b < 0))
  | _, _ => nan

/-- The function `Math.round`: the nearest integer, ties towards `+∞`, which is
`⌊x + 1/2⌋`; the result is always representable. -/
def mathRound : JSNum → JSNum
  | fin k => fin (((2 * k + (unit : Int)) / ((2 * unit : Nat) : Int)) * (unit : Int))
  | x => x

end JSNum

/-! ## Expense records -/

/-- A JSON value as produced by `JSON.parse` (plus `undefined` for an absent property). -/
inductive JSVal where
  | undefined
  | null
  | bool (b : Bool)
  | num (n : JSNum)
  | str (s : String)
  | arr (items : List JSVal)
  | obj (fields : List (String × JSVal))

/-- An expense record as the pages read it: the JSON object's `id`, `description`,
`amount`, `category` and `date` properties; `none` is an absent property. -/
structure Expense where
  id : JSVal
  description : Option String
  amount : Option JSNum
  category : Option String
  date : Option String

/-! ## Dashboard aggregation (`Dashboard.jsx`, `fetchExpenses`) -/

/-- The `stats` state of the Dashboard page. -/
structure Stats where
  total : JSNum
  count : Nat
  average : JSNum
deriving DecidableEq, Repr

/-- The expression `Number(expense.amount || 0)`. -/
def amountNumber (e : Expense) : JSNum :=
  match e.amount with
  | some n => if n.truthy then n else JSNum.zero
  | none => JSNum.zero

/-- The total computed by `data.reduce((sum, expense) => sum + Number(expense.amount || 0), 0)`. -/
def dashboardTotal (data : List Expense) : JSNum :=
  data.foldl (fun sum expense => JSNum.add sum (amountNumber expense)) JSNum.zero

/-- The statistics stored by `fetchExpenses` once the fetched body is an array:
`total`, `count = data.length`, `average = count > 0 ? total / count : 0`, stored as
`Math.round(average * 100) / 100`. -/
def dashboardStats (data : List Expense) : Stats :=
  let total := dashboardTotal data
  let count := data.length
  let average := if count > 0 then JSNum.div total (JSNum.ofNat count) else JSNum.zero
  { total := total
    count := count
    average := JSNum.div (JSNum.mathRound (JSNum.mul average JSNum.hundred)) JSNum.hundred }

/-- The amount of a record in units of `2^-1074` (`0` when it is not finite). -/
def amountUnits (e : Expense) : Int :=
  match amountNumber e with
  | JSNum.fin k => k
  | _ => 0

/-- The exact sum of the amounts, in units of `2^-1074`, a missing amount counting
as `0`. -/
def exactSumUnits (data : List Expense) : Int := (data.map amountUnits).sum

/-- Starting from the running sum `s`, every amount is finite and every running sum is
itself a number, so that no addition rounds. -/
def exactRun : Int → List Expense → Bool
  | _, [] => true
  | s, e :: es =>
    match amountNumber e with
    | JSNum.fin k => JSNum.ofUnits (s + k) == JSNum.fin (s + k) && exactRun (s + k) es
    | _ => false

/-- Every amount is finite and a whole multiple of `2^g` units, that is of
`2^(g-1074)`; for `g = 1074` the amounts are whole numbers. -/
def onGrid (g : Nat) (data : List Expense) : Bool :=
  data.all (fun e =>
    match amountNumber e with
    | JSNum.fin k => k.natAbs % 2 ^ g == 0
    | _ => false)

/-- The sum of the magnitudes of the amounts, in units of `2^-1074`. -/
def absSumUnits (data : List Expense) : Nat :=
  (data.map (fun e => (amountUnits e).natAbs)).sum

/-- A record that only has an amount, `m * 2^e`. -/
def Expense.ofAmount (m : Int) (e : Int) : Expense :=
  { id := JSVal.undefined, description := none, amount := some (JSNum.ofMantExp m e),
    category := none, date := none }

/-! ## JavaScript values -/

/-- Functions of the JavaScript platform that the sources call and that are kept
abstract: `JSON.parse` (`none` when it throws), `Number::toString`,
`String.prototype.toLowerCase`, the time value of `new Date(text)` in milliseconds
(`none` for an invalid date, whose time value is `NaN`), and the build-time
`VITE_API_URL` setting. -/
structure Platform where
  jsonParse : String → Option JSVal
  numberToString : JSNum → String
  toLowerCase : String → String
  dateValue : String → Option Int
  viteApiUrl : Option String

namespace JSVal

/-- JavaScript truthiness. -/
def truthy : JSVal → Bool
  | undefined => false
  | null => false
  | bool b => b
  | num n => n.truthy
  | str s => s != ""
  | arr _ => true
  | obj _ => true

/-- Own property `key` of an object built by `JSON.parse`. -/
def lookup (key : String) : List (String × JSVal) → JSVal
  | [] => undefined
  | (k, v) :: rest => if k = key then v else lookup key rest

/-- The property read `v.key` for the property names used by the sources (`message`,
`error`, ...): defined on objects only, `undefined` on every other truthy value. -/
def getProp (v : JSVal) (key : String) : JSVal :=
  match v with
  | obj fields => lookup key fields
  | _ => undefined

mutual
/-- The conversion `String(v)`. -/
def toStr (P : Platform) : JSVal → String
  | undefined => "undefined"
  | null => "null"
  | bool b => if b then "true" else "false"
  | num n => P.numberToString n
  | str s => s
  | arr items => joinItems P true items
  | obj _ => "[object Object]"
/-- The method `Array.prototype.join(",")`: `null` and `undefined` items are empty. -/
def joinItems (P : Platform) (first : Bool) : List JSVal → String
  | [] => ""
  | v :: rest =>
    (if first then "" else ",") ++
    (match v with
     | undefined => ""
     | null => ""
     | w => toStr P w) ++ joinItems P false rest
end

end JSVal

/-- Truthiness of a string-or-absent value such as `localStorage.getItem('token')`. -/
def optTruthy (s : Option String) : Bool :=
  match s with
  | some t => t != ""
  | none => false

/-! ## The list projection of `ViewExpenses.jsx` -/

/-- The characters removed by `String.prototype.trim` (white space and line
terminators). -/
def isWhiteSpace (c : Char) : Bool :=
  let n := c.toNat
  n == 0x9 || n == 0xA || n == 0xB || n == 0xC || n == 0xD || n == 0x20 || n == 0xA0 ||
  n == 0x1680 || (0x2000 ≤ n && n ≤ 0x200A) || n == 0x2028 || n == 0x2029 ||
  n == 0x202F || n == 0x205F || n == 0x3000 || n == 0xFEFF

/-- The method `String.prototype.trim`. -/
def jsTrim (s : String) : String :=
  String.mk ((s.toList.dropWhile isWhiteSpace).reverse.dropWhile isWhiteSpace).reverse

/-- Substring test on character lists. -/
def listIncludes : List Char → List Char → Bool
  | [], needle => needle.isPrefixOf []
  | c :: cs, needle => needle.isPrefixOf (c :: cs) || listIncludes cs needle

/-- The method `String.prototype.includes`. -/
def jsIncludes (s needle : String) : Bool := listIncludes s.toList needle.toList

/-- The constant `categories` of ViewExpenses, the options of the category select after
"All Categories". -/
def categories : List String :=
  ["Food", "Transportation", "Entertainment", "Utilities", "Shopping", "Healthcare", "Other"]

/-- The values the `filter` state can hold: its initial value `'all'`, and the value of
an option of the select, which `onChange` passes to `setFilter`. -/
def filterValues : List String := "all" :: categories

/-- The test `filter && filter !== 'all'`. -/
def categoryActive (filter : String) : Bool := filter != "" && filter != "all"

/-- The test `searchTerm && searchTerm.trim()`. -/
def searchActive (searchTerm : String) : Bool := searchTerm != "" && jsTrim searchTerm != ""

/-- The callback `expense => expense.category === filter`. -/
def categoryMatches (filter : String) (expense : Expense) : Bool :=
  expense.category == some filter

/-- The callback of the search filter, with `term = searchTerm.toLowerCase()`:
`(expense.description || '').toLowerCase().includes(term) ||
 (expense.category || '').toLowerCase().includes(term)`. -/
def searchMatches (P : Platform) (searchTerm : String) (expense : Expense) : Bool :=
  let term := P.toLowerCase searchTerm
  jsIncludes (P.toLowerCase (expense.description.getD "")) term ||
  jsIncludes (P.toLowerCase (expense.category.getD "")) term

/-- The time value of `new Date(expense.date)`; `none` is `NaN` (absent or invalid date). -/
def dateTime (P : Platform) (expense : Expense) : Option Int :=
  match expense.date with
  | some s => P.dateValue s
  | none => none

/-- The comparator `(a, b) => new Date(b.date) - new Date(a.date)`; `none` is `NaN`.
The sort only uses the sign of the result, and the binary64 difference of two time
values has the sign of their exact difference, which is what is kept here. -/
def dateCompare (P : Platform) (a b : Expense) : Option Int :=
  match dateTime P b, dateTime P a with
  | some tb, some ta => some (tb - ta)
  | _, _ => none

/-- The abstract operation SortCompare on a comparator result: `NaN` counts as `+0`. -/
def sortCompare (v : Option Int) : Int := v.getD 0

/-- Insert `x` in front of the first element it does not have to follow. -/
def sortInsert {α : Type} (cmp : α → α → Option Int) (x : α) : List α → List α
  | [] => [x]
  | y :: ys => if sortCompare (cmp x y) ≤ 0 then x :: y :: ys else y :: sortInsert cmp x ys

/-- The method `Array.prototype.sort(comparefn)`.  The language requires a stable sort
and, for a consistent comparator, fixes the result; it is computed here by stable
insertion.  For an inconsistent comparator the order is implementation-defined. -/
def arraySort {α : Type} (cmp : α → α → Option Int) : List α → List α
  | [] => []
  | x :: xs => sortInsert cmp x (arraySort cmp xs)

/-- The body of the `filteredExpenses` memo.  The first component is the returned
array; the second is the content of the `expenses` array afterwards.  Each `filter`
call builds a new array; when neither runs, `filtered` is still the `expenses` array
itself and `sort`, which works in place, reorders it. -/
def filteredExpenses (P : Platform) (expenses : List Expense) (filter searchTerm : String) :
    List Expense × List Expense :=
  let filtered1 :=
    if categoryActive filter then expenses.filter (categoryMatches filter) else expenses
  let filtered2 :=
    if searchActive searchTerm then filtered1.filter (searchMatches P searchTerm) else filtered1
  let sorted := arraySort (dateCompare P) filtered2
  (sorted, if categoryActive filter || searchActive searchTerm then expenses else sorted)

/-- The records that pass the two conditional `filter` calls of the memo. -/
def selected (P : Platform) (filter searchTerm : String) (expense : Expense) : Bool :=
  (!categoryActive filter || categoryMatches filter expense) &&
  (!searchActive searchTerm || searchMatches P searchTerm expense)

/-- A string is blank: empty, or white space only. -/
def IsBlank (s : String) : Prop := ∀ c ∈ s.toList, isWhiteSpace c = true

/-- The text `text` contains `s` as a substring when case is ignored. -/
def ContainsIgnoringCase (P : Platform) (text s : String) : Prop :=
  (P.toLowerCase s).toList <:+: (P.toLowerCase text).toList

/-- The selection as the specification words it: category equal to `c` unless `c` is
"all"; `s` contained, ignoring case, in the description or in the category unless `s` is
blank.  An absent description or category is the empty text. -/
def SpecSelected (P : Platform) (c s : String) (expense : Expense) : Prop :=
  (c = "all" ∨ expense.category = some c) ∧
  (IsBlank s ∨ ContainsIgnoringCase P (expense.description.getD "") s ∨
    ContainsIgnoringCase P (expense.category.getD "") s)

/-- The selection of the specification with the category test also skipped for the
empty filter. -/
def AmendedSelected (P : Platform) (c s : String) (expense : Expense) : Prop :=
  (c = "all" ∨ c = "" ∨ expense.category = some c) ∧
  (IsBlank s ∨ ContainsIgnoringCase P (expense.description.getD "") s ∨
    ContainsIgnoringCase P (expense.category.getD "") s)

instance (s : String) : Decidable (IsBlank s) := by
  unfold IsBlank; infer_instance

instance (P : Platform) (text s : String) : Decidable (ContainsIgnoringCase P text s) := by
  unfold ContainsIgnoringCase; infer_instance

instance (P : Platform) (c s : String) (e : Expense) : Decidable (SpecSelected P c s e) := by
  unfold SpecSelected; infer_instance

instance (P : Platform) (c s : String) (e : Expense) : Decidable (AmendedSelected P c s e) := by
  unfold AmendedSelected; infer_instance

/-- A record that only has a date. -/
def Expense.ofDate (date : String) : Expense :=
  { id := JSVal.undefined, description := none, amount := none, category := none,
    date := some date }

/-- A record that only has a category. -/
def Expense.ofCategory (category : String) : Expense :=
  { id := JSVal.undefined, description := none, amount := none, category := some category,
    date := none }

/-! ## The expense gateway (`ExpenseService.js`) -/

/-- What the service reads of a `fetch` response: `text` is `none` when reading the
body fails, `headers` is `none` when iterating the header entries throws. -/
structure Response where
  ok : Bool
  status : Nat
  text : Option String
  headers : Option (List (String × String))

/-- The normalised result `{ ok, status, data, raw, headers }`. -/
structure Parsed where
  ok : Bool
  status : Nat
  data : JSVal
  raw : Option String
  headers : List (String × String)

/-- The properties attached to a thrown error: `status`, `data`, `raw`, `headers`. -/
structure ErrorInfo where
  status : Nat
  data : JSVal
  raw : Option String
  headers : List (String × String)

/-- A thrown `Error`: its message and, when the gateway attached them, the response
properties. -/
structure JSError where
  message : String
  info : Option ErrorInfo

/-- The assignment `headers[k] = v` on a plain object. -/
def setHeader (k v : String) : List (String × String) → List (String × String)
  | [] => [(k, v)]
  | (k1, v1) :: rest => if k1 = k then (k, v) :: rest else (k1, v1) :: setHeader k v rest

/-- The loop `for (const [k, v] of response.headers.entries()) headers[k] = v`. -/
def collectHeaders (entries : List (String × String)) : List (String × String) :=
  entries.foldl (fun headers kv => setHeader kv.1 kv.2 headers) []

/-- The function `parseResponse`. -/
def parseResponse (P : Platform) (response : Response) : Parsed :=
  let raw := response.text
  let data : JSVal :=
    match raw with
    | none => JSVal.null
    | some t =>
      if t != "" then
        match P.jsonParse t with
        | some v => v
        | none => JSVal.str t
      else JSVal.null
  let headers :=
    match response.headers with
    | some entries => collectHeaders entries
    | none => []
  { ok := response.ok, status := response.status, data := data, raw := raw, headers := headers }

/-- The expression `(parsed.data && (parsed.data.message || parsed.data.error)) || fallback`. -/
def errorMessageValue (data : JSVal) (fallback : String) : JSVal :=
  let inner :=
    if data.truthy then
      (if (data.getProp "message").truthy then data.getProp "message" else data.getProp "error")
    else data
  if inner.truthy then inner else JSVal.str fallback

/-- The error built from a normalised result: `new Error(msg)` with `status`, `data`,
`raw` and `headers` attached. -/
def responseError (P : Platform) (parsed : Parsed) (fallback : String) : JSError :=
  { message := JSVal.toStr P (errorMessageValue parsed.data fallback)
    info := some { status := parsed.status, data := parsed.data, raw := parsed.raw,
                   headers := parsed.headers } }

/-- The function `handleResponse`: throws on a non-ok response, returns `parsed.data`
otherwise. -/
def handleResponse (P : Platform) (response : Response) : Except JSError JSVal :=
  let parsed := parseResponse P response
  if !parsed.ok then
    Except.error (responseError P parsed ("Request failed (" ++ toString parsed.status ++ ")"))
  else Except.ok parsed.data

/-- A request passed to `fetch`; `body` is the value given to `JSON.stringify`. -/
structure Request where
  method : String
  url : String
  headers : List (String × String)
  body : Option JSVal

/-- The function `fetch`: rejects on a transport failure, resolves to a response
otherwise. -/
abbrev Fetch := Request → Except JSError Response

/-- The constant `API_BASE_URL`. -/
def API_BASE_URL (P : Platform) : String :=
  if optTruthy P.viteApiUrl then P.viteApiUrl.getD "" else "https://localhost:7202"

/-- Headers of a read request. -/
def readHeaders (token : String) : List (String × String) :=
  [("Authorization", "Bearer " ++ token), ("Accept", "application/json")]

/-- Headers of a write request. -/
def writeHeaders (token : String) : List (String × String) :=
  [("Content-Type", "application/json"), ("Authorization", "Bearer " ++ token),
   ("Accept", "application/json")]

/-- The error thrown for a falsy identifier. -/
def idRequired : JSError := { message := "Expense id is required", info := none }

namespace ExpenseService

/-- `getExpenses`: GET /api/expenses. -/
def getExpenses (P : Platform) (fetch : Fetch) (token : String) : Except JSError JSVal :=
  match fetch { method := "GET", url := API_BASE_URL P ++ "/api/expenses",
                headers := readHeaders token, body := none } with
  | Except.error e => Except.error e
  | Except.ok res => handleResponse P res

/-- `getExpense`: GET /api/expenses/{id}. -/
def getExpense (P : Platform) (fetch : Fetch) (id : JSVal) (token : String) :
    Except JSError JSVal :=
  if !id.truthy then Except.error idRequired
  else
    match fetch { method := "GET", url := API_BASE_URL P ++ "/api/expenses/" ++ JSVal.toStr P id,
                  headers := readHeaders token, body := none } with
    | Except.error e => Except.error e
    | Except.ok res => handleResponse P res

/-- `createExpense`: POST /api/expenses. -/
def createExpense (P : Platform) (fetch : Fetch) (expenseData : JSVal) (token : String) :
    Except JSError JSVal :=
  match fetch { method := "POST", url := API_BASE_URL P ++ "/api/expenses",
                headers := writeHeaders token, body := some expenseData } with
  | Except.error e => Except.error e
  | Except.ok res => handleResponse P res

/-- `updateExpense`: PUT /api/expenses/{id}. -/
def updateExpense (P : Platform) (fetch : Fetch) (id : JSVal) (expenseData : JSVal)
    (token : String) : Except JSError JSVal :=
  if !id.truthy then Except.error idRequired
  else
    match fetch { method := "PUT", url := API_BASE_URL P ++ "/api/expenses/" ++ JSVal.toStr P id,
                  headers := writeHeaders token, body := some expenseData } with
    | Except.error e => Except.error e
    | Except.ok res => handleResponse P res

/-- `deleteExpense`: DELETE /api/expenses/{id}; `true` on an ok response, a thrown
error otherwise. -/
def deleteExpense (P : Platform) (fetch : Fetch) (id : JSVal) (token : String) :
    Except JSError Bool :=
  if !id.truthy then Except.error idRequired
  else
    match fetch { method := "DELETE", url := API_BASE_URL P ++ "/api/expenses/" ++ JSVal.toStr P id,
                  headers := readHeaders token, body := none } with
    | Except.error e => Except.error e
    | Except.ok res =>
      if res.ok then Except.ok true
      else
        let parsed := parseResponse P res
        Except.error (responseError P parsed ("Delete failed (" ++ toString parsed.status ++ ")"))

end ExpenseService

/-! ## Deleting from the list (`ViewExpenses.jsx`, `handleDelete`) -/

/-- State of the ViewExpenses page: the `expenses`, `loading` and `error` state
variables, and the messages shown so far by `window.alert`. -/
structure ViewState where
  expenses : List Expense
  loading : Bool
  error : Option String
  alerts : List String

/-- Where an asynchronous handler stands after its synchronous first part: it has
returned, or it is suspended at its `await`, holding the local values `saved` that its
continuation uses. -/
inductive Suspended (κ : Type) where
  | returned (st : ViewState)
  | awaiting (st : ViewState) (saved : κ)

/-- Result of a completed `handleDelete`: the page state, and whether a `fetchExpenses`
call started by it is still awaiting its response. -/
structure DeleteResult where
  state : ViewState
  refetching : Bool

/-- The updater `prev => prev.filter(exp => String(exp.id) !== String(id))`. -/
def removeFromList (P : Platform) (id : JSVal) (prev : List Expense) : List Expense :=
  prev.filter (fun exp => JSVal.toStr P exp.id != JSVal.toStr P id)

/-- `fetchExpenses` of ViewExpenses up to its `await`: without a token it sets the
error, empties the list and returns; otherwise it is suspended with `loading` set. -/
def fetchExpensesStart (token : Option String) (st : ViewState) : Suspended Unit :=
  let st1 := { st with loading := true, error := none }
  if !optTruthy token then
    Suspended.returned { st1 with error := some "Not authenticated. Please login.",
                                   expenses := [], loading := false }
  else Suspended.awaiting st1 ()

/-- `handleDelete` up to `await ExpenseService.deleteExpense(id, token)`; the saved
value is the snapshot `previous`. -/
def handleDeleteStart (P : Platform) (confirmed : Bool) (token : Option String) (id : JSVal)
    (st : ViewState) : Suspended (List Expense) :=
  if !confirmed then Suspended.returned st
  else if !optTruthy token then
    Suspended.returned { st with alerts := st.alerts ++ ["Not authenticated. Please login."] }
  else
    let previous := st.expenses
    Suspended.awaiting { st with expenses := removeFromList P id st.expenses } previous

/-- `handleDelete` from the settled `deleteExpense` call on: the rollback branch on a
falsy result, and the `catch` branch, which alerts and calls `fetchExpenses()` without
awaiting it. -/
def handleDeleteFinish (token : Option String) (previous : List Expense)
    (outcome : Except JSError Bool) (st : ViewState) : DeleteResult :=
  match outcome with
  | Except.ok ok =>
    if !ok then
      { state := { st with expenses := previous,
                           alerts := st.alerts ++ ["Failed to delete expense on server."] }
        refetching := false }
    else { state := st, refetching := false }
  | Except.error _ =>
    let st1 := { st with alerts := st.alerts ++ ["An error occurred while deleting the expense."] }
    match fetchExpensesStart token st1 with
    | Suspended.returned st2 => { state := st2, refetching := false }
    | Suspended.awaiting st2 _ => { state := st2, refetching := true }

/-- The handler `handleDelete(id)`, run to completion against the gateway. -/
def handleDelete (P : Platform) (fetch : Fetch) (confirmed : Bool) (token : Option String)
    (id : JSVal) (st : ViewState) : DeleteResult :=
  match handleDeleteStart P confirmed token id st with
  | Suspended.returned st1 => { state := st1, refetching := false }
  | Suspended.awaiting st1 previous =>
    handleDeleteFinish token previous
      (ExpenseService.deleteExpense P fetch id (token.getD "")) st1

/-! ## A concrete platform for evaluating examples

ASCII lower-casing, ISO calendar dates (`YYYY-MM-DD`, midnight UTC), JSON texts made of
objects, arrays, strings without escapes, non-negative integers and the three literals,
and the decimal form of integral numbers. -/

/-- Value of a decimal digit. -/
def digitValue (c : Char) : Option Nat :=
  if 48 ≤ c.toNat && c.toNat ≤ 57 then some (c.toNat - 48) else none

/-- Value of a non-empty string of decimal digits. -/
def digitsValue : List Char → Option Nat
  | [] => none
  | cs => cs.foldl (fun acc c => match acc, digitValue c with
                                 | some n, some d => some (10 * n + d)
                                 | _, _ => none) (some 0)

/-- Days in a month of the proleptic Gregorian calendar. -/
def daysInMonth (y m : Nat) : Nat :=
  if m == 2 then (if (y % 4 == 0 && y % 100 != 0) || y % 400 == 0 then 29 else 28)
  else if m == 4 || m == 6 || m == 9 || m == 11 then 30 else 31

/-- Days from 1970-01-01 to the given civil date. -/
def daysFromCivil (y m d : Nat) : Int :=
  let y1 := if m ≤ 2 then y - 1 else y
  let era := y1 / 400
  let yoe := y1 % 400
  let mp := (m + 9) % 12
  let doy := (153 * mp + 2) / 5 + d - 1
  let doe := yoe * 365 + yoe / 4 - yoe / 100 + doy
  ((era * 146097 + doe : Nat) : Int) - 719468

/-- Time value of `new Date("YYYY-MM-DD")`. -/
def isoDateValue (s : String) : Option Int :=
  match s.toList with
  | [y1, y2, y3, y4, s1, m1, m2, s2, d1, d2] =>
    if s1 == Char.ofNat 45 && s2 == Char.ofNat 45 then
      match digitsValue [y1, y2, y3, y4], digitsValue [m1, m2], digitsValue [d1, d2] with
      | some y, some m, some d =>
        if 1 ≤ y && 1 ≤ m && m ≤ 12 && 1 ≤ d && d ≤ daysInMonth y m then
          some (daysFromCivil y m d * 86400000)
        else none
      | _, _, _ => none
    else none
  | _ => none

/-- Decimal form of an integral number. -/
def integralToString (n : JSNum) : String :=
  match n with
  | JSNum.nan => "NaN"
  | JSNum.inf neg => if neg then "-Infinity" else "Infinity"
  | JSNum.fin k => toString (k / (JSNum.unit : Int))

namespace MiniJson

/-- JSON white space. -/
def isSpace (c : Char) : Bool :=
  c.toNat == 32 || c.toNat == 9 || c.toNat == 10 || c.toNat == 13

/-- Characters of a string up to its closing quote; escapes are not supported. -/
def stringBody : List Char → List Char → Option (String × List Char)
  | [], _ => none
  | c :: rest, acc =>
    if c.toNat == 34 then some (String.mk acc.reverse, rest)
    else if c.toNat == 92 then none
    else stringBody rest (c :: acc)

/-- Does `pre` start `cs`?  Returns the remainder. -/
def strip (pre : String) (cs : List Char) : Option (List Char) :=
  if pre.toList.isPrefixOf cs then some (cs.drop pre.length) else none

mutual
/-- One JSON value at the start of the input. -/
def value : Nat → List Char → Option (JSVal × List Char)
  | 0, _ => none
  | fuel + 1, cs =>
    match cs.dropWhile isSpace with
    | [] => none
    | c :: rest =>
      if c.toNat == 34 then
        (stringBody rest []).map (fun r => (JSVal.str r.1, r.2))
      else if c.toNat == 123 then
        match rest.dropWhile isSpace with
        | [] => none
        | c1 :: rest1 =>
          if c1.toNat == 125 then some (JSVal.obj [], rest1)
          else (members fuel (c1 :: rest1)).map (fun r => (JSVal.obj r.1, r.2))
      else if c.toNat == 91 then
        match rest.dropWhile isSpace with
        | [] => none
        | c1 :: rest1 =>
          if c1.toNat == 93 then some (JSVal.arr [], rest1)
          else (items fuel (c1 :: rest1)).map (fun r => (JSVal.arr r.1, r.2))
      else if (digitValue c).isSome then
        let ds := (c :: rest).takeWhile (fun x => (digitValue x).isSome)
        (digitsValue ds).map (fun n => (JSVal.num (JSNum.ofNat n), (c :: rest).drop ds.length))
      else
        match strip "true" (c :: rest), strip "false" (c :: rest), strip "null" (c :: rest) with
        | some r, _, _ => some (JSVal.bool true, r)
        | _, some r, _ => some (JSVal.bool false, r)
        | _, _, some r => some (JSVal.null, r)
        | _, _, _ => none
/-- The members of an object, up to and including its closing brace. -/
def members : Nat → List Char → Option (List (String × JSVal) × List Char)
  | 0, _ => none
  | fuel + 1, cs =>
    match cs.dropWhile isSpace with
    | [] => none
    | c :: rest =>
      if c.toNat == 34 then
        match stringBody rest [] with
        | none => none
        | some (key, rest1) =>
          match rest1.dropWhile isSpace with
          | [] => none
          | c2 :: rest2 =>
            if c2.toNat == 58 then
              match value fuel rest2 with
              | none => none
              | some (v, rest3) =>
                match rest3.dropWhile isSpace with
                | [] => none
                | c4 :: rest4 =>
                  if c4.toNat == 125 then some ([(key, v)], rest4)
                  else if c4.toNat == 44 then
                    (members fuel rest4).map (fun r => ((key, v) :: r.1, r.2))
                  else none
            else none
      else none
/-- The items of an array, up to and including its closing bracket. -/
def items : Nat → List Char → Option (List JSVal × List Char)
  | 0, _ => none
  | fuel + 1, cs =>
    match value fuel cs with
    | none => none
    | some (v, rest) =>
      match rest.dropWhile isSpace with
      | [] => none
      | c :: rest1 =>
        if c.toNat == 93 then some ([v], rest1)
        else if c.toNat == 44 then (items fuel rest1).map (fun r => (v :: r.1, r.2))
        else none
end

/-- A whole text as one JSON value. -/
def parse (s : String) : Option JSVal :=
  match value (s.length + 1) s.toList with
  | some (v, rest) => if (rest.dropWhile isSpace).isEmpty then some v else none
  | none => none

end MiniJson

/-- The platform on which the examples are evaluated. -/
def samplePlatform : Platform :=
  { jsonParse := MiniJson.parse
    numberToString := integralToString
    toLowerCase := fun s => s.map Char.toLower
    dateValue := isoDateValue
    viteApiUrl := none }

/-! ## Specification-side definitions and sample data -/

/-- The list `L` with exactly the records removed whose identifier, as a string, is
the string of `id`; the other records stay as they are, in their order. -/
def withoutId (P : Platform) (id : JSVal) : List Expense → List Expense
  | [] => []
  | e :: es =>
    if JSVal.toStr P e.id = JSVal.toStr P id then withoutId P id es
    else e :: withoutId P id es

/-- The message of the error thrown by a call, if it threw. -/
def thrownMessage {α : Type} (r : Except JSError α) : Option String :=
  match r with
  | Except.error e => some e.message
  | Except.ok _ => none

/-- The properties attached to the error thrown by a call, if it threw and they were
attached. -/
def thrownInfo {α : Type} (r : Except JSError α) : Option ErrorInfo :=
  match r with
  | Except.error e => e.info
  | Except.ok _ => none

/-- The value returned by a call, if it returned. -/
def returned {α : Type} (r : Except JSError α) : Option α :=
  match r with
  | Except.error _ => none
  | Except.ok v => some v

/-- The body properties that the gateway's error message does not depend on. -/
def unreadKeys : List String := ["errors", "detail", "title"]

/-- The message precedence of the throwing policy: the first truthy one of the body's
`message` and `error` properties, and the status fallback when there is none. -/
def messagePrecedence (data : JSVal) (status : Nat) : JSVal :=
  match [data.getProp "message", data.getProp "error"].find? JSVal.truthy with
  | some v => v
  | none => JSVal.str ("Request failed (" ++ toString status ++ ")")

/-- The body without its `errors`, `detail` and `title` properties. -/
def withoutUnread (fields : List (String × JSVal)) : List (String × JSVal) :=
  fields.filter (fun kv => !decide (kv.1 ∈ unreadKeys))

/-- A record with a numeric identifier and a description. -/
def Expense.sample (id : Nat) (description : String) : Expense :=
  { id := JSVal.num (JSNum.ofNat id), description := some description, amount := none,
    category := none, date := none }

/-- A non-ok response with the given status and body text. -/
def Response.failure (status : Nat) (text : String) : Response :=
  { ok := false, status := status, text := some text,
    headers := some [("content-type", "application/json")] }

/-- A server on which every request fails with status 500 and an empty body. -/
def failingFetch : Fetch := fun _ => Except.ok (Response.failure 500 "")

/-- The page state with the given list and nothing else going on. -/
def ViewState.ofList (expenses : List Expense) : ViewState :=
  { expenses := expenses, loading := false, error := none, alerts := [] }

/-! ## The non-throwing create variant and the requests of the gateway -/

/-- The request of `createExpense` and `createExpenseRaw`. -/
def createRequest (P : Platform) (expenseData : JSVal) (token : String) : Request :=
  { method := "POST", url := API_BASE_URL P ++ "/api/expenses",
    headers := writeHeaders token, body := some expenseData }

/-- The request of `getExpense`, `updateExpense` and `deleteExpense`, to
`/api/expenses/{id}`. -/
def idRequest (P : Platform) (method : String) (id : JSVal) (token : String)
    (body : Option JSVal) : Request :=
  { method := method, url := API_BASE_URL P ++ "/api/expenses/" ++ JSVal.toStr P id,
    headers := if body.isSome then writeHeaders token else readHeaders token, body := body }

/-- `createExpenseRaw`: POST /api/expenses, returning `parseResponse(res)` whatever the
status. -/
def ExpenseService.createExpenseRaw (P : Platform) (fetch : Fetch) (expenseData : JSVal)
    (token : String) : Except JSError Parsed :=
  match fetch (createRequest P expenseData token) with
  | Except.error e => Except.error e
  | Except.ok res => Except.ok (parseResponse P res)

/-- A gateway function as a program over `fetch`: it ends with a result or a thrown
error, or it issues a request and goes on with the response.  No gateway function
catches a rejected `fetch`, so a rejection ends the program with that error. -/
inductive Call (α : Type) where
  | done (result : Except JSError α)
  | request (req : Request) (next : Response → Call α)

/-- The outcome of a program against a server. -/
def Call.run {α : Type} (fetch : Fetch) : Call α → Except JSError α
  | Call.done result => result
  | Call.request req next =>
    match fetch req with
    | Except.error e => Except.error e
    | Except.ok res => Call.run fetch (next res)

/-- The requests a program issues against a server, in order. -/
def Call.requests {α : Type} (fetch : Fetch) : Call α → List Request
  | Call.done _ => []
  | Call.request req next =>
    req :: (match fetch req with
            | Except.error _ => []
            | Except.ok res => Call.requests fetch (next res))

/-- `getExpense` as a program. -/
def getExpenseCall (P : Platform) (id : JSVal) (token : String) : Call JSVal :=
  if !id.truthy then Call.done (Except.error idRequired)
  else Call.request (idRequest P "GET" id token none)
    (fun res => Call.done (handleResponse P res))

/-- `updateExpense` as a program. -/
def updateExpenseCall (P : Platform) (id : JSVal) (expenseData : JSVal) (token : String) :
    Call JSVal :=
  if !id.truthy then Call.done (Except.error idRequired)
  else Call.request (idRequest P "PUT" id token (some expenseData))
    (fun res => Call.done (handleResponse P res))

/-- `deleteExpense` as a program. -/
def deleteExpenseCall (P : Platform) (id : JSVal) (token : String) : Call Bool :=
  if !id.truthy then Call.done (Except.error idRequired)
  else Call.request (idRequest P "DELETE" id token none)
    (fun res =>
      if res.ok then Call.done (Except.ok true)
      else
        Call.done (Except.error (responseError P (parseResponse P res)
          ("Delete failed (" ++ toString (parseResponse P res).status ++ ")"))))

/-- A server that answers every request with the given response. -/
def constFetch (res : Response) : Fetch := fun _ => Except.ok res

/-- A response with the given flag, status and body text. -/
def Response.ofText (ok : Bool) (status : Nat) (text : String) : Response :=
  { ok := ok, status := status, text := some text,
    headers := some [("content-type", "application/json")] }

/-! ## Numbers from form fields -/

/-- The function `isNaN` on a number. -/
def JSNum.isNaN : JSNum → Bool
  | JSNum.nan => true
  | _ => false

/-- The `<` operator on numbers (`false` when an operand is `NaN`). -/
def JSNum.lt : JSNum → JSNum → Bool
  | JSNum.fin a, JSNum.fin b => decide (a < b)
  | JSNum.fin _, JSNum.inf s => !s
  | JSNum.inf s, JSNum.fin _ => s
  | JSNum.inf s, JSNum.inf t => s && !t
  | _, _ => false

/-- The `<=` operator on numbers (`false` when an operand is `NaN`). -/
def JSNum.le : JSNum → JSNum → Bool
  | JSNum.fin a, JSNum.fin b => decide (a ≤ b)
  | JSNum.fin _, JSNum.inf s => !s
  | JSNum.inf s, JSNum.fin _ => s
  | JSNum.inf s, JSNum.inf t => s || !t
  | _, _ => false

/-- Value of a digit in the given base (up to 16). -/
def baseDigit (base : Nat) (c : Char) : Option Nat :=
  let n := c.toNat
  let v : Option Nat :=
    if 48 ≤ n && n ≤ 57 then some (n - 48)
    else if 97 ≤ n && n ≤ 102 then some (n - 87)
    else if 65 ≤ n && n ≤ 70 then some (n - 55)
    else none
  match v with
  | some d => if d < base then some d else none
  | none => none

/-- Value of a non-empty string of digits in the given base. -/
def baseDigits (base : Nat) : List Char → Option Nat
  | [] => none
  | cs => cs.foldl (fun acc c => match acc, baseDigit base c with
                                 | some n, some d => some (base * n + d)
                                 | _, _ => none) (some 0)

/-- The number nearest to `± mant * 10^exp10`. -/
def decimalValue (neg : Bool) (mant : Nat) (exp10 : Int) : JSNum :=
  if 0 ≤ exp10 then JSNum.ofRatio neg (mant * 10 ^ exp10.toNat * JSNum.unit) 1
  else JSNum.ofRatio neg (mant * JSNum.unit) (10 ^ (-exp10).toNat)

/-- The exponent part of a decimal literal, which must be the rest of the text:
nothing, or `e` or `E`, an optional sign, and digits. -/
def exponentPart (cs : List Char) : Option Int :=
  match cs with
  | [] => some 0
  | c :: rest =>
    if c.toNat == 101 || c.toNat == 69 then
      match rest with
      | [] => none
      | d :: rest1 =>
        if d.toNat == 43 then (baseDigits 10 rest1).map (fun n => (n : Int))
        else if d.toNat == 45 then (baseDigits 10 rest1).map (fun n => -(n : Int))
        else (baseDigits 10 (d :: rest1)).map (fun n => (n : Int))
    else none

/-- An unsigned decimal literal: `Infinity`, or digits with an optional fraction and
exponent, at least one digit before or after the point. -/
def unsignedDecimal (neg : Bool) (cs : List Char) : JSNum :=
  if cs == "Infinity".toList then JSNum.inf neg
  else
    let isDigit := fun (c : Char) => (baseDigit 10 c).isSome
    let ip := cs.takeWhile isDigit
    let r1 := cs.dropWhile isDigit
    let afterPoint : Option (List Char) :=
      match r1 with
      | c :: rest => if c.toNat == 46 then some rest else none
      | [] => none
    let fp := match afterPoint with
      | some rest => rest.takeWhile isDigit
      | none => []
    let r2 := match afterPoint with
      | some rest => rest.dropWhile isDigit
      | none => r1
    if ip.isEmpty && fp.isEmpty then JSNum.nan
    else
      match exponentPart r2 with
      | none => JSNum.nan
      | some e => decimalValue neg ((baseDigits 10 (ip ++ fp)).getD 0) (e - (fp.length : Int))

/-- The conversion `Number(text)` of a string: white space is trimmed, the empty text
is `0`, a decimal or `0x`/`0o`/`0b` literal is its nearest number, anything else is
`NaN`. -/
def stringToNumber (s : String) : JSNum :=
  match (jsTrim s).toList with
  | [] => JSNum.zero
  | c :: rest =>
    let radix : Option Nat :=
      match rest with
      | x :: _ =>
        if c.toNat == 48 then
          (if x.toNat == 120 || x.toNat == 88 then some 16
           else if x.toNat == 111 || x.toNat == 79 then some 8
           else if x.toNat == 98 || x.toNat == 66 then some 2
           else none)
        else none
      | [] => none
    match radix with
    | some base =>
      (match baseDigits base (rest.drop 1) with
       | some n => JSNum.ofNat n
       | none => JSNum.nan)
    | none =>
      if c.toNat == 43 then unsignedDecimal false rest
      else if c.toNat == 45 then unsignedDecimal true rest
      else unsignedDecimal false (c :: rest)

/-! ## Pages with a form (`AddExpense.jsx`, `ModifyExpense.jsx`) -/

/-- Where an asynchronous handler of a page with state `σ` stands after its
synchronous first part: it has returned without calling the gateway, or it is suspended
at its `await` on the gateway call described by `call`. -/
inductive Pending (σ κ : Type) where
  | returned (st : σ)
  | awaiting (st : σ) (call : κ)

/-- The `formData` state of the two form pages; every field is the text of an input. -/
structure ExpenseForm where
  description : String
  amount : String
  category : String
  date : String

/-- The item text used by `Array.prototype.join`: empty for `null` and `undefined`. -/
def itemString (P : Platform) (v : JSVal) : String :=
  match v with
  | JSVal.undefined => ""
  | JSVal.null => ""
  | w => JSVal.toStr P w

/-- The method `Array.prototype.join(sep)`. -/
def joinWith (P : Platform) (sep : String) (items : List JSVal) : String :=
  String.intercalate sep (items.map (itemString P))

/-- The array index keys `"0"`, `"1"`, ... paired with the items. -/
def indexed (start : Nat) : List JSVal → List (String × JSVal)
  | [] => []
  | v :: rest => (toString start, v) :: indexed (start + 1) rest

/-- The function `Object.entries` on a truthy value: the properties of an object in
property order, the indexed items of an array, the indexed characters of a string,
nothing for a number or a boolean. -/
def objectEntries (v : JSVal) : List (String × JSVal) :=
  match v with
  | JSVal.obj fields => fields
  | JSVal.arr items => indexed 0 items
  | JSVal.str s => indexed 0 (s.toList.map (fun c => JSVal.str (String.mk [c])))
  | _ => []

/-- The test `typeof v === 'object'` on a truthy value. -/
def isObjectType (v : JSVal) : Bool :=
  match v with
  | JSVal.obj _ => true
  | JSVal.arr _ => true
  | _ => false

namespace AddExpense

/-- State of the AddExpense page; `error` holds what `setError` received, `navigation`
the target of the scheduled `navigate` call. -/
structure State where
  formData : ExpenseForm
  error : JSVal
  success : String
  loading : Bool
  serverDebug : Option Parsed
  navigation : Option String

/-- One line of the field-level error rendering:
the template `k: (Array.isArray(v) ? v.join(', ') : v)`. -/
def errorPart (P : Platform) (kv : String × JSVal) : String :=
  kv.1 ++ ": " ++
    (match kv.2 with
     | JSVal.arr items => joinWith P ", " items
     | w => JSVal.toStr P w)

/-- The function `formatServerDebug` on a normalised result. -/
def formatServerDebug (P : Platform) (dbg : Parsed) : JSVal :=
  let data := dbg.data
  let fromData : Option JSVal :=
    if data.truthy && isObjectType data then
      if (data.getProp "errors").truthy then
        some (JSVal.str (String.intercalate " • "
          ((objectEntries (data.getProp "errors")).map (errorPart P))))
      else if (data.getProp "detail").truthy then
        some (JSVal.str
          ((if (data.getProp "title").truthy then JSVal.toStr P (data.getProp "title") ++ " — "
            else "") ++ JSVal.toStr P (data.getProp "detail")))
      else if (data.getProp "message").truthy then some (data.getProp "message")
      else if (data.getProp "error").truthy then some (data.getProp "error")
      else none
    else none
  match fromData with
  | some v => v
  | none =>
    if optTruthy dbg.raw then JSVal.str (dbg.raw.getD "")
    else JSVal.str ("Status " ++ toString dbg.status)

/-- The expression `user?.id || user?.userId || 0`. -/
def userIdOf (user : JSVal) : JSVal :=
  if (user.getProp "id").truthy then user.getProp "id"
  else if (user.getProp "userId").truthy then user.getProp "userId"
  else JSVal.num JSNum.zero

/-- The `payload` object of `handleSubmit`. -/
def payload (user : JSVal) (form : ExpenseForm) : JSVal :=
  JSVal.obj [("description", JSVal.str (jsTrim form.description)),
             ("amount", JSVal.num (stringToNumber form.amount)),
             ("category", JSVal.str form.category),
             ("date", JSVal.str form.date),
             ("userId", userIdOf user)]

/-- `handleSubmit` up to `await ExpenseService.createExpenseRaw(payload, token)`: the
four validations and the token check, each returning with its error; the call carries
the payload and the token. -/
def handleSubmitStart (user : JSVal) (token : Option String) (st : State) :
    Pending State (JSVal × String) :=
  let st1 := { st with loading := true, error := JSVal.str "", success := "",
                       serverDebug := none }
  if jsTrim st.formData.description == "" then
    Pending.returned { st1 with error := JSVal.str "Description is required.", loading := false }
  else if (stringToNumber st.formData.amount).isNaN
      || (stringToNumber st.formData.amount).le JSNum.zero then
    Pending.returned { st1 with error := JSVal.str "Please enter a valid amount greater than 0.",
                                loading := false }
  else if st.formData.category == "" then
    Pending.returned { st1 with error := JSVal.str "Please select a category.", loading := false }
  else if st.formData.date == "" then
    Pending.returned { st1 with error := JSVal.str "Please select a date.", loading := false }
  else if !optTruthy token then
    Pending.returned { st1 with error := JSVal.str "You are not authenticated. Please login again.",
                                loading := false }
  else Pending.awaiting st1 (payload user st.formData, token.getD "")

/-- The relaxed success test
`res.ok || (res.data && (res.data.id || res.data.success || res.data.created))`. -/
def createSucceeded (res : Parsed) : Bool :=
  res.ok || (res.data.truthy &&
    ((res.data.getProp "id").truthy || (res.data.getProp "success").truthy
      || (res.data.getProp "created").truthy))

/-- `handleSubmit` from the settled `createExpenseRaw` call on. -/
def handleSubmitFinish (P : Platform) (outcome : Except JSError Parsed) (st : State) : State :=
  match outcome with
  | Except.ok res =>
    let st1 := { st with serverDebug := some res }
    if createSucceeded res then
      { st1 with success := "Expense added successfully.", navigation := some "/dashboard",
                 loading := false }
    else
      let friendly := formatServerDebug P res
      { st1 with error := (if friendly.truthy then friendly
                           else JSVal.str ("Server returned " ++ toString res.status)),
                 loading := false }
  | Except.error err =>
    { st with error := JSVal.str (if err.message != "" then err.message
                                  else "An unexpected error occurred."),
              loading := false }

/-- The handler `handleSubmit`, run to completion against the gateway. -/
def handleSubmit (P : Platform) (fetch : Fetch) (user : JSVal) (token : Option String)
    (st : State) : State :=
  match handleSubmitStart user token st with
  | Pending.returned st1 => st1
  | Pending.awaiting st1 call =>
    handleSubmitFinish P (ExpenseService.createExpenseRaw P fetch call.1 call.2) st1

end AddExpense

namespace ModifyExpense

/-- State of the ModifyExpense page. -/
structure State where
  formData : ExpenseForm
  error : JSVal
  loading : Bool
  fetching : Bool
  navigation : Option String

/-- `fetchExpense` up to `await ExpenseService.getExpenses(token)`. -/
def fetchExpenseStart (token : Option String) (st : State) : Pending State String :=
  let st1 := { st with fetching := true, error := JSVal.str "" }
  if !optTruthy token then
    Pending.returned { st1 with error := JSVal.str "Not authenticated. Please login again.",
                                fetching := false }
  else Pending.awaiting st1 (token.getD "")

/-- The `payload` object of `handleSubmit`. -/
def payload (form : ExpenseForm) : JSVal :=
  JSVal.obj [("description", JSVal.str (jsTrim form.description)),
             ("amount", JSVal.num (stringToNumber form.amount)),
             ("category", JSVal.str form.category),
             ("date", JSVal.str form.date)]

/-- `handleSubmit` up to `await ExpenseService.updateExpense(id, payload, token)`; the
call carries the route identifier, the payload and the token. -/
def handleSubmitStart (id : JSVal) (token : Option String) (st : State) :
    Pending State (JSVal × JSVal × String) :=
  let st1 := { st with loading := true, error := JSVal.str "" }
  if jsTrim st.formData.description == "" then
    Pending.returned { st1 with error := JSVal.str "Description is required.", loading := false }
  else if st.formData.amount == "" || (stringToNumber st.formData.amount).isNaN
      || (stringToNumber st.formData.amount).lt JSNum.zero then
    Pending.returned { st1 with error := JSVal.str "Please enter a valid amount.",
                                loading := false }
  else if st.formData.category == "" then
    Pending.returned { st1 with error := JSVal.str "Please select a category.", loading := false }
  else if st.formData.date == "" then
    Pending.returned { st1 with error := JSVal.str "Please select a date.", loading := false }
  else if !optTruthy token then
    Pending.returned { st1 with error := JSVal.str "Not authenticated. Please login again.",
                                loading := false }
  else Pending.awaiting st1 (id, payload st.formData, token.getD "")

/-- `handleSubmit` from the settled `updateExpense` call on. -/
def handleSubmitFinish (outcome : Except JSError JSVal) (st : State) : State :=
  match outcome with
  | Except.ok updated =>
    if !updated.truthy then
      { st with error := JSVal.str "No response from server.", loading := false }
    else if (updated.getProp "id").truthy || (updated.getProp "success").truthy
        || (updated.truthy && !(updated.getProp "error").truthy) then
      { st with navigation := some "/view-expenses", loading := false }
    else if (updated.getProp "error").truthy then
      { st with error := (if (updated.getProp "error").truthy then updated.getProp "error"
                          else JSVal.str "Failed to update expense"),
                loading := false }
    else if (updated.getProp "message").truthy then
      { st with error := updated.getProp "message", loading := false }
    else { st with navigation := some "/view-expenses", loading := false }
  | Except.error _ =>
    { st with error := JSVal.str "An error occurred. Please try again.", loading := false }

/-- The handler `handleSubmit`, run to completion against the gateway. -/
def handleSubmit (P : Platform) (fetch : Fetch) (id : JSVal) (token : Option String)
    (st : State) : State :=
  match handleSubmitStart id token st with
  | Pending.returned st1 => st1
  | Pending.awaiting st1 call =>
    handleSubmitFinish (ExpenseService.updateExpense P fetch call.1 call.2.1 call.2.2) st1

end ModifyExpense

namespace Dashboard

/-- State of the Dashboard page; `expenses` holds the array that `setExpenses` received,
its items as they came from the server. -/
structure State where
  expenses : List JSVal
  stats : Stats
  loading : Bool
  error : JSVal

/-- The statistics `{ total: 0, count: 0, average: 0 }`. -/
def emptyStats : Stats := { total := JSNum.zero, count := 0, average := JSNum.zero }

/-- `fetchExpenses` up to `await ExpenseService.getExpenses(token)`. -/
def fetchExpensesStart (token : Option String) (st : State) : Pending State String :=
  let st1 := { st with loading := true, error := JSVal.null }
  if !optTruthy token then
    Pending.returned { st1 with error := JSVal.str "Not authenticated. Please login.",
                                expenses := [], stats := emptyStats, loading := false }
  else Pending.awaiting st1 (token.getD "")

end Dashboard

/-! ## The session store (`App.jsx`) -/

/-- A hexadecimal digit, lower case. -/
def hexDigit (n : Nat) : Char :=
  if n < 10 then Char.ofNat (48 + n) else Char.ofNat (87 + n)

/-- The escape of one character inside a JSON string. -/
def quoteChar (c : Char) : List Char :=
  let n := c.toNat
  if n == 34 then [Char.ofNat 92, Char.ofNat 34]
  else if n == 92 then [Char.ofNat 92, Char.ofNat 92]
  else if n == 8 then [Char.ofNat 92, Char.ofNat 98]
  else if n == 9 then [Char.ofNat 92, Char.ofNat 116]
  else if n == 10 then [Char.ofNat 92, Char.ofNat 110]
  else if n == 12 then [Char.ofNat 92, Char.ofNat 102]
  else if n == 13 then [Char.ofNat 92, Char.ofNat 114]
  else if n < 32 then
    [Char.ofNat 92, Char.ofNat 117, Char.ofNat 48, Char.ofNat 48, hexDigit (n / 16),
     hexDigit (n % 16)]
  else [c]

/-- The abstract operation QuoteJSONString. -/
def quoteJSON (s : String) : String :=
  String.mk ([Char.ofNat 34] ++ (s.toList.map quoteChar).flatten ++ [Char.ofNat 34])

mutual
/-- The function `JSON.stringify` on a value; `none` is the result `undefined`. -/
def jsonStringify (P : Platform) : JSVal → Option String
  | JSVal.undefined => none
  | JSVal.null => some "null"
  | JSVal.bool b => some (if b then "true" else "false")
  | JSVal.num n =>
    some (match n with
          | JSNum.fin _ => P.numberToString n
          | _ => "null")
  | JSVal.str s => some (quoteJSON s)
  | JSVal.arr items => some ("[" ++ stringifyItems P true items ++ "]")
  | JSVal.obj fields => some ("\x7b" ++ stringifyFields P true fields ++ "\x7d")
/-- The items of an array, separated by commas; `undefined` is written `null`. -/
def stringifyItems (P : Platform) (first : Bool) : List JSVal → String
  | [] => ""
  | v :: rest =>
    (if first then "" else ",") ++ (jsonStringify P v).getD "null"
      ++ stringifyItems P false rest
/-- The properties of an object, separated by commas; a property whose value is
`undefined` is left out. -/
def stringifyFields (P : Platform) (first : Bool) : List (String × JSVal) → String
  | [] => ""
  | (k, v) :: rest =>
    match jsonStringify P v with
    | none => stringifyFields P first rest
    | some text =>
      (if first then "" else ",") ++ quoteJSON k ++ ":" ++ text
        ++ stringifyFields P false rest
end

/-- The two keys of `localStorage` that the application uses; `none` is an absent key. -/
structure Storage where
  token : Option String
  user : Option String

namespace App

/-- The stored keys together with the state of the `App` component. -/
structure State where
  storage : Storage
  isAuthenticated : Bool
  user : JSVal
  loading : Bool

/-- The state of a freshly mounted `App` over the given storage, before its effect. -/
def mounted (storage : Storage) : State :=
  { storage := storage, isAuthenticated := false, user := JSVal.null, loading := true }

/-- The mount effect of `App`: the startup read of the stored session.  It throws when
the stored user record is not JSON; the message of that `SyntaxError` is
engine-specific, and a fixed text stands for it. -/
def startupRead (P : Platform) (storage : Storage) : Except JSError State :=
  let st := mounted storage
  if optTruthy storage.token && optTruthy storage.user then
    match P.jsonParse (storage.user.getD "") with
    | some u => Except.ok { st with isAuthenticated := true, user := u, loading := false }
    | none => Except.error { message := "Unexpected token in JSON", info := none }
  else Except.ok { st with loading := false }

/-- The handler `handleLogin(token, userData)`; `setItem` stores the string of its
argument. -/
def handleLogin (P : Platform) (token userData : JSVal) (st : State) : State :=
  { st with storage := { token := some (JSVal.toStr P token),
                         user := some ((jsonStringify P userData).getD "undefined") },
            isAuthenticated := true, user := userData }

/-- The handler `handleLogout()`. -/
def handleLogout (st : State) : State :=
  { st with storage := { token := none, user := none },
            isAuthenticated := false, user := JSVal.null }

end App

/-- A user record is JSON-serialisable: `JSON.stringify` gives a non-empty text that
`JSON.parse` reads back as the same record. -/
def Serialisable (P : Platform) (u : JSVal) : Prop :=
  ∃ text, jsonStringify P u = some text ∧ text ≠ "" ∧ P.jsonParse text = some u

/-- The session invariant: the in-memory session exists exactly when the storage holds
a non-empty token and a non-empty user record. -/
def SessionInvariant (st : App.State) : Prop :=
  st.isAuthenticated = true ↔
    (optTruthy st.storage.token = true ∧ optTruthy st.storage.user = true)

/-- The user record `{ id: 7, name: "Ann", email: "ann@example.com" }`. -/
def sampleUser : JSVal :=
  JSVal.obj [("id", JSVal.num (JSNum.ofNat 7)), ("name", JSVal.str "Ann"),
             ("email", JSVal.str "ann@example.com")]

/-! ## Specification-side definitions for the form pages -/

/-- A body carries the marker `key`: its property `key` is truthy. -/
def HasMarker (data : JSVal) (key : String) : Prop := (data.getProp key).truthy = true

instance (data : JSVal) (key : String) : Decidable (HasMarker data key) := by
  unfold HasMarker; infer_instance

/-- The message of the first check that fails, in the order of the list. -/
def firstFailure (checks : List (Bool × String)) : Option String :=
  (checks.find? (fun c => !c.1)).map (fun c => c.2)

/-- The checks of the create form, in order, each with its message: description not
blank (not empty once trimmed), amount read by `Number` as a number greater than 0,
category selected, date selected. -/
def AddExpense.checks (form : ExpenseForm) : List (Bool × String) :=
  [(jsTrim form.description != "", "Description is required."),
   (!(stringToNumber form.amount).isNaN && JSNum.lt JSNum.zero (stringToNumber form.amount),
    "Please enter a valid amount greater than 0."),
   (form.category != "", "Please select a category."),
   (form.date != "", "Please select a date.")]

/-- An amount text is numeric: it is not empty and `Number` reads it as a number. -/
def Numeric (amount : String) : Prop := amount ≠ "" ∧ (stringToNumber amount).isNaN = false

instance (amount : String) : Decidable (Numeric amount) := by
  unfold Numeric; infer_instance

/-- The checks of the edit form, in order, each with its message: description not
blank (not empty once trimmed), amount numeric and at least 0, category selected, date
selected. -/
def ModifyExpense.checks (form : ExpenseForm) : List (Bool × String) :=
  [(jsTrim form.description != "", "Description is required."),
   (decide (Numeric form.amount) && JSNum.le JSNum.zero (stringToNumber form.amount),
    "Please enter a valid amount."),
   (form.category != "", "Please select a category."),
   (form.date != "", "Please select a date.")]

/-- The checks of the create form as the specification words them, the first being
that the description is not empty. -/
def AddExpense.claimedChecks (form : ExpenseForm) : List (Bool × String) :=
  [(form.description != "", "Description is required."),
   (!(stringToNumber form.amount).isNaN && JSNum.lt JSNum.zero (stringToNumber form.amount),
    "Please enter a valid amount greater than 0."),
   (form.category != "", "Please select a category."),
   (form.date != "", "Please select a date.")]

/-- The checks of the edit form as the specification words them, the first being that
the description is not empty. -/
def ModifyExpense.claimedChecks (form : ExpenseForm) : List (Bool × String) :=
  [(form.description != "", "Description is required."),
   (decide (Numeric form.amount) && JSNum.le JSNum.zero (stringToNumber form.amount),
    "Please enter a valid amount."),
   (form.category != "", "Please select a category."),
   (form.date != "", "Please select a date.")]

/-- The sample form with a description of three spaces. -/
def blankDescriptionForm : ExpenseForm :=
  { description := "   ", amount := "12.50", category := "Food", date := "2024-03-01" }

/-- A filled-in form. -/
def sampleForm : ExpenseForm :=
  { description := "Lunch", amount := "12.50", category := "Food", date := "2024-03-01" }

/-- The AddExpense page showing the given form and nothing else. -/
def AddExpense.State.ofForm (form : ExpenseForm) : AddExpense.State :=
  { formData := form, error := JSVal.str "", success := "", loading := false,
    serverDebug := none, navigation := none }

/-- The ModifyExpense page showing the given form and nothing else. -/
def ModifyExpense.State.ofForm (form : ExpenseForm) : ModifyExpense.State :=
  { formData := form, error := JSVal.str "", loading := false, fetching := false,
    navigation := none }

/-! ## The auth gateway (`AuthService.js`) -/

/-- The result `{ ok, status, data }` of the auth gateway. -/
structure AuthResult where
  ok : Bool
  status : Nat
  data : JSVal

/-- The function `handleResponse` of `AuthService.js`: `data` starts as `null`, and the
empty `catch` leaves it there when the text is not JSON. -/
def AuthService.handleResponse (P : Platform) (response : Response) : AuthResult :=
  let text := response.text
  let data : JSVal :=
    match text with
    | none => JSVal.null
    | some t =>
      if t != "" then
        match P.jsonParse t with
        | some v => v
        | none => JSVal.null
      else JSVal.null
  { ok := response.ok, status := response.status, data := data }

/-! ## What the gateway does with the body of a response -/

/-- An access to the body of a response: the call `response.text()`, or `JSON.parse` on
the text read. -/
inductive BodyAccess where
  | text
  | jsonParse (raw : String)
deriving DecidableEq, Repr

/-- The body accesses of `parseResponse`, in order: the text is read, and parsed when
it is truthy. -/
def parseResponseAccesses (response : Response) : List BodyAccess :=
  BodyAccess.text ::
    (match response.text with
     | some t => if t != "" then [BodyAccess.jsonParse t] else []
     | none => [])

/-- The body accesses of `deleteExpense`: none before the response arrives, none after
`if (res.ok) return true`, those of `parseResponse` otherwise. -/
def deleteExpenseAccesses (P : Platform) (fetch : Fetch) (id : JSVal) (token : String) :
    List BodyAccess :=
  if !id.truthy then []
  else
    match fetch (idRequest P "DELETE" id token none) with
    | Except.error _ => []
    | Except.ok res => if res.ok then [] else parseResponseAccesses res

/-- The body of a normalised result carries an error text: its `message` or its
`error` property is truthy. -/
def HasErrorText (data : JSVal) : Prop :=
  (data.getProp "message").truthy = true ∨ (data.getProp "error").truthy = true

instance (data : JSVal) : Decidable (HasErrorText data) := by
  unfold HasErrorText; infer_instance

/-! ## Loading the edit form (`ModifyExpense.jsx`, `fetchExpense`) -/

/-- The values `null` and `undefined`, on which a property read throws a `TypeError`. -/
def isNullish : JSVal → Bool
  | JSVal.undefined => true
  | JSVal.null => true
  | _ => false

/-- The property read `v.key` as evaluated: `none` is the `TypeError` thrown when `v` is
`null` or `undefined`. -/
def readProp (v : JSVal) (key : String) : Option JSVal :=
  if isNullish v then none else some (v.getProp key)

/-- The test `Array.isArray(v)`. -/
def isArray : JSVal → Bool
  | JSVal.arr _ => true
  | _ => false

/-- The pieces of a text between the occurrences of a separator character. -/
def splitChars (sep : Char) : List Char → List (List Char)
  | [] => [[]]
  | c :: cs =>
    if c = sep then [] :: splitChars sep cs
    else
      match splitChars sep cs with
      | [] => [[c]]
      | piece :: pieces => (c :: piece) :: pieces

/-- The method `String.prototype.split(sep)` for a separator of one character. -/
def jsSplit (s : String) (sep : Char) : List String :=
  (splitChars sep s.toList).map String.mk

/-- The expression `v || ''`. -/
def orEmpty (v : JSVal) : JSVal := if v.truthy then v else JSVal.str ""

namespace ModifyExpense

/-- The object that `fetchExpense` gives to `setFormData`; `amount` and `date` are
always texts. -/
structure LoadedForm where
  description : JSVal
  amount : String
  category : JSVal
  date : String

/-- What a completed `fetchExpense` has set: the message given to `setError`, or the
object given to `setFormData`. -/
inductive Fetched where
  | failed (error : String)
  | loaded (form : LoadedForm)

/-- The call `data.find(item => String(item.id) === String(id))`: the first item whose
callback result is true, `undefined` when there is none; `none` is the `TypeError` of
the callback on an item that is `null` or `undefined`. -/
def findById (P : Platform) (id : JSVal) : List JSVal → Option JSVal
  | [] => some JSVal.undefined
  | item :: rest =>
    match readProp item "id" with
    | none => none
    | some v => if JSVal.toStr P v = JSVal.toStr P id then some item else findById P id rest

/-- The lookup of `fetchExpense` in a truthy body: `find` on an array; on any other
object the body itself when its `id` is truthy and equal, else its `result` when that is
truthy and has an equal `id`; `null` otherwise. -/
def locate (P : Platform) (data id : JSVal) : Option JSVal :=
  match data with
  | JSVal.arr items => findById P id items
  | JSVal.obj _ =>
    if (data.getProp "id").truthy && JSVal.toStr P (data.getProp "id") = JSVal.toStr P id then
      some data
    else if (data.getProp "result").truthy
        && JSVal.toStr P ((data.getProp "result").getProp "id") = JSVal.toStr P id then
      some (data.getProp "result")
    else some JSVal.null
  | _ => some JSVal.null

/-- The expression `expense.date ? expense.date.split('T')[0] : ''`; `none` is the
`TypeError` raised when the date is truthy and has no `split` method. -/
def dateOnly (expense : JSVal) : Option String :=
  let date := expense.getProp "date"
  if date.truthy then
    match date with
    | JSVal.str s => (jsSplit s (Char.ofNat 84)).head?
    | _ => none
  else some ""

/-- The expression `expense.amount != null ? String(expense.amount) : ''`. -/
def amountText (P : Platform) (expense : JSVal) : String :=
  if !isNullish (expense.getProp "amount") then JSVal.toStr P (expense.getProp "amount") else ""

/-- The message set by the `catch` block of `fetchExpense`. -/
def fetchFailed : String := "An error occurred while fetching the expense. Please try again."

/-- `fetchExpense` from the settled `getExpenses` call on. -/
def fetchExpenseFinish (P : Platform) (id : JSVal) (outcome : Except JSError JSVal) : Fetched :=
  match outcome with
  | Except.error _ => Fetched.failed fetchFailed
  | Except.ok data =>
    if !data.truthy then Fetched.failed "Failed to load expense data."
    else
      match locate P data id with
      | none => Fetched.failed fetchFailed
      | some expense =>
        if !expense.truthy then Fetched.failed "Expense not found."
        else
          match dateOnly expense with
          | none => Fetched.failed fetchFailed
          | some day =>
            Fetched.loaded
              { description := orEmpty (expense.getProp "description")
                amount := amountText P expense
                category := orEmpty (expense.getProp "category")
                date := day }

end ModifyExpense

/-- A JSON object, which is what a record is. -/
def isRecord : JSVal → Bool
  | JSVal.obj _ => true
  | _ => false

/-- The values the lookup strategies of the edit page consider, in order: the items of
a list body; for another object the body itself when it has a truthy `id`, then the
value of its `result` property when that is truthy. -/
def lookupCandidates (data : JSVal) : List JSVal :=
  match data with
  | JSVal.arr items => items
  | JSVal.obj _ =>
    (if (data.getProp "id").truthy then [data] else []) ++
    (if (data.getProp "result").truthy then [data.getProp "result"] else [])
  | _ => []

/-- The record has the route identifier: the two are equal as strings. -/
def HasId (P : Platform) (id record : JSVal) : Prop :=
  JSVal.toStr P (record.getProp "id") = JSVal.toStr P id

instance (P : Platform) (id record : JSVal) : Decidable (HasId P id record) := by
  unfold HasId; infer_instance

/-- The text `day` is the text `date` cut at its first `T`: `date` is `day` followed by
nothing or by a rest that starts with `T`, and `day` has no `T`. -/
def IsDayOf (day date : String) : Prop :=
  ∃ rest : List Char, date.toList = day.toList ++ rest ∧ Char.ofNat 84 ∉ day.toList ∧
    (rest = [] ∨ rest.head? = some (Char.ofNat 84))

/-! ## Loading the dashboard (`Dashboard.jsx`, `fetchExpenses`) -/

/-- The conversion `Number(v)`: an array or object converts through its string. -/
def JSVal.toNumber (P : Platform) : JSVal → JSNum
  | JSVal.undefined => JSNum.nan
  | JSVal.null => JSNum.zero
  | JSVal.bool b => if b then JSNum.ofNat 1 else JSNum.zero
  | JSVal.num n => n
  | JSVal.str s => stringToNumber s
  | v => stringToNumber (JSVal.toStr P v)

/-- The expression `v || 0`. -/
def orZero (v : JSVal) : JSVal := if v.truthy then v else JSVal.num JSNum.zero

/-- The error thrown by a property read on `null` or `undefined`.  The message of this
`TypeError` is engine-specific; a fixed non-empty text stands for it. -/
def typeError : JSError := { message := "Cannot read properties of null", info := none }

namespace Dashboard

/-- The reducer `(sum, expense) => sum + Number(expense.amount || 0)`; `none` is the
`TypeError` of reading `amount` on `null` or `undefined`. -/
def addAmount (P : Platform) (sum : JSNum) (expense : JSVal) : Option JSNum :=
  match readProp expense "amount" with
  | none => none
  | some amount => some (JSNum.add sum (JSVal.toNumber P (orZero amount)))

/-- The call `data.reduce(reducer, sum)`, from the left. -/
def reduceAmounts (P : Platform) : JSNum → List JSVal → Option JSNum
  | sum, [] => some sum
  | sum, expense :: rest =>
    match addAmount P sum expense with
    | none => none
    | some next => reduceAmounts P next rest

/-- The statistics built from `total` and `count`: `average` is
`count > 0 ? total / count : 0`, stored as `Math.round(average * 100) / 100`. -/
def statsOf (total : JSNum) (count : Nat) : Stats :=
  let average := if count > 0 then JSNum.div total (JSNum.ofNat count) else JSNum.zero
  { total := total
    count := count
    average := JSNum.div (JSNum.mathRound (JSNum.mul average JSNum.hundred)) JSNum.hundred }

/-- The `catch` block of `fetchExpenses`, followed by `finally`. -/
def fetchExpensesCatch (err : JSError) (st : State) : State :=
  { st with
    error := JSVal.str (if err.message != "" then err.message else "Error fetching expenses")
    expenses := []
    stats := emptyStats
    loading := false }

/-- `fetchExpenses` from the settled `getExpenses` call on.  For an array body
`setExpenses(data)` comes before the aggregation; when the aggregation throws, the
`catch` block empties the list again. -/
def fetchExpensesFinish (P : Platform) (outcome : Except JSError JSVal) (st : State) : State :=
  match outcome with
  | Except.error err => fetchExpensesCatch err st
  | Except.ok data =>
    match data with
    | JSVal.arr items =>
      match reduceAmounts P JSNum.zero items with
      | some total =>
        { st with expenses := items, stats := statsOf total items.length, loading := false }
      | none => fetchExpensesCatch typeError st
    | _ =>
      { st with
        error :=
          (if data.truthy && (data.getProp "error").truthy then data.getProp "error"
           else if data.truthy && (data.getProp "message").truthy then data.getProp "message"
           else JSVal.str "Failed to load expenses.")
        expenses := []
        stats := emptyStats
        loading := false }

/-- The function `fetchExpenses`, run to completion against the gateway. -/
def fetchExpenses (P : Platform) (fetch : Fetch) (token : Option String) (st : State) : State :=
  match fetchExpensesStart token st with
  | Pending.returned st1 => st1
  | Pending.awaiting st1 tok => fetchExpensesFinish P (ExpenseService.getExpenses P fetch tok) st1

end Dashboard

/-- The amount of a list item as the dashboard counts it: the number of its `amount`,
and `0` when it has none. -/
def amountValue (P : Platform) (expense : JSVal) : JSNum :=
  JSVal.toNumber P (orZero (expense.getProp "amount"))

/-- The sum of the amounts of a list, added from the left as numbers. -/
def sumOfAmounts (P : Platform) (expenses : List JSVal) : JSNum :=
  (expenses.map (amountValue P)).foldl JSNum.add JSNum.zero

/-- The statistics agree with the list held: `count` is its length and `total` the sum
of its amounts. -/
def Dashboard.Consistent (P : Platform) (st : Dashboard.State) : Prop :=
  st.stats.count = st.expenses.length ∧ st.stats.total = sumOfAmounts P st.expenses

/-- The list is empty and `total`, `count` and `average` are all `0`. -/
def Dashboard.Cleared (st : Dashboard.State) : Prop :=
  st.expenses = [] ∧ st.stats.total = JSNum.zero ∧ st.stats.count = 0 ∧
    st.stats.average = JSNum.zero

/-- The encoding of a typed record as the JSON object it is read from. -/
def Expense.toJSVal (e : Expense) : JSVal :=
  JSVal.obj
    ([("id", e.id)] ++
     (match e.description with | some d => [("description", JSVal.str d)] | none => []) ++
     (match e.amount with | some a => [("amount", JSVal.num a)] | none => []) ++
     (match e.category with | some c => [("category", JSVal.str c)] | none => []) ++
     (match e.date with | some d => [("date", JSVal.str d)] | none => []))

/-! ## Password strength (`Signup.jsx`, `calculateStrength`) -/

/-- The property `length` of a string: the number of UTF-16 code units. -/
def utf16Length (s : String) : Nat :=
  (s.toList.map (fun c => if c.toNat < 0x10000 then 1 else 2)).sum

/-- The test `/[A-Z]/.test(s)`. -/
def hasUpper (s : String) : Bool := s.toList.any (fun c => 65 ≤ c.toNat && c.toNat ≤ 90)

/-- The test `/[0-9]/.test(s)`. -/
def hasDigit (s : String) : Bool := s.toList.any (fun c => 48 ≤ c.toNat && c.toNat ≤ 57)

/-- The test `/[^A-Za-z0-9]/.test(s)`. -/
def hasSpecial (s : String) : Bool :=
  s.toList.any (fun c => !((65 ≤ c.toNat && c.toNat ≤ 90) || (97 ≤ c.toNat && c.toNat ≤ 122)
    || (48 ≤ c.toNat && c.toNat ≤ 57)))

/-- The function `calculateStrength` of the Signup page, returning what it gives to
`setPasswordStrength`. -/
def Signup.calculateStrength (password : String) : Nat :=
  let strength := 0
  let strength := if utf16Length password > 0 then strength + 1 else strength
  let strength := if utf16Length password ≥ 8 then strength + 1 else strength
  let strength := if hasUpper password then strength + 1 else strength
  let strength := if hasDigit password then strength + 1 else strength
  let strength := if hasSpecial password then strength + 1 else strength
  min strength 4

/-- The five criteria of the strength meter: non-empty, at least 8 long, an uppercase
letter `A`-`Z`, a digit `0`-`9`, a character outside `A`-`Z`, `a`-`z`, `0`-`9`. -/
def strengthCriteria (password : String) : List Bool :=
  [decide (password ≠ ""),
   decide (8 ≤ utf16Length password),
   decide (∃ c ∈ password.toList, 'A' ≤ c ∧ c ≤ 'Z'),
   decide (∃ c ∈ password.toList, '0' ≤ c ∧ c ≤ '9'),
   decide (∃ c ∈ password.toList, ¬ (('A' ≤ c ∧ c ≤ 'Z') ∨ ('a' ≤ c ∧ c ≤ 'z') ∨ ('0' ≤ c ∧ c ≤ '9')))]

/-! ## Sample data for the pages -/

/-- The body `[{"id":7,"description":"Lunch","amount":0,"date":"2024-03-05T10:30:00"}]`. -/
def sampleListText : String :=
  "[\x7b\"id\":7,\"description\":\"Lunch\",\"amount\":0,\"date\":\"2024-03-05T10:30:00\"\x7d]"

/-- The record `{"id":7,"description":"Lunch","amount":0,"date":"2024-03-05T10:30:00"}`. -/
def sampleRecord : JSVal :=
  JSVal.obj [("id", JSVal.num (JSNum.ofNat 7)), ("description", JSVal.str "Lunch"),
             ("amount", JSVal.num (JSNum.ofNat 0)), ("date", JSVal.str "2024-03-05T10:30:00")]

/-- A second record with the identifier 7. -/
def sampleDuplicate : JSVal :=
  JSVal.obj [("id", JSVal.str "7"), ("description", JSVal.str "Dinner")]

/-- The body `{"errors":{},"detail":"Invalid input"}`. -/
def emptyErrorsText : String :=
  "\x7b\"errors\":\x7b\x7d,\"detail\":\"Invalid input\"\x7d"

/-- The body `{"detail":"Invalid input"}`. -/
def detailOnlyText : String := "\x7b\"detail\":\"Invalid input\"\x7d"

/-- The settled call returned a list, and the list aggregates without a `TypeError`:
this is the success path of `fetchExpenses`. -/
def Dashboard.Aggregates (P : Platform) (outcome : Except JSError JSVal) : Prop :=
  ∃ items total, outcome = Except.ok (JSVal.arr items) ∧
    Dashboard.reduceAmounts P JSNum.zero items = some total

/-- The body `[{"id":1,"amount":12},{"id":2,"amount":30}]`. -/
def twoAmountsText : String :=
  "[\x7b\"id\":1,\"amount\":12\x7d,\x7b\"id\":2,\"amount\":30\x7d]"

/-- The body `{"message":"maintenance","amount":5}`. -/
def maintenanceText : String := "\x7b\"message\":\"maintenance\",\"amount\":5\x7d"

/-- A Dashboard page before its first fetch. -/
def Dashboard.State.initial : Dashboard.State :=
  { expenses := [], stats := Dashboard.emptyStats, loading := true, error := JSVal.null }

/-! # Properties -/

/-! ## The number model on known binary64 results -/

/-- The number nearest to 1/10 is `0x1999999999999A * 2^-56`, and `1 / 3` is
`0x15555555555555 * 2^-54`. -/
theorem JSNum.tenth_and_third :
    JSNum.div (JSNum.ofNat 1) (JSNum.ofNat 10) = JSNum.ofMantExp 0x1999999999999A (-56) ∧
    JSNum.div (JSNum.ofNat 1) (JSNum.ofNat 3) = JSNum.ofMantExp 0x15555555555555 (-54) := by
  decide

/-- `0.1 + 0.2` is `0.30000000000000004`, and `2^53 + 1` is `2^53`. -/
theorem JSNum.add_rounds :
    JSNum.add (JSNum.ofMantExp 0x1999999999999A (-56)) (JSNum.ofMantExp 0x1999999999999A (-55))
      = JSNum.ofMantExp 0x13333333333334 (-54) ∧
    JSNum.add (JSNum.ofNat (2 ^ 53)) (JSNum.ofNat 1) = JSNum.ofNat (2 ^ 53) := by
  decide

/-- `Math.round(2.5)` is `3`, `Math.round(-2.5)` is `-2`, and `Math.round(1.005 * 100)`
is `100` because the product is `100.49999999999999`. -/
theorem JSNum.mathRound_ties :
    JSNum.mathRound (JSNum.ofMantExp 5 (-1)) = JSNum.ofMantExp 3 0 ∧
    JSNum.mathRound (JSNum.ofMantExp (-5) (-1)) = JSNum.ofMantExp (-2) 0 ∧
    JSNum.mathRound (JSNum.mul (JSNum.div (JSNum.ofNat 1005) (JSNum.ofNat 1000)) JSNum.hundred)
      = JSNum.ofNat 100 := by
  decide

/-- The largest finite number added to itself overflows to `Infinity`. -/
theorem JSNum.add_overflows :
    JSNum.add (JSNum.ofMantExp (2 ^ 53 - 1) 971) (JSNum.ofMantExp (2 ^ 53 - 1) 971)
      = JSNum.inf false := by
  decide

/-! ## Dashboard aggregation -/

theorem foldl_add_exact (data : List Expense) :
    ∀ s : Int, exactRun s data = true →
      data.foldl (fun sum expense => JSNum.add sum (amountNumber expense)) (JSNum.fin s)
        = JSNum.fin (s + exactSumUnits data) := by
  induction data with
  | nil => intro s _; simp [exactSumUnits]
  | cons e es ih =>
    intro s h
    unfold exactRun at h
    cases hk : amountNumber e with
    | nan => rw [hk] at h; simp at h
    | inf neg => rw [hk] at h; simp at h
    | fin k =>
      rw [hk] at h
      simp only [Bool.and_eq_true, beq_iff_eq] at h
      have hsum : exactSumUnits (e :: es) = k + exactSumUnits es := by
        simp [exactSumUnits, amountUnits, hk]
      rw [List.foldl_cons, hk, hsum]
      show List.foldl _ (JSNum.ofUnits (s + k)) es = _
      rw [h.1, ih (s + k) h.2, add_assoc]

theorem bitLenAux_le (fuel : Nat) : ∀ n m : Nat, n < 2 ^ m → bitLenAux fuel n ≤ m := by
  induction fuel with
  | zero => intro n m _; simp [bitLenAux]
  | succ fuel ih =>
    intro n m h
    unfold bitLenAux
    by_cases hn : n = 0
    · simp [hn]
    · rw [if_neg hn]
      cases m with
      | zero =>
        simp at h
        exact absurd h hn
      | succ m =>
        have h2 : n / 2 < 2 ^ m := by
          rw [Nat.div_lt_iff_lt_mul (by decide : 0 < 2)]
          rw [pow_succ] at h
          exact h
        have := ih (n / 2) m h2
        omega

theorem bitLenChunks_le (fuel : Nat) : ∀ n m : Nat, n < 2 ^ m → bitLenChunks fuel n ≤ m := by
  induction fuel with
  | zero => intro n m _; simp [bitLenChunks]
  | succ fuel ih =>
    intro n m h
    unfold bitLenChunks
    by_cases hn : n < 2 ^ 64
    · rw [if_pos hn]
      exact bitLenAux_le 64 n m h
    · rw [if_neg hn]
      have hm : 64 ≤ m := by
        by_contra hlt
        have : 2 ^ m ≤ 2 ^ 64 := Nat.pow_le_pow_right (by decide) (by omega)
        omega
      have h2 : n / 2 ^ 64 < 2 ^ (m - 64) := by
        rw [Nat.div_lt_iff_lt_mul (by positivity), ← pow_add]
        have : m - 64 + 64 = m := by omega
        rw [this]
        exact h
      have := ih (n / 2 ^ 64) (m - 64) h2
      omega

/-- A magnitude on the grid `2^g` with at most 53 significant bits above the grid step
is not changed by rounding. -/
theorem roundUnits_exact (N g : Nat) (hdvd : 2 ^ g ∣ N) (hlt : N < 2 ^ (53 + g)) :
    JSNum.roundUnits N 1 = N := by
  have hb : bitLen N ≤ 53 + g := bitLenChunks_le N N (53 + g) hlt
  have hsh : bitLen N - 53 ≤ g := by omega
  have hd : 2 ^ (bitLen N - 53) ∣ N := (pow_dvd_pow 2 hsh).trans hdvd
  have hpos : 0 < 2 ^ (bitLen N - 53) := Nat.pos_of_ne_zero (by positivity)
  have hr : N % 2 ^ (bitLen N - 53) = 0 := Nat.mod_eq_zero_of_dvd hd
  unfold JSNum.roundUnits
  simp only [Nat.div_one, one_mul, hr, Nat.mul_zero]
  have h1 : ¬ (2 ^ (bitLen N - 53) < 0) := by omega
  have h2 : (0 == 2 ^ (bitLen N - 53)) = false := by
    rw [beq_eq_false_iff_ne]
    omega
  simp only [h1, decide_False, Bool.false_or, h2, Bool.false_and,
    Bool.false_eq_true, if_false]
  exact Nat.div_mul_cancel hd

theorem ofUnits_exact (k : Int) (g : Nat) (hg : g ≤ 2045) (hdvd : 2 ^ g ∣ k.natAbs)
    (hlt : k.natAbs < 2 ^ (53 + g)) : JSNum.ofUnits k = JSNum.fin k := by
  have hbig : k.natAbs < JSNum.overflowUnits := by
    unfold JSNum.overflowUnits
    exact lt_of_lt_of_le hlt (Nat.pow_le_pow_right (by decide) (by omega))
  unfold JSNum.ofUnits JSNum.ofRatio
  simp only [roundUnits_exact k.natAbs g hdvd hlt]
  rw [if_neg (by omega)]
  congr 1
  by_cases hk : k < 0
  · simp only [hk, decide_True, if_true]
    omega
  · simp only [hk, decide_False, Bool.false_eq_true, if_false]
    omega

/-- Amounts on a common grid `2^g` whose magnitudes add up to less than `2^53` grid
steps are added without rounding. -/
theorem exactRun_of_grid (g : Nat) (hg : g ≤ 2045) (data : List Expense) :
    ∀ s : Int, 2 ^ g ∣ s.natAbs → onGrid g data = true →
      s.natAbs + absSumUnits data < 2 ^ (53 + g) → exactRun s data = true := by
  induction data with
  | nil => intro s _ _ _; rfl
  | cons e es ih =>
    intro s hs hgrid hsum
    unfold onGrid at hgrid
    rw [List.all_cons, Bool.and_eq_true] at hgrid
    unfold exactRun
    cases hk : amountNumber e with
    | nan => rw [hk] at hgrid; simp at hgrid
    | inf neg => rw [hk] at hgrid; simp at hgrid
    | fin k =>
      have hkd : 2 ^ g ∣ k.natAbs := by
        have := hgrid.1
        rw [hk] at this
        exact Nat.dvd_of_mod_eq_zero (by simpa using this)
      have habs : absSumUnits (e :: es) = k.natAbs + absSumUnits es := by
        simp [absSumUnits, amountUnits, hk]
      rw [habs] at hsum
      have htri : (s + k).natAbs ≤ s.natAbs + k.natAbs := Int.natAbs_add_le s k
      have hskd : 2 ^ g ∣ (s + k).natAbs := by
        have h1 : ((2 ^ g : Nat) : Int) ∣ s := Int.natCast_dvd.2 hs
        have h2 : ((2 ^ g : Nat) : Int) ∣ k := Int.natCast_dvd.2 hkd
        exact Int.natCast_dvd.1 (dvd_add h1 h2)
      simp only [Bool.and_eq_true, beq_iff_eq]
      refine ⟨ofUnits_exact (s + k) g hg hskd (by omega), ?_⟩
      exact ih (s + k) hskd hgrid.2 (by omega)

/-- C1 (counterexample): for the two amounts 0.1 and 0.2 the stored total is
0.30000000000000004, which is not the exact sum of the two amounts. -/
theorem dashboard_total_not_exact :
    (dashboardStats [Expense.ofAmount 3602879701896397 (-55),
                     Expense.ofAmount 3602879701896397 (-54)]).total
        = JSNum.ofMantExp 5404319552844596 (-54) ∧
    (dashboardStats [Expense.ofAmount 3602879701896397 (-55),
                     Expense.ofAmount 3602879701896397 (-54)]).total
        ≠ JSNum.fin (exactSumUnits [Expense.ofAmount 3602879701896397 (-55),
                                    Expense.ofAmount 3602879701896397 (-54)]) := by
  decide

/-- C1 (amended): `count` is the length of the list; `total` is the left-to-right
binary64 sum of the amounts (a missing amount counting as 0), which is the exact sum
whenever every running sum is itself representable, in particular when the amounts lie
on a common binary grid (such as the whole numbers) and their magnitudes add up to less
than `2^53` grid steps; `average` is 0 for the empty list and otherwise
`Math.round(total / count * 100) / 100` in binary64 arithmetic. -/
theorem dashboard_stats_spec (data : List Expense) :
    (dashboardStats data).count = data.length ∧
    (dashboardStats data).total
      = data.foldl (fun sum expense => JSNum.add sum (amountNumber expense)) JSNum.zero ∧
    (exactRun 0 data = true →
      (dashboardStats data).total = JSNum.fin (exactSumUnits data)) ∧
    (∀ g : Nat, g ≤ 2045 → onGrid g data = true → absSumUnits data < 2 ^ (53 + g) →
      (dashboardStats data).total = JSNum.fin (exactSumUnits data)) ∧
    (data.length = 0 → (dashboardStats data).average = JSNum.zero) ∧
    (0 < data.length →
      (dashboardStats data).average
        = JSNum.div (JSNum.mathRound (JSNum.mul
            (JSNum.div (dashboardStats data).total (JSNum.ofNat data.length))
            JSNum.hundred)) JSNum.hundred) := by
  have hexact : exactRun 0 data = true →
      (dashboardStats data).total = JSNum.fin (exactSumUnits data) := by
    intro h
    have := foldl_add_exact data 0 h
    simpa [dashboardStats, dashboardTotal, JSNum.zero] using this
  refine ⟨rfl, rfl, hexact, ?_, ?_, ?_⟩
  · intro g hg hgrid hsum
    exact hexact (exactRun_of_grid g hg data 0 (by simp) hgrid (by simpa using hsum))
  · intro h
    have h0 : ¬ (data.length > 0) := by omega
    simp only [dashboardStats, h0, if_false]
    decide
  · intro h
    simp only [dashboardStats, gt_iff_lt, h, if_true]

/-- C1 (witness): the amounts 12.5, 7.25 and 100 lie on the grid of quarters and add
up without rounding; the total is 119.75, the count 3 and the average 39.92. -/
theorem dashboard_stats_spec_witness :
    exactRun 0 [Expense.ofAmount 25 (-1), Expense.ofAmount 29 (-2), Expense.ofAmount 100 0]
      = true ∧
    (onGrid 1072 [Expense.ofAmount 25 (-1), Expense.ofAmount 29 (-2), Expense.ofAmount 100 0]
      = true ∧
     absSumUnits [Expense.ofAmount 25 (-1), Expense.ofAmount 29 (-2), Expense.ofAmount 100 0]
      < 2 ^ (53 + 1072)) ∧
    (dashboardStats [Expense.ofAmount 25 (-1), Expense.ofAmount 29 (-2),
                     Expense.ofAmount 100 0]).total
      = JSNum.fin (exactSumUnits [Expense.ofAmount 25 (-1), Expense.ofAmount 29 (-2),
                                  Expense.ofAmount 100 0]) ∧
    dashboardStats [Expense.ofAmount 25 (-1), Expense.ofAmount 29 (-2), Expense.ofAmount 100 0]
      = { total := JSNum.ofMantExp 479 (-2), count := 3,
          average := JSNum.ofMantExp 0x13F5C28F5C28F6 (-47) } :=
  ⟨by decide, ⟨by decide, by decide⟩,
   (dashboard_stats_spec [Expense.ofAmount 25 (-1), Expense.ofAmount 29 (-2),
      Expense.ofAmount 100 0]).2.2.2.1 1072 (by decide) (by decide) (by decide),
   by decide⟩

/-! ## Sorting -/

theorem sortInsert_perm {α : Type} (cmp : α → α → Option Int) (x : α) (l : List α) :
    (sortInsert cmp x l).Perm (x :: l) := by
  induction l with
  | nil => simp [sortInsert]
  | cons y ys ih =>
    unfold sortInsert
    split
    · exact List.Perm.refl _
    · exact (List.Perm.cons y ih).trans (List.Perm.swap x y ys)

theorem arraySort_perm {α : Type} (cmp : α → α → Option Int) (l : List α) :
    (arraySort cmp l).Perm l := by
  induction l with
  | nil => simp [arraySort]
  | cons x xs ih =>
    unfold arraySort
    exact (sortInsert_perm cmp x _).trans (List.Perm.cons x ih)

theorem mem_arraySort {α : Type} (cmp : α → α → Option Int) (l : List α) (a : α) :
    a ∈ arraySort cmp l ↔ a ∈ l :=
  (arraySort_perm cmp l).mem_iff

/-- Inserting into a list that is non-increasing in `key` keeps it so, when the
comparator is the difference of keys. -/
theorem sortInsert_pairwise {α : Type} (cmp : α → α → Option Int) (key : α → Int) (x : α)
    (l : List α) (hcmp : ∀ y ∈ l, cmp x y = some (key y - key x))
    (hl : l.Pairwise (fun a b => key b ≤ key a)) :
    (sortInsert cmp x l).Pairwise (fun a b => key b ≤ key a) := by
  induction l with
  | nil => simp [sortInsert]
  | cons y ys ih =>
    have hy := hcmp y (List.mem_cons_self y ys)
    rw [List.pairwise_cons] at hl
    unfold sortInsert
    split
    · rename_i h
      rw [hy] at h
      simp only [sortCompare, Option.getD_some] at h
      refine List.pairwise_cons.2 ⟨?_, List.pairwise_cons.2 hl⟩
      intro z hz
      rcases List.mem_cons.1 hz with rfl | hz
      · omega
      · have := hl.1 z hz
        omega
    · rename_i h
      rw [hy] at h
      simp only [sortCompare, Option.getD_some] at h
      refine List.pairwise_cons.2 ⟨?_, ih (fun z hz => hcmp z (List.mem_cons_of_mem y hz)) hl.2⟩
      intro z hz
      rcases List.mem_cons.1 ((sortInsert_perm cmp x ys).mem_iff.1 hz) with rfl | hz
      · omega
      · exact hl.1 z hz

/-- Sorting with a comparator that is the difference of keys gives a list that is
non-increasing in `key`. -/
theorem arraySort_pairwise {α : Type} (cmp : α → α → Option Int) (key : α → Int)
    (l : List α) (hcmp : ∀ a ∈ l, ∀ b ∈ l, cmp a b = some (key b - key a)) :
    (arraySort cmp l).Pairwise (fun a b => key b ≤ key a) := by
  induction l with
  | nil => simp [arraySort]
  | cons x xs ih =>
    unfold arraySort
    apply sortInsert_pairwise
    · intro y hy
      exact hcmp x (List.mem_cons_self x xs) y
        (List.mem_cons_of_mem x ((mem_arraySort cmp xs y).1 hy))
    · exact ih (fun a ha b hb =>
        hcmp a (List.mem_cons_of_mem x ha) b (List.mem_cons_of_mem x hb))

/-- Insertion does not move `x` past a record of equal key: the records of any one key
keep their order. -/
theorem sortInsert_filter_key {α : Type} (cmp : α → α → Option Int) (key : α → Int) (t : Int)
    (x : α) (l : List α) (hcmp : ∀ y ∈ l, cmp x y = some (key y - key x)) :
    (sortInsert cmp x l).filter (fun e => key e == t) = (x :: l).filter (fun e => key e == t) := by
  induction l with
  | nil => simp [sortInsert]
  | cons y ys ih =>
    have hy := hcmp y (List.mem_cons_self y ys)
    unfold sortInsert
    split
    · rfl
    · rename_i h
      rw [hy] at h
      simp only [sortCompare, Option.getD_some] at h
      have ih1 := ih (fun z hz => hcmp z (List.mem_cons_of_mem y hz))
      rw [List.filter_cons, ih1]
      by_cases hx : key x = t
      · have hyt : ¬ key y = t := by omega
        simp [List.filter_cons, hx, hyt]
      · simp [List.filter_cons, hx]

/-- Sorting keeps the records of any one key in their original order (stability). -/
theorem arraySort_filter_key {α : Type} (cmp : α → α → Option Int) (key : α → Int) (t : Int)
    (l : List α) (hcmp : ∀ a ∈ l, ∀ b ∈ l, cmp a b = some (key b - key a)) :
    (arraySort cmp l).filter (fun e => key e == t) = l.filter (fun e => key e == t) := by
  induction l with
  | nil => simp [arraySort]
  | cons x xs ih =>
    unfold arraySort
    rw [sortInsert_filter_key cmp key t x _ (fun y hy =>
      hcmp x (List.mem_cons_self x xs) y
        (List.mem_cons_of_mem x ((mem_arraySort cmp xs y).1 hy)))]
    rw [List.filter_cons, List.filter_cons,
      ih (fun a ha b hb => hcmp a (List.mem_cons_of_mem x ha) b (List.mem_cons_of_mem x hb))]

/-- Insertion keeps adjacent elements in order, for a comparator under which any two
elements are comparable one way or the other. -/
theorem sortInsert_chain {α : Type} (cmp : α → α → Option Int)
    (htot : ∀ a b, ¬ sortCompare (cmp a b) ≤ 0 → sortCompare (cmp b a) ≤ 0) (x : α)
    (l : List α) (hl : l.Chain' (fun a b => sortCompare (cmp a b) ≤ 0)) :
    (sortInsert cmp x l).Chain' (fun a b => sortCompare (cmp a b) ≤ 0) := by
  induction l with
  | nil => simp [sortInsert]
  | cons y ys ih =>
    unfold sortInsert
    split
    · rename_i h
      exact List.Chain'.cons h hl
    · rename_i h
      have ih1 := ih hl.tail
      cases ys with
      | nil =>
        simp only [sortInsert]
        exact List.Chain'.cons (htot x y h) (List.chain'_singleton x)
      | cons z zs =>
        unfold sortInsert at ih1 ⊢
        split
        · rename_i hz
          rw [if_pos hz] at ih1
          exact List.Chain'.cons (htot x y h) ih1
        · rename_i hz
          rw [if_neg hz] at ih1
          have hyz : sortCompare (cmp y z) ≤ 0 := (List.chain'_cons.1 hl).1
          exact List.Chain'.cons hyz ih1

theorem arraySort_chain {α : Type} (cmp : α → α → Option Int)
    (htot : ∀ a b, ¬ sortCompare (cmp a b) ≤ 0 → sortCompare (cmp b a) ≤ 0) (l : List α) :
    (arraySort cmp l).Chain' (fun a b => sortCompare (cmp a b) ≤ 0) := by
  induction l with
  | nil => simp [arraySort]
  | cons x xs ih =>
    unfold arraySort
    exact sortInsert_chain cmp htot x _ ih

/-- A list whose adjacent elements are in order is left as it is by the sort. -/
theorem arraySort_eq_self {α : Type} (cmp : α → α → Option Int) (l : List α)
    (hl : l.Chain' (fun a b => sortCompare (cmp a b) ≤ 0)) : arraySort cmp l = l := by
  induction l with
  | nil => rfl
  | cons x xs ih =>
    unfold arraySort
    rw [ih hl.tail]
    cases xs with
    | nil => rfl
    | cons y ys =>
      have hxy : sortCompare (cmp x y) ≤ 0 := (List.chain'_cons.1 hl).1
      unfold sortInsert
      rw [if_pos hxy]

theorem dateCompare_total (P : Platform) (a b : Expense) :
    ¬ sortCompare (dateCompare P a b) ≤ 0 → sortCompare (dateCompare P b a) ≤ 0 := by
  unfold dateCompare sortCompare
  cases dateTime P a <;> cases dateTime P b <;> simp
  intro h
  omega

/-! ## The list projection -/

theorem listIncludes_iff (hay needle : List Char) :
    listIncludes hay needle = true ↔ needle <:+: hay := by
  induction hay with
  | nil =>
    unfold listIncludes
    rw [List.isPrefixOf_iff_prefix, List.prefix_nil, List.infix_nil]
  | cons c cs ih =>
    unfold listIncludes
    rw [Bool.or_eq_true, List.isPrefixOf_iff_prefix, ih, List.infix_cons_iff]

theorem dropWhile_all_iff (p : Char → Bool) (l : List Char) :
    (∀ x ∈ l.dropWhile p, p x = true) ↔ ∀ x ∈ l, p x = true := by
  induction l with
  | nil => simp
  | cons a as ih =>
    by_cases ha : p a = true
    · simp only [List.dropWhile_cons_of_pos ha, ih, List.mem_cons, forall_eq_or_imp, ha, true_and]
    · simp only [List.dropWhile_cons_of_neg ha]

theorem jsTrim_eq_empty_iff (s : String) : jsTrim s = "" ↔ IsBlank s := by
  unfold jsTrim IsBlank
  rw [String.ext_iff]
  show ((s.toList.dropWhile isWhiteSpace).reverse.dropWhile isWhiteSpace).reverse = [] ↔ _
  rw [List.reverse_eq_nil_iff, List.dropWhile_eq_nil_iff]
  constructor
  · intro h
    apply (dropWhile_all_iff isWhiteSpace s.toList).1
    intro x hx
    exact h x (List.mem_reverse.2 hx)
  · intro h x hx
    exact (dropWhile_all_iff isWhiteSpace s.toList).2 h x (List.mem_reverse.1 hx)

theorem searchActive_iff (s : String) : searchActive s = true ↔ ¬ IsBlank s := by
  unfold searchActive
  rw [Bool.and_eq_true, bne_iff_ne, bne_iff_ne, Ne, Ne, jsTrim_eq_empty_iff]
  constructor
  · exact fun h => h.2
  · intro h
    refine ⟨?_, h⟩
    intro hs
    apply h
    subst hs
    intro c hc
    simp at hc

theorem categoryActive_eq_false_iff (c : String) :
    categoryActive c = false ↔ (c = "all" ∨ c = "") := by
  unfold categoryActive
  by_cases h1 : c = "" <;> by_cases h2 : c = "all" <;> simp [h1, h2]

theorem jsIncludes_iff (P : Platform) (text s : String) :
    jsIncludes (P.toLowerCase text) (P.toLowerCase s) = true ↔ ContainsIgnoringCase P text s := by
  unfold jsIncludes ContainsIgnoringCase
  exact listIncludes_iff _ _

/-- The selection made by the code is the selection of the specification, with the
category test also skipped for the empty filter. -/
theorem selected_iff (P : Platform) (c s : String) (e : Expense) :
    selected P c s e = true ↔ AmendedSelected P c s e := by
  unfold selected AmendedSelected searchMatches categoryMatches
  have hs := searchActive_iff s
  have hc := categoryActive_eq_false_iff c
  rw [Bool.and_eq_true, Bool.or_eq_true, Bool.or_eq_true, Bool.not_eq_true', Bool.not_eq_true',
    hc, beq_iff_eq]
  simp only [Bool.or_eq_true, jsIncludes_iff]
  have hs2 : searchActive s = false ↔ IsBlank s := by
    rw [← Bool.not_eq_true, hs, not_not]
  rw [hs2]
  tauto

/-- The returned array is the sorted list of the selected records. -/
theorem filteredExpenses_fst (P : Platform) (L : List Expense) (c s : String) :
    (filteredExpenses P L c s).1 = arraySort (dateCompare P) (L.filter (selected P c s)) := by
  unfold filteredExpenses selected
  cases hc : categoryActive c <;> cases hs : searchActive s <;>
    simp [List.filter_filter, Bool.and_comm]

theorem dateCompare_of_some (P : Platform) (a b : Expense)
    (ha : (dateTime P a).isSome = true) (hb : (dateTime P b).isSome = true) :
    dateCompare P a b = some ((dateTime P b).getD 0 - (dateTime P a).getD 0) := by
  unfold dateCompare
  cases h1 : dateTime P a with
  | none => rw [h1] at ha; simp at ha
  | some ta =>
    cases h2 : dateTime P b with
    | none => rw [h2] at hb; simp at hb
    | some tb => simp

/-- C2: when every record has a valid date, the projection is non-increasing by date
and stable: for each date, the records of that date appear in the output in the order
they have in the input.  On the list [2024-01-01, 2024-03-01] the output is
[2024-03-01, 2024-01-01]. -/
theorem filteredExpenses_sorted_stable (P : Platform) (L : List Expense) (c s : String)
    (hdates : ∀ e ∈ L, (dateTime P e).isSome = true) :
    (filteredExpenses P L c s).1.Pairwise
      (fun a b => ∃ ta tb, dateTime P a = some ta ∧ dateTime P b = some tb ∧ tb ≤ ta) ∧
    (∀ t : Int,
      (filteredExpenses P L c s).1.filter (fun e => dateTime P e == some t)
        = L.filter (fun e => selected P c s e && dateTime P e == some t)) ∧
    (filteredExpenses samplePlatform
        [Expense.ofDate "2024-01-01", Expense.ofDate "2024-03-01"] "all" "").1
      = [Expense.ofDate "2024-03-01", Expense.ofDate "2024-01-01"] := by
  have hsel : ∀ e ∈ L.filter (selected P c s), (dateTime P e).isSome = true :=
    fun e he => hdates e (List.mem_filter.1 he).1
  have hcmp : ∀ a ∈ L.filter (selected P c s), ∀ b ∈ L.filter (selected P c s),
      dateCompare P a b = some ((dateTime P b).getD 0 - (dateTime P a).getD 0) :=
    fun a ha b hb => dateCompare_of_some P a b (hsel a ha) (hsel b hb)
  have hkey : ∀ e ∈ L.filter (selected P c s), ∀ t : Int,
      ((dateTime P e).getD 0 == t) = (dateTime P e == some t) := by
    intro e he t
    have := hsel e he
    cases h : dateTime P e with
    | none => rw [h] at this; simp at this
    | some u =>
      by_cases hut : u = t
      · simp [hut]
      · simp only [Option.getD_some]
        rw [beq_eq_false_iff_ne.2 hut]
        have : (some u == some t) = false := by
          rw [beq_eq_false_iff_ne]
          intro h'
          exact hut (Option.some.inj h')
        exact this.symm
  rw [filteredExpenses_fst]
  refine ⟨?_, ?_, by rfl⟩
  · have hp := arraySort_pairwise (dateCompare P) (fun e => (dateTime P e).getD 0) _ hcmp
    refine hp.imp_of_mem ?_
    intro a b ha hb hab
    have ha1 := hsel a ((mem_arraySort _ _ a).1 ha)
    have hb1 := hsel b ((mem_arraySort _ _ b).1 hb)
    cases h1 : dateTime P a with
    | none => rw [h1] at ha1; simp at ha1
    | some ta =>
      cases h2 : dateTime P b with
      | none => rw [h2] at hb1; simp at hb1
      | some tb =>
        have hab1 : (dateTime P b).getD 0 ≤ (dateTime P a).getD 0 := hab
        rw [h1, h2] at hab1
        exact ⟨ta, tb, rfl, rfl, by simpa using hab1⟩
  · intro t
    have hst := arraySort_filter_key (dateCompare P) (fun e => (dateTime P e).getD 0) t _ hcmp
    have h1 : (arraySort (dateCompare P) (L.filter (selected P c s))).filter
          (fun e => dateTime P e == some t)
        = (arraySort (dateCompare P) (L.filter (selected P c s))).filter
          (fun e => (dateTime P e).getD 0 == t) := by
      apply List.filter_congr
      intro e he
      exact (hkey e ((mem_arraySort _ _ e).1 he) t).symm
    have h2 : (L.filter (selected P c s)).filter (fun e => (dateTime P e).getD 0 == t)
        = (L.filter (selected P c s)).filter (fun e => dateTime P e == some t) := by
      apply List.filter_congr
      intro e he
      exact hkey e he t
    rw [h1, hst, h2, List.filter_filter]
    apply List.filter_congr
    intro e _
    exact Bool.and_comm _ _

/-- C2 (witness): the two records dated 2024-01-01 and 2024-03-01 have valid dates, and
the projection lists the later one first. -/
theorem filteredExpenses_sorted_stable_witness :
    (∀ e ∈ [Expense.ofDate "2024-01-01", Expense.ofDate "2024-03-01"],
      (dateTime samplePlatform e).isSome = true) ∧
    (filteredExpenses samplePlatform
        [Expense.ofDate "2024-01-01", Expense.ofDate "2024-03-01"] "all" "").1
      = [Expense.ofDate "2024-03-01", Expense.ofDate "2024-01-01"] :=
  ⟨by intro e he
      simp only [List.mem_cons, List.mem_singleton, List.not_mem_nil, or_false] at he
      rcases he with rfl | rfl <;> rfl,
   (filteredExpenses_sorted_stable samplePlatform
      [Expense.ofDate "2024-01-01", Expense.ofDate "2024-03-01"] "all" ""
      (by intro e he
          simp only [List.mem_cons, List.mem_singleton, List.not_mem_nil, or_false] at he
          rcases he with rfl | rfl <;> rfl)).2.2⟩

/-- C3: the projection is idempotent: applied with the same filter and search term to
its own output, it returns that output. -/
theorem filteredExpenses_idempotent (P : Platform) (L : List Expense) (c s : String) :
    (filteredExpenses P (filteredExpenses P L c s).1 c s).1 = (filteredExpenses P L c s).1 := by
  rw [filteredExpenses_fst P L c s, filteredExpenses_fst]
  have hfilter : (arraySort (dateCompare P) (L.filter (selected P c s))).filter (selected P c s)
      = arraySort (dateCompare P) (L.filter (selected P c s)) := by
    rw [List.filter_eq_self]
    intro e he
    exact (List.mem_filter.1 ((mem_arraySort _ _ e).1 he)).2
  rw [hfilter]
  exact arraySort_eq_self _ _ (arraySort_chain _ (dateCompare_total P) _)

/-- Outside the values the page can hold: for the empty text as filter, which the select
does not offer, the guard `filter &&` skips the category test as well, so a "Food"
record is in the output. -/
theorem filteredExpenses_empty_filter_keeps_all :
    ¬ (filteredExpenses samplePlatform [Expense.ofCategory "Food"] "" "").1.Perm
        ([Expense.ofCategory "Food"].filter
          (fun e => decide (SpecSelected samplePlatform "" "" e))) := by
  intro h
  have h1 : (filteredExpenses samplePlatform [Expense.ofCategory "Food"] "" "").1
      = [Expense.ofCategory "Food"] := by rfl
  rw [h1] at h
  have hm : Expense.ofCategory "Food" ∈ [Expense.ofCategory "Food"].filter
      (fun e => decide (SpecSelected samplePlatform "" "" e)) :=
    h.mem_iff.1 (List.mem_singleton_self _)
  have hsel := (List.mem_filter.1 hm).2
  simp only [decide_eq_true_eq] at hsel
  rcases hsel.1 with h2 | h2
  · exact absurd h2 (by decide)
  · simp [Expense.ofCategory] at h2

/-- The selection for every text as filter: the output consists of exactly the records
of the input that have the category of the filter, unless the filter is "all" or empty,
and that contain the search term ignoring case in their description or category, unless
the search term is blank; each as often as in the input. -/
theorem filteredExpenses_perm_selected (P : Platform) (L : List Expense) (c s : String) :
    (filteredExpenses P L c s).1.Perm
      (L.filter (fun e => decide (AmendedSelected P c s e))) := by
  rw [filteredExpenses_fst]
  have hfun : (fun e => decide (AmendedSelected P c s e)) = selected P c s := by
    funext e
    rw [Bool.eq_iff_iff, decide_eq_true_eq]
    exact (selected_iff P c s e).symm
  rw [hfun]
  exact arraySort_perm _ _

/-- C4: every value the `filter` state can hold is a non-empty text, and for every list,
every non-empty category filter and every search term, the output consists of exactly
the records of the input that have the category of the filter, unless the filter is
"all", and that contain the search term ignoring case in their description or category,
unless the search term is blank; each record as often as in the input, so none is added,
duplicated or dropped. -/
theorem filteredExpenses_selects (P : Platform) (L : List Expense) (c s : String)
    (hc : c ≠ "") :
    (∀ v ∈ filterValues, v ≠ "") ∧
    (filteredExpenses P L c s).1.Perm
      (L.filter (fun e => decide (SpecSelected P c s e))) := by
  refine ⟨by decide, ?_⟩
  have hfun : (fun e => decide (SpecSelected P c s e))
      = (fun e => decide (AmendedSelected P c s e)) := by
    funext e
    rw [Bool.eq_iff_iff, decide_eq_true_eq, decide_eq_true_eq]
    unfold SpecSelected AmendedSelected
    constructor
    · rintro ⟨h1, h2⟩
      exact ⟨h1.elim Or.inl (fun h => Or.inr (Or.inr h)), h2⟩
    · rintro ⟨h1, h2⟩
      refine ⟨?_, h2⟩
      rcases h1 with h | h | h
      · exact Or.inl h
      · exact absurd h hc
      · exact Or.inr h
  rw [hfun]
  exact filteredExpenses_perm_selected P L c s

/-- Witness of C4: with the filter "Food", one of the options of the select, and an
empty search term, the list of a "Food" and an "Other" record gives the "Food" record. -/
theorem filteredExpenses_selects_witness :
    (filteredExpenses samplePlatform
        [Expense.ofCategory "Food", Expense.ofCategory "Other"] "Food" "").1
      = [Expense.ofCategory "Food"] ∧
    "Food" ∈ filterValues ∧
    (filteredExpenses samplePlatform
        [Expense.ofCategory "Food", Expense.ofCategory "Other"] "Food" "").1.Perm
      ([Expense.ofCategory "Food", Expense.ofCategory "Other"].filter
        (fun e => decide (SpecSelected samplePlatform "Food" "" e))) :=
  ⟨by rfl, by decide,
   (filteredExpenses_selects samplePlatform
      [Expense.ofCategory "Food", Expense.ofCategory "Other"] "Food" "" (by decide)).2⟩

/-- C5 (failing input): with the filter "all" and an empty search term, computing the
projection of [2024-01-01, 2024-03-01] leaves the source list reordered as
[2024-03-01, 2024-01-01]. -/
theorem filteredExpenses_reorders_source :
    (filteredExpenses samplePlatform
        [Expense.ofDate "2024-01-01", Expense.ofDate "2024-03-01"] "all" "").2
      = [Expense.ofDate "2024-03-01", Expense.ofDate "2024-01-01"] ∧
    [Expense.ofDate "2024-03-01", Expense.ofDate "2024-01-01"]
      ≠ [Expense.ofDate "2024-01-01", Expense.ofDate "2024-03-01"] := by
  refine ⟨by rfl, ?_⟩
  intro h
  have h1 := (List.cons.inj h).1
  have h2 : some "2024-03-01" = some "2024-01-01" := congrArg Expense.date h1
  exact absurd h2 (by decide)

/-- The source list after the projection has been computed: unchanged when one of the
two filters ran, and equal to the sorted projection otherwise. -/
theorem filteredExpenses_snd (P : Platform) (L : List Expense) (c s : String) :
    (filteredExpenses P L c s).2
      = if categoryActive c || searchActive s then L else (filteredExpenses P L c s).1 := by
  rfl

/-! ## Deleting from the list -/

theorem removeFromList_eq_withoutId (P : Platform) (id : JSVal) (L : List Expense) :
    removeFromList P id L = withoutId P id L := by
  induction L with
  | nil => rfl
  | cons e es ih =>
    unfold removeFromList at ih ⊢
    unfold withoutId
    by_cases h : JSVal.toStr P e.id = JSVal.toStr P id
    · simp [List.filter_cons, h, ih]
    · simp [List.filter_cons, h, ih]

/-- C7: when the user confirms and a token is present, `handleDelete` is suspended at
the network call with the list from which exactly the records whose identifier equals
the given one as a string are removed; the other records are kept, in their order, and
the rest of the page state is untouched.  On [A, B, C], deleting B gives [A, C]. -/
theorem handleDeleteStart_removes (P : Platform) (token : Option String) (id : JSVal)
    (st : ViewState) (htoken : optTruthy token = true) :
    handleDeleteStart P true token id st
      = Suspended.awaiting { st with expenses := withoutId P id st.expenses } st.expenses ∧
    (withoutId P id st.expenses).Sublist st.expenses ∧
    (∀ e, e ∈ withoutId P id st.expenses ↔
      e ∈ st.expenses ∧ JSVal.toStr P e.id ≠ JSVal.toStr P id) ∧
    handleDeleteStart samplePlatform true (some "t") (JSVal.num (JSNum.ofNat 2))
        (ViewState.ofList [Expense.sample 1 "A", Expense.sample 2 "B", Expense.sample 3 "C"])
      = Suspended.awaiting (ViewState.ofList [Expense.sample 1 "A", Expense.sample 3 "C"])
          [Expense.sample 1 "A", Expense.sample 2 "B", Expense.sample 3 "C"] := by
  refine ⟨?_, ?_, ?_, by rfl⟩
  · unfold handleDeleteStart
    simp [htoken, removeFromList_eq_withoutId]
  · rw [← removeFromList_eq_withoutId]
    exact List.filter_sublist _
  · intro e
    rw [← removeFromList_eq_withoutId]
    unfold removeFromList
    simp [List.mem_filter]

/-- C7 (witness): with the token "t", deleting the record 2 from [A, B, C] leaves the
handler suspended with the list [A, C]. -/
theorem handleDeleteStart_removes_witness :
    optTruthy (some "t") = true ∧
    handleDeleteStart samplePlatform true (some "t") (JSVal.num (JSNum.ofNat 2))
        (ViewState.ofList [Expense.sample 1 "A", Expense.sample 2 "B", Expense.sample 3 "C"])
      = Suspended.awaiting (ViewState.ofList [Expense.sample 1 "A", Expense.sample 3 "C"])
          [Expense.sample 1 "A", Expense.sample 2 "B", Expense.sample 3 "C"] :=
  ⟨by rfl,
   (handleDeleteStart_removes samplePlatform (some "t") (JSVal.num (JSNum.ofNat 2))
      (ViewState.ofList [Expense.sample 1 "A", Expense.sample 2 "B", Expense.sample 3 "C"])
      (by rfl)).2.2.2⟩

/-- C6 (failing input): on [A, B, C], when the server answers the delete of B with
status 500, the completed `handleDelete` leaves the list [A, C], has shown the alert of
its `catch` branch and has started a refetch; the snapshot is not restored. -/
theorem handleDelete_failure_not_restored :
    (handleDelete samplePlatform failingFetch true (some "t") (JSVal.num (JSNum.ofNat 2))
        (ViewState.ofList [Expense.sample 1 "A", Expense.sample 2 "B", Expense.sample 3 "C"])).state.expenses
      = [Expense.sample 1 "A", Expense.sample 3 "C"] ∧
    (handleDelete samplePlatform failingFetch true (some "t") (JSVal.num (JSNum.ofNat 2))
        (ViewState.ofList [Expense.sample 1 "A", Expense.sample 2 "B", Expense.sample 3 "C"])).state.alerts
      = ["An error occurred while deleting the expense."] ∧
    (handleDelete samplePlatform failingFetch true (some "t") (JSVal.num (JSNum.ofNat 2))
        (ViewState.ofList [Expense.sample 1 "A", Expense.sample 2 "B", Expense.sample 3 "C"])).refetching
      = true ∧
    thrownMessage (ExpenseService.deleteExpense samplePlatform failingFetch
        (JSVal.num (JSNum.ofNat 2)) "t") = some "Delete failed (500)" ∧
    [Expense.sample 1 "A", Expense.sample 3 "C"].length
      ≠ [Expense.sample 1 "A", Expense.sample 2 "B", Expense.sample 3 "C"].length := by
  refine ⟨by rfl, by rfl, by rfl, by rfl, by decide⟩

/-! ## The throwing policy of the gateway -/

/-- C8: `handleResponse` returns the parsed body when the response is ok and throws when
it is not: it returns a value exactly for ok responses and throws exactly for non-ok
ones.  `getExpenses`, `getExpense`, `createExpense` and `updateExpense` pass the
response they fetched to it and return what it returns. -/
theorem handleResponse_policy (P : Platform) (fetch : Fetch) (r : Response)
    (token : String) (id payload : JSVal) :
    returned (handleResponse P r)
      = (if r.ok then some (parseResponse P r).data else none) ∧
    ((∃ v, handleResponse P r = Except.ok v) ↔ r.ok = true) ∧
    ((∃ e, handleResponse P r = Except.error e) ↔ r.ok = false) ∧
    ExpenseService.getExpenses P fetch token
      = (fetch { method := "GET", url := API_BASE_URL P ++ "/api/expenses",
                 headers := readHeaders token, body := none } >>= handleResponse P) ∧
    ExpenseService.getExpense P fetch id token
      = (if id.truthy then
          fetch { method := "GET", url := API_BASE_URL P ++ "/api/expenses/" ++ JSVal.toStr P id,
                  headers := readHeaders token, body := none } >>= handleResponse P
         else Except.error idRequired) ∧
    ExpenseService.createExpense P fetch payload token
      = (fetch { method := "POST", url := API_BASE_URL P ++ "/api/expenses",
                 headers := writeHeaders token, body := some payload } >>= handleResponse P) ∧
    ExpenseService.updateExpense P fetch id payload token
      = (if id.truthy then
          fetch { method := "PUT", url := API_BASE_URL P ++ "/api/expenses/" ++ JSVal.toStr P id,
                  headers := writeHeaders token, body := some payload } >>= handleResponse P
         else Except.error idRequired) := by
  have hok : (parseResponse P r).ok = r.ok := rfl
  refine ⟨?_, ?_, ?_, ?_, ?_, ?_, ?_⟩
  · unfold handleResponse
    cases h : r.ok <;> simp [hok, h, returned]
  · unfold handleResponse
    cases h : r.ok <;> simp [hok, h]
  · unfold handleResponse
    cases h : r.ok <;> simp [hok, h]
  · unfold ExpenseService.getExpenses
    cases fetch _ <;> rfl
  · unfold ExpenseService.getExpense
    cases id.truthy
    · rfl
    · simp only [Bool.not_true, Bool.false_eq_true, if_false, if_true]
      cases fetch _ <;> rfl
  · unfold ExpenseService.createExpense
    cases fetch _ <;> rfl
  · unfold ExpenseService.updateExpense
    cases id.truthy
    · rfl
    · simp only [Bool.not_true, Bool.false_eq_true, if_false, if_true]
      cases fetch _ <;> rfl

theorem setHeader_of_not_mem (k v : String) (acc : List (String × String))
    (h : k ∉ acc.map Prod.fst) : setHeader k v acc = acc ++ [(k, v)] := by
  induction acc with
  | nil => rfl
  | cons kv rest ih =>
    obtain ⟨k1, v1⟩ := kv
    simp only [List.map_cons, List.mem_cons, not_or] at h
    unfold setHeader
    rw [if_neg (fun h1 => h.1 h1.symm), ih h.2]
    rfl

theorem foldl_setHeader (entries : List (String × String)) :
    ∀ acc : List (String × String), ((acc ++ entries).map Prod.fst).Nodup →
      entries.foldl (fun headers kv => setHeader kv.1 kv.2 headers) acc = acc ++ entries := by
  induction entries with
  | nil => intro acc _; simp
  | cons kv rest ih =>
    intro acc h
    have hk : kv.1 ∉ acc.map Prod.fst := by
      rw [List.map_append, List.nodup_append] at h
      intro hmem
      exact h.2.2 hmem (by simp)
    rw [List.foldl_cons, setHeader_of_not_mem kv.1 kv.2 acc hk]
    have h2 : ((acc ++ [(kv.1, kv.2)]) ++ rest) = acc ++ kv :: rest := by simp
    rw [ih (acc ++ [(kv.1, kv.2)]) (by rw [h2]; exact h), h2]

/-- Header entries with distinct names are copied as they are. -/
theorem collectHeaders_of_nodup (entries : List (String × String))
    (h : (entries.map Prod.fst).Nodup) : collectHeaders entries = entries := by
  unfold collectHeaders
  simpa using foldl_setHeader entries [] (by simpa using h)

/-- C9: the error thrown for a non-ok response carries the status, the parsed body,
the response text and the headers of the normalised result, which are the status, text
and header entries of the response.  For a 404 response with body
{"message":"not found"} the message is "not found" and the status 404. -/
theorem handleResponse_error_fields (P : Platform) (r : Response) (hr : r.ok = false) :
    thrownInfo (handleResponse P r)
      = some { status := (parseResponse P r).status, data := (parseResponse P r).data,
               raw := (parseResponse P r).raw, headers := (parseResponse P r).headers } ∧
    (parseResponse P r).status = r.status ∧
    (parseResponse P r).raw = r.text ∧
    (∀ entries, r.headers = some entries → (entries.map Prod.fst).Nodup →
      (parseResponse P r).headers = entries) ∧
    thrownMessage (handleResponse samplePlatform
        (Response.failure 404 "\x7b\"message\":\"not found\"\x7d")) = some "not found" ∧
    (thrownInfo (handleResponse samplePlatform
        (Response.failure 404 "\x7b\"message\":\"not found\"\x7d"))).map ErrorInfo.status
      = some 404 := by
  have hok : (parseResponse P r).ok = false := hr
  refine ⟨?_, rfl, rfl, ?_, by rfl, by rfl⟩
  · unfold handleResponse
    simp [hok, thrownInfo, responseError]
  · intro entries he hnodup
    unfold parseResponse
    simp only [he]
    exact collectHeaders_of_nodup entries hnodup

/-- C9 (witness): the 404 response with body {"message":"not found"} is not ok; the
error thrown for it has the message "not found", the status 404, the parsed body, the
response text and the response headers. -/
theorem handleResponse_error_fields_witness :
    (Response.failure 404 "\x7b\"message\":\"not found\"\x7d").ok = false ∧
    thrownInfo (handleResponse samplePlatform
        (Response.failure 404 "\x7b\"message\":\"not found\"\x7d"))
      = some { status := 404, data := JSVal.obj [("message", JSVal.str "not found")],
               raw := some "\x7b\"message\":\"not found\"\x7d",
               headers := [("content-type", "application/json")] } ∧
    thrownMessage (handleResponse samplePlatform
        (Response.failure 404 "\x7b\"message\":\"not found\"\x7d")) = some "not found" :=
  ⟨rfl,
   (handleResponse_error_fields samplePlatform
      (Response.failure 404 "\x7b\"message\":\"not found\"\x7d") rfl).1,
   (handleResponse_error_fields samplePlatform
      (Response.failure 404 "\x7b\"message\":\"not found\"\x7d") rfl).2.2.2.2.1⟩

theorem errorMessageValue_eq (data : JSVal) (status : Nat) :
    errorMessageValue data ("Request failed (" ++ toString status ++ ")")
      = messagePrecedence data status := by
  unfold errorMessageValue messagePrecedence
  cases hd : data.truthy
  · have h1 : data.getProp "message" = JSVal.undefined := by
      cases data <;> simp_all [JSVal.truthy, JSVal.getProp]
    have h2 : data.getProp "error" = JSVal.undefined := by
      cases data <;> simp_all [JSVal.truthy, JSVal.getProp]
    have h3 : JSVal.undefined.truthy = false := rfl
    rw [h1, h2]
    simp [hd, h3, List.find?]
  · cases hm : (data.getProp "message").truthy
    · cases he : (data.getProp "error").truthy <;> simp [hm, he, List.find?]
    · simp [hm, List.find?]

theorem lookup_withoutUnread (key : String) (hkey : key ∉ unreadKeys)
    (fields : List (String × JSVal)) :
    JSVal.lookup key (withoutUnread fields) = JSVal.lookup key fields := by
  induction fields with
  | nil => rfl
  | cons kv rest ih =>
    obtain ⟨k, v⟩ := kv
    unfold withoutUnread at ih ⊢
    by_cases hk : k = key
    · subst hk
      simp [List.filter_cons, hkey, JSVal.lookup]
    · by_cases hu : k ∈ unreadKeys
      · simp [List.filter_cons, hu, JSVal.lookup, hk, ih]
      · simp [List.filter_cons, hu, JSVal.lookup, hk, ih]

/-- C10 (counterexample): for a 400 response whose body only has a `detail`, the thrown
message is the status fallback and not the detail; for a body with an `errors` map and
a `message`, it is the `message`. -/
theorem handleResponse_ignores_detail_and_errors :
    thrownMessage (handleResponse samplePlatform
        (Response.failure 400 "\x7b\"detail\":\"Amount must be positive\"\x7d"))
      = some "Request failed (400)" ∧
    thrownMessage (handleResponse samplePlatform
        (Response.failure 400 "\x7b\"detail\":\"Amount must be positive\"\x7d"))
      ≠ some "Amount must be positive" ∧
    thrownMessage (handleResponse samplePlatform
        (Response.failure 400
          "\x7b\"errors\":\x7b\"amount\":[\"The amount field is required.\"]\x7d,\"message\":\"Validation failed\"\x7d"))
      = some "Validation failed" := by
  refine ⟨by rfl, ?_, by rfl⟩
  have h : thrownMessage (handleResponse samplePlatform
        (Response.failure 400 "\x7b\"detail\":\"Amount must be positive\"\x7d"))
      = some "Request failed (400)" := by rfl
  rw [h]
  decide

/-- C10 (amended): the message of the error thrown for a non-ok response is the body's
`message` if truthy, else its `error` if truthy, else "Request failed (<status>)"; the
`errors`, `detail` and `title` properties of the body play no part in it. -/
theorem handleResponse_message (P : Platform) (r : Response) (hr : r.ok = false) :
    thrownMessage (handleResponse P r)
      = some (JSVal.toStr P (messagePrecedence (parseResponse P r).data r.status)) ∧
    (∀ fields : List (String × JSVal),
      messagePrecedence (JSVal.obj fields) r.status
        = messagePrecedence (JSVal.obj (withoutUnread fields)) r.status) ∧
    (∀ data : JSVal, (data.getProp "message").truthy = true →
      messagePrecedence data r.status = data.getProp "message") ∧
    (∀ data : JSVal, (data.getProp "message").truthy = false →
      (data.getProp "error").truthy = true →
      messagePrecedence data r.status = data.getProp "error") ∧
    (∀ data : JSVal, (data.getProp "message").truthy = false →
      (data.getProp "error").truthy = false →
      messagePrecedence data r.status
        = JSVal.str ("Request failed (" ++ toString r.status ++ ")")) := by
  have hok : (parseResponse P r).ok = false := hr
  have hst : (parseResponse P r).status = r.status := rfl
  refine ⟨?_, ?_, ?_, ?_, ?_⟩
  · unfold handleResponse
    simp only [hok, Bool.not_false, if_true, thrownMessage, responseError, hst,
      errorMessageValue_eq]
  · intro fields
    unfold messagePrecedence JSVal.getProp
    simp only
    rw [lookup_withoutUnread "message" (by decide), lookup_withoutUnread "error" (by decide)]
  · intro data hm
    unfold messagePrecedence
    simp [List.find?, hm]
  · intro data hm he
    unfold messagePrecedence
    simp [List.find?, hm, he]
  · intro data hm he
    unfold messagePrecedence
    simp [List.find?, hm, he]

/-- C10 (witness): a non-ok response whose body has an `errors` map and a `message`
is signalled with that message; one whose body is an empty object with the fallback. -/
theorem handleResponse_message_witness :
    (Response.failure 400
      "\x7b\"errors\":\x7b\"amount\":[\"The amount field is required.\"]\x7d,\"message\":\"Validation failed\"\x7d").ok
      = false ∧
    thrownMessage (handleResponse samplePlatform
        (Response.failure 400
          "\x7b\"errors\":\x7b\"amount\":[\"The amount field is required.\"]\x7d,\"message\":\"Validation failed\"\x7d"))
      = some "Validation failed" ∧
    thrownMessage (handleResponse samplePlatform (Response.failure 500 "\x7b\x7d"))
      = some "Request failed (500)" :=
  ⟨rfl,
   (handleResponse_message samplePlatform
      (Response.failure 400
        "\x7b\"errors\":\x7b\"amount\":[\"The amount field is required.\"]\x7d,\"message\":\"Validation failed\"\x7d")
      rfl).1,
   (handleResponse_message samplePlatform (Response.failure 500 "\x7b\x7d") rfl).1⟩

/-! ## The non-throwing create variant, identifiers, normalisation -/

/-- C11: whatever response the server gives, `createExpenseRaw` returns the normalised
result of that response, with the five fields `ok`, `status`, `data`, `raw`, `headers`;
it throws only when `fetch` itself rejects. -/
theorem createExpenseRaw_returns (P : Platform) (fetch : Fetch) (res : Response)
    (expenseData : JSVal) (token : String) :
    ExpenseService.createExpenseRaw P (constFetch res) expenseData token
      = Except.ok { ok := res.ok, status := res.status, data := (parseResponse P res).data,
                    raw := res.text, headers := (parseResponse P res).headers } ∧
    ((∃ e, ExpenseService.createExpenseRaw P fetch expenseData token = Except.error e) ↔
      ∃ e, fetch (createRequest P expenseData token) = Except.error e) ∧
    ((∃ parsed, ExpenseService.createExpenseRaw P fetch expenseData token = Except.ok parsed) ↔
      ∃ r, fetch (createRequest P expenseData token) = Except.ok r) ∧
    returned (ExpenseService.createExpenseRaw P fetch expenseData token)
      = (returned (fetch (createRequest P expenseData token))).map (parseResponse P) := by
  refine ⟨rfl, ?_, ?_, ?_⟩
  · unfold ExpenseService.createExpenseRaw
    cases fetch (createRequest P expenseData token) <;> simp
  · unfold ExpenseService.createExpenseRaw
    cases fetch (createRequest P expenseData token) <;> simp
  · unfold ExpenseService.createExpenseRaw
    cases fetch (createRequest P expenseData token) <;> rfl

theorem getExpenseCall_run (P : Platform) (fetch : Fetch) (id : JSVal) (token : String) :
    Call.run fetch (getExpenseCall P id token) = ExpenseService.getExpense P fetch id token := by
  unfold getExpenseCall ExpenseService.getExpense
  cases id.truthy
  · rfl
  · simp only [Bool.not_true, Bool.false_eq_true, if_false, Call.run]
    rfl

theorem updateExpenseCall_run (P : Platform) (fetch : Fetch) (id expenseData : JSVal)
    (token : String) :
    Call.run fetch (updateExpenseCall P id expenseData token)
      = ExpenseService.updateExpense P fetch id expenseData token := by
  unfold updateExpenseCall ExpenseService.updateExpense
  cases id.truthy
  · rfl
  · simp only [Bool.not_true, Bool.false_eq_true, if_false, Call.run]
    rfl

theorem deleteExpenseCall_run (P : Platform) (fetch : Fetch) (id : JSVal) (token : String) :
    Call.run fetch (deleteExpenseCall P id token)
      = ExpenseService.deleteExpense P fetch id token := by
  unfold deleteExpenseCall ExpenseService.deleteExpense
  cases id.truthy
  · rfl
  · simp only [Bool.not_true, Bool.false_eq_true, if_false, Call.run]
    show (match fetch (idRequest P "DELETE" id token none) with
          | Except.error e => Except.error e
          | Except.ok res => _) =
         (match fetch (idRequest P "DELETE" id token none) with
          | Except.error e => Except.error e
          | Except.ok res => _)
    cases fetch (idRequest P "DELETE" id token none) with
    | error e => rfl
    | ok res => cases hok : res.ok <;> simp [Call.run, hok]

/-! ## Creating an expense -/

theorem getProp_of_falsy (data : JSVal) (key : String) (h : data.truthy = false) :
    data.getProp key = JSVal.undefined := by
  cases data <;> simp_all [JSVal.truthy, JSVal.getProp]

theorem createSucceeded_iff_marker (res : Parsed) :
    AddExpense.createSucceeded res = true ↔
      (res.ok = true ∨ HasMarker res.data "id" ∨ HasMarker res.data "success"
        ∨ HasMarker res.data "created") := by
  unfold AddExpense.createSucceeded HasMarker
  cases hd : res.data.truthy
  · have h3 : JSVal.undefined.truthy = false := rfl
    simp [getProp_of_falsy res.data _ hd, h3]
  · simp [or_assoc]

theorem addExpense_finish_of_succeeded (P : Platform) (res : Parsed) (st1 : AddExpense.State)
    (h : AddExpense.createSucceeded res = true) :
    AddExpense.handleSubmitFinish P (Except.ok res) st1
      = { st1 with serverDebug := some res, success := "Expense added successfully.",
                   navigation := some "/dashboard", loading := false } := by
  unfold AddExpense.handleSubmitFinish
  simp [h]

theorem addExpense_finish_of_failed (P : Platform) (res : Parsed) (st1 : AddExpense.State)
    (h : AddExpense.createSucceeded res = false) :
    AddExpense.handleSubmitFinish P (Except.ok res) st1
      = { st1 with serverDebug := some res,
                   error := (if (AddExpense.formatServerDebug P res).truthy
                             then AddExpense.formatServerDebug P res
                             else JSVal.str ("Server returned " ++ toString res.status)),
                   loading := false } := by
  unfold AddExpense.handleSubmitFinish
  simp [h]

theorem formatServerDebug_or_status_truthy (P : Platform) (res : Parsed) :
    (if (AddExpense.formatServerDebug P res).truthy then AddExpense.formatServerDebug P res
     else JSVal.str ("Server returned " ++ toString res.status)).truthy = true := by
  by_cases h : (AddExpense.formatServerDebug P res).truthy = true
  · rw [if_pos h]; exact h
  · rw [if_neg h]
    show (("Server returned " ++ toString res.status) != "") = true
    rw [bne_iff_ne, Ne, String.ext_iff]
    simp [String.data_append]

/-- C12: once `createExpenseRaw` has returned a result for a submitted form, the page
ends in the success state (success message, navigation to the dashboard scheduled, no
error) exactly when the result is HTTP ok or its body carries a truthy `id`, `success`
or `created`; otherwise an error is shown and nothing is scheduled.  A 201 response with
body {"id":5} is a success, and so is a 400 response with body {"success":true}. -/
theorem addExpense_success_iff (P : Platform) (r : Response) (user : JSVal)
    (token : Option String) (st st1 : AddExpense.State) (call : JSVal × String)
    (hnav : st.navigation = none)
    (hstart : AddExpense.handleSubmitStart user token st = Pending.awaiting st1 call) :
    (((AddExpense.handleSubmit P (constFetch r) user token st).success
          = "Expense added successfully." ∧
      (AddExpense.handleSubmit P (constFetch r) user token st).navigation = some "/dashboard" ∧
      (AddExpense.handleSubmit P (constFetch r) user token st).error = JSVal.str "") ↔
      ((parseResponse P r).ok = true ∨ HasMarker (parseResponse P r).data "id"
        ∨ HasMarker (parseResponse P r).data "success"
        ∨ HasMarker (parseResponse P r).data "created")) ∧
    (¬ ((parseResponse P r).ok = true ∨ HasMarker (parseResponse P r).data "id"
        ∨ HasMarker (parseResponse P r).data "success"
        ∨ HasMarker (parseResponse P r).data "created") →
      (AddExpense.handleSubmit P (constFetch r) user token st).error.truthy = true ∧
      (AddExpense.handleSubmit P (constFetch r) user token st).navigation = none ∧
      (AddExpense.handleSubmit P (constFetch r) user token st).success = "") ∧
    AddExpense.createSucceeded
        (parseResponse samplePlatform (Response.ofText true 201 "\x7b\"id\":5\x7d")) = true ∧
    AddExpense.createSucceeded
        (parseResponse samplePlatform (Response.ofText false 400 "\x7b\"success\":true\x7d"))
      = true := by
  have hst1 : st1 = { st with loading := true, error := JSVal.str "", success := "",
                              serverDebug := none } := by
    unfold AddExpense.handleSubmitStart at hstart
    simp only at hstart
    split_ifs at hstart
    exact (Pending.awaiting.inj hstart).1.symm
  have hfinal : AddExpense.handleSubmit P (constFetch r) user token st
      = AddExpense.handleSubmitFinish P (Except.ok (parseResponse P r)) st1 := by
    unfold AddExpense.handleSubmit
    rw [hstart]
    rfl
  rw [hfinal]
  have hiff := createSucceeded_iff_marker (parseResponse P r)
  refine ⟨?_, ?_, by rfl, by rfl⟩
  · rw [← hiff]
    cases hs : AddExpense.createSucceeded (parseResponse P r)
    · rw [addExpense_finish_of_failed P _ st1 hs]
      have htr := formatServerDebug_or_status_truthy P (parseResponse P r)
      simp only [Bool.false_eq_true, iff_false, not_and]
      intro _ _ herr
      rw [herr] at htr
      exact absurd htr (by decide)
    · rw [addExpense_finish_of_succeeded P _ st1 hs]
      simp [hst1]
  · intro hno
    rw [← hiff] at hno
    have hs : AddExpense.createSucceeded (parseResponse P r) = false := by
      simpa using hno
    rw [addExpense_finish_of_failed P _ st1 hs]
    exact ⟨formatServerDebug_or_status_truthy P (parseResponse P r), by simp [hst1, hnav],
      by simp [hst1]⟩

theorem amount_check_create (n : JSNum) :
    (n.isNaN || n.le JSNum.zero) = !(!n.isNaN && JSNum.lt JSNum.zero n) := by
  cases n with
  | nan => rfl
  | inf s => cases s <;> rfl
  | fin k =>
    simp only [JSNum.isNaN, JSNum.le, JSNum.lt, JSNum.zero, Bool.false_or, Bool.not_false,
      Bool.true_and]
    by_cases h : k ≤ 0
    · have h2 : ¬ (0 < k) := by omega
      simp [h, h2]
    · have h2 : 0 < k := by omega
      simp [h, h2]

theorem decide_numeric (s : String) :
    decide (Numeric s) = (s != "" && !(stringToNumber s).isNaN) := by
  rw [Bool.eq_iff_iff, decide_eq_true_eq]
  unfold Numeric
  simp

theorem beq_empty (x : String) : (x == "") = !(x != "") := by
  simp [bne]

theorem amount_check_update (s : String) :
    (s == "" || (stringToNumber s).isNaN || (stringToNumber s).lt JSNum.zero)
      = !(decide (Numeric s) && JSNum.le JSNum.zero (stringToNumber s)) := by
  rw [decide_numeric, beq_empty]
  generalize stringToNumber s = n
  generalize (s != "") = c
  cases c
  · simp
  · cases n with
    | nan => simp [JSNum.isNaN]
    | inf b => cases b <;> simp [JSNum.isNaN, JSNum.lt, JSNum.le, JSNum.zero]
    | fin k =>
      simp only [JSNum.isNaN, JSNum.le, JSNum.lt, JSNum.zero]
      by_cases h : k < 0
      · have h2 : ¬ (0 ≤ k) := by omega
        simp [h, h2]
      · have h2 : 0 ≤ k := by omega
        simp [h, h2]

theorem firstFailure_four (c1 c2 c3 c4 : Bool) (m1 m2 m3 m4 : String) :
    firstFailure [(c1, m1), (c2, m2), (c3, m3), (c4, m4)]
      = if !c1 then some m1 else if !c2 then some m2 else if !c3 then some m3
        else if !c4 then some m4 else none := by
  cases c1 <;> cases c2 <;> cases c3 <;> cases c4 <;> rfl

theorem addExpense_start_cases (user : JSVal) (token : Option String)
    (st : AddExpense.State) :
    AddExpense.handleSubmitStart user token st
      = match firstFailure (AddExpense.checks st.formData) with
        | some msg =>
          Pending.returned { st with loading := false, error := JSVal.str msg, success := "",
                                     serverDebug := none }
        | none =>
          if optTruthy token then
            Pending.awaiting { st with loading := true, error := JSVal.str "", success := "",
                                       serverDebug := none }
              (AddExpense.payload user st.formData, token.getD "")
          else
            Pending.returned
              { st with loading := false,
                        error := JSVal.str "You are not authenticated. Please login again.",
                        success := "", serverDebug := none } := by
  unfold AddExpense.handleSubmitStart AddExpense.checks
  rw [firstFailure_four]
  rw [amount_check_create, beq_empty (jsTrim st.formData.description),
    beq_empty st.formData.category, beq_empty st.formData.date]
  generalize (jsTrim st.formData.description != "") = c1
  generalize (!(stringToNumber st.formData.amount).isNaN
    && JSNum.lt JSNum.zero (stringToNumber st.formData.amount)) = c2
  generalize (st.formData.category != "") = c3
  generalize (st.formData.date != "") = c4
  cases c1 <;> cases c2 <;> cases c3 <;> cases c4 <;> simp
  cases optTruthy token <;> simp

/-- C13 (counterexample): a description of three spaces is not empty, so none of the
checks as the specification words them fails; yet `handleSubmit` shows "Description is
required." and makes no call. -/
theorem addExpense_blank_description_rejected :
    firstFailure (AddExpense.claimedChecks blankDescriptionForm) = none ∧
    AddExpense.handleSubmitStart sampleUser (some "t")
        (AddExpense.State.ofForm blankDescriptionForm)
      = Pending.returned { AddExpense.State.ofForm blankDescriptionForm with
                           error := JSVal.str "Description is required." } := by
  refine ⟨by decide, by rfl⟩

/-- C13 (amended): `handleSubmit` of AddExpense checks, in this order, description not
blank (not empty once trimmed), amount numeric and greater than 0, category selected,
date selected; it shows the message of the first check that fails and then returns
without calling the gateway, whatever the server would answer.  With an empty
description it always returns with "Description is required.".  When no check fails and
a token is present, the create call is issued. -/
theorem addExpense_validation (P : Platform) (fetch : Fetch) (user : JSVal)
    (token : Option String) (st : AddExpense.State) :
    (∀ msg, firstFailure (AddExpense.checks st.formData) = some msg →
      AddExpense.handleSubmitStart user token st
        = Pending.returned { st with loading := false, error := JSVal.str msg, success := "",
                                     serverDebug := none } ∧
      AddExpense.handleSubmit P fetch user token st
        = { st with loading := false, error := JSVal.str msg, success := "",
                    serverDebug := none }) ∧
    (st.formData.description = "" →
      AddExpense.handleSubmitStart user token st
        = Pending.returned { st with loading := false,
                                     error := JSVal.str "Description is required.",
                                     success := "", serverDebug := none }) ∧
    (firstFailure (AddExpense.checks st.formData) = none → optTruthy token = true →
      AddExpense.handleSubmitStart user token st
        = Pending.awaiting { st with loading := true, error := JSVal.str "", success := "",
                                     serverDebug := none }
            (AddExpense.payload user st.formData, token.getD "")) := by
  have hcases := addExpense_start_cases user token st
  have hstart : ∀ msg, firstFailure (AddExpense.checks st.formData) = some msg →
      AddExpense.handleSubmitStart user token st
        = Pending.returned { st with loading := false, error := JSVal.str msg, success := "",
                                     serverDebug := none } := by
    intro msg h
    rw [hcases, h]
  refine ⟨?_, ?_, ?_⟩
  · intro msg h
    refine ⟨hstart msg h, ?_⟩
    unfold AddExpense.handleSubmit
    rw [hstart msg h]
  · intro hd
    apply hstart
    unfold AddExpense.checks
    rw [firstFailure_four]
    have : (jsTrim st.formData.description != "") = false := by rw [hd]; rfl
    simp [this]
  · intro h htoken
    rw [hcases, h]
    simp [htoken]

/-- C13 (witness): a form with an empty description and an amount that is not numeric
fails with the description error and no call; the filled-in sample form passes the
four checks and, with a token, issues the create call. -/
theorem addExpense_validation_witness :
    firstFailure (AddExpense.checks
        { description := "", amount := "abc", category := "", date := "" })
      = some "Description is required." ∧
    AddExpense.handleSubmit samplePlatform failingFetch sampleUser (some "t")
        (AddExpense.State.ofForm { description := "", amount := "abc", category := "", date := "" })
      = { AddExpense.State.ofForm
            { description := "", amount := "abc", category := "", date := "" } with
          error := JSVal.str "Description is required." } ∧
    (firstFailure (AddExpense.checks sampleForm) = none ∧ optTruthy (some "t") = true) ∧
    AddExpense.handleSubmitStart sampleUser (some "t") (AddExpense.State.ofForm sampleForm)
      = Pending.awaiting { AddExpense.State.ofForm sampleForm with loading := true }
          (AddExpense.payload sampleUser sampleForm, "t") :=
  ⟨by decide,
   ((addExpense_validation samplePlatform failingFetch sampleUser (some "t")
      (AddExpense.State.ofForm { description := "", amount := "abc", category := "", date := "" })).1
      "Description is required." (by decide)).2,
   ⟨by decide, by rfl⟩,
   (addExpense_validation samplePlatform failingFetch sampleUser (some "t")
      (AddExpense.State.ofForm sampleForm)).2.2 (by decide) (by rfl)⟩

/-- C12 (witness): the sample form submitted with a token reaches the create call; when
the server answers 201 with body {"id":5} the page ends in the success state, and so it
does when the server answers 400 with body {"success":true}. -/
theorem addExpense_success_iff_witness :
    ((AddExpense.State.ofForm sampleForm).navigation = none ∧
     AddExpense.handleSubmitStart sampleUser (some "t") (AddExpense.State.ofForm sampleForm)
      = Pending.awaiting { AddExpense.State.ofForm sampleForm with loading := true }
          (AddExpense.payload sampleUser sampleForm, "t")) ∧
    ((AddExpense.handleSubmit samplePlatform
          (constFetch (Response.ofText true 201 "\x7b\"id\":5\x7d")) sampleUser (some "t")
          (AddExpense.State.ofForm sampleForm)).success = "Expense added successfully." ∧
     (AddExpense.handleSubmit samplePlatform
          (constFetch (Response.ofText true 201 "\x7b\"id\":5\x7d")) sampleUser (some "t")
          (AddExpense.State.ofForm sampleForm)).navigation = some "/dashboard" ∧
     (AddExpense.handleSubmit samplePlatform
          (constFetch (Response.ofText true 201 "\x7b\"id\":5\x7d")) sampleUser (some "t")
          (AddExpense.State.ofForm sampleForm)).error = JSVal.str "") ∧
    (AddExpense.handleSubmit samplePlatform
        (constFetch (Response.ofText false 400 "\x7b\"success\":true\x7d")) sampleUser (some "t")
        (AddExpense.State.ofForm sampleForm)).navigation = some "/dashboard" :=
  ⟨⟨rfl, by rfl⟩,
   ((addExpense_success_iff samplePlatform (Response.ofText true 201 "\x7b\"id\":5\x7d")
      sampleUser (some "t") (AddExpense.State.ofForm sampleForm)
      { AddExpense.State.ofForm sampleForm with loading := true }
      (AddExpense.payload sampleUser sampleForm, "t") rfl (by rfl)).1).2 (Or.inl rfl),
   by rfl⟩

/-! ## Updating an expense -/

theorem modifyExpense_start_cases (id : JSVal) (token : Option String)
    (st : ModifyExpense.State) :
    ModifyExpense.handleSubmitStart id token st
      = match firstFailure (ModifyExpense.checks st.formData) with
        | some msg => Pending.returned { st with loading := false, error := JSVal.str msg }
        | none =>
          if optTruthy token then
            Pending.awaiting { st with loading := true, error := JSVal.str "" }
              (id, ModifyExpense.payload st.formData, token.getD "")
          else
            Pending.returned
              { st with loading := false,
                        error := JSVal.str "Not authenticated. Please login again." } := by
  unfold ModifyExpense.handleSubmitStart ModifyExpense.checks
  rw [firstFailure_four]
  rw [amount_check_update, beq_empty (jsTrim st.formData.description),
    beq_empty st.formData.category, beq_empty st.formData.date]
  generalize (jsTrim st.formData.description != "") = c1
  generalize (decide (Numeric st.formData.amount)
    && JSNum.le JSNum.zero (stringToNumber st.formData.amount)) = c2
  generalize (st.formData.category != "") = c3
  generalize (st.formData.date != "") = c4
  cases c1 <;> cases c2 <;> cases c3 <;> cases c4 <;> simp
  cases optTruthy token <;> simp

/-- C14 (counterexample): a description of three spaces is not empty, so none of the
checks as the specification words them fails; yet `handleSubmit` shows "Description is
required." and makes no call. -/
theorem modifyExpense_blank_description_rejected :
    firstFailure (ModifyExpense.claimedChecks blankDescriptionForm) = none ∧
    ModifyExpense.handleSubmitStart (JSVal.str "7") (some "t")
        (ModifyExpense.State.ofForm blankDescriptionForm)
      = Pending.returned { ModifyExpense.State.ofForm blankDescriptionForm with
                           error := JSVal.str "Description is required." } := by
  refine ⟨by decide, by rfl⟩

/-- C14 (amended): `handleSubmit` of ModifyExpense checks, in this order, description
not blank (not empty once trimmed), amount numeric and at least 0, category selected,
date selected; it shows the message of
the first check that fails and then returns without calling `updateExpense`, whatever
the server would answer.  The amount check passes exactly when the amount is not empty,
is read by `Number` as a number, and that number is at least 0: "0" passes, the empty
text and "abc" fail with "Please enter a valid amount.". -/
theorem modifyExpense_validation (P : Platform) (fetch : Fetch) (id : JSVal)
    (token : Option String) (st : ModifyExpense.State) :
    (∀ msg, firstFailure (ModifyExpense.checks st.formData) = some msg →
      ModifyExpense.handleSubmitStart id token st
        = Pending.returned { st with loading := false, error := JSVal.str msg } ∧
      ModifyExpense.handleSubmit P fetch id token st
        = { st with loading := false, error := JSVal.str msg }) ∧
    (firstFailure (ModifyExpense.checks st.formData) = none → optTruthy token = true →
      ModifyExpense.handleSubmitStart id token st
        = Pending.awaiting { st with loading := true, error := JSVal.str "" }
            (id, ModifyExpense.payload st.formData, token.getD "")) ∧
    ((st.formData.amount == "" || (stringToNumber st.formData.amount).isNaN
        || (stringToNumber st.formData.amount).lt JSNum.zero) = false ↔
      (Numeric st.formData.amount ∧
        JSNum.le JSNum.zero (stringToNumber st.formData.amount) = true)) ∧
    (firstFailure (ModifyExpense.checks { sampleForm with amount := "0" }) = none ∧
     firstFailure (ModifyExpense.checks { sampleForm with amount := "" })
       = some "Please enter a valid amount." ∧
     firstFailure (ModifyExpense.checks { sampleForm with amount := "abc" })
       = some "Please enter a valid amount." ∧
     firstFailure (ModifyExpense.checks { sampleForm with amount := "-1" })
       = some "Please enter a valid amount.") := by
  have hcases := modifyExpense_start_cases id token st
  have hstart : ∀ msg, firstFailure (ModifyExpense.checks st.formData) = some msg →
      ModifyExpense.handleSubmitStart id token st
        = Pending.returned { st with loading := false, error := JSVal.str msg } := by
    intro msg h
    rw [hcases, h]
  refine ⟨?_, ?_, ?_, by decide⟩
  · intro msg h
    refine ⟨hstart msg h, ?_⟩
    unfold ModifyExpense.handleSubmit
    rw [hstart msg h]
  · intro h htoken
    rw [hcases, h]
    simp [htoken]
  · rw [amount_check_update]
    simp

/-- C14 (witness): the edit form with the amount "abc" fails with the amount error and
no call; with the amount "0" and a token the update call is issued. -/
theorem modifyExpense_validation_witness :
    firstFailure (ModifyExpense.checks { sampleForm with amount := "abc" })
      = some "Please enter a valid amount." ∧
    ModifyExpense.handleSubmit samplePlatform failingFetch (JSVal.str "7") (some "t")
        (ModifyExpense.State.ofForm { sampleForm with amount := "abc" })
      = { ModifyExpense.State.ofForm { sampleForm with amount := "abc" } with
          error := JSVal.str "Please enter a valid amount." } ∧
    (firstFailure (ModifyExpense.checks { sampleForm with amount := "0" }) = none ∧
     optTruthy (some "t") = true) ∧
    ModifyExpense.handleSubmitStart (JSVal.str "7") (some "t")
        (ModifyExpense.State.ofForm { sampleForm with amount := "0" })
      = Pending.awaiting
          { ModifyExpense.State.ofForm { sampleForm with amount := "0" } with loading := true }
          (JSVal.str "7", ModifyExpense.payload { sampleForm with amount := "0" }, "t") :=
  ⟨by decide,
   ((modifyExpense_validation samplePlatform failingFetch (JSVal.str "7") (some "t")
      (ModifyExpense.State.ofForm { sampleForm with amount := "abc" })).1
      "Please enter a valid amount." (by decide)).2,
   ⟨by decide, by rfl⟩,
   (modifyExpense_validation samplePlatform failingFetch (JSVal.str "7") (some "t")
      (ModifyExpense.State.ofForm { sampleForm with amount := "0" })).2.1 (by decide) (by rfl)⟩

/-- C15: for a JSON-object body returned by `updateExpense`, the page navigates to the
list exactly when the body has a truthy `id`, a truthy `success`, or no truthy `error`;
otherwise it stays and shows the body's `error`.  The bodies {} and {"message":"x"} are
treated as success. -/
theorem modifyExpense_success_heuristic (fields : List (String × JSVal))
    (st : ModifyExpense.State) :
    ((HasMarker (JSVal.obj fields) "id" ∨ HasMarker (JSVal.obj fields) "success"
        ∨ ¬ HasMarker (JSVal.obj fields) "error") →
      ModifyExpense.handleSubmitFinish (Except.ok (JSVal.obj fields)) st
        = { st with navigation := some "/view-expenses", loading := false }) ∧
    (¬ (HasMarker (JSVal.obj fields) "id" ∨ HasMarker (JSVal.obj fields) "success"
        ∨ ¬ HasMarker (JSVal.obj fields) "error") →
      ModifyExpense.handleSubmitFinish (Except.ok (JSVal.obj fields)) st
        = { st with error := (JSVal.obj fields).getProp "error", loading := false }) ∧
    ModifyExpense.handleSubmitFinish (Except.ok (JSVal.obj []))
        (ModifyExpense.State.ofForm sampleForm)
      = { ModifyExpense.State.ofForm sampleForm with navigation := some "/view-expenses" } ∧
    ModifyExpense.handleSubmitFinish (Except.ok (JSVal.obj [("message", JSVal.str "x")]))
        (ModifyExpense.State.ofForm sampleForm)
      = { ModifyExpense.State.ofForm sampleForm with navigation := some "/view-expenses" } := by
  have hobj : (JSVal.obj fields).truthy = true := rfl
  refine ⟨?_, ?_, by rfl, by rfl⟩
  · intro h
    unfold HasMarker at h
    unfold ModifyExpense.handleSubmitFinish
    have hc : ((JSVal.getProp (JSVal.obj fields) "id").truthy
        || (JSVal.getProp (JSVal.obj fields) "success").truthy
        || ((JSVal.obj fields).truthy && !(JSVal.getProp (JSVal.obj fields) "error").truthy))
          = true := by
      rcases h with h | h | h
      · simp [h]
      · simp [h]
      · simp [hobj, h]
    dsimp only
    rw [if_neg (show ¬ ((!(JSVal.obj fields).truthy) = true) by simp [hobj]), if_pos hc]
  · intro h
    unfold HasMarker at h
    simp only [not_or, not_not] at h
    unfold ModifyExpense.handleSubmitFinish
    have hc : ((JSVal.getProp (JSVal.obj fields) "id").truthy
        || (JSVal.getProp (JSVal.obj fields) "success").truthy
        || ((JSVal.obj fields).truthy && !(JSVal.getProp (JSVal.obj fields) "error").truthy))
          = false := by
      simp [h.1, h.2.1, h.2.2]
    dsimp only
    rw [if_neg (show ¬ ((!(JSVal.obj fields).truthy) = true) by simp [hobj]),
      if_neg (by rw [hc]; decide), if_pos h.2.2, if_pos h.2.2]

/-- C15 (witness): the body {"error":"Amount too large"} has no marker and an error, so
the page stays and shows that error; the body {"id":7,"error":"ignored"} has the `id`
marker, so the page navigates. -/
theorem modifyExpense_success_heuristic_witness :
    ¬ (HasMarker (JSVal.obj [("error", JSVal.str "Amount too large")]) "id"
        ∨ HasMarker (JSVal.obj [("error", JSVal.str "Amount too large")]) "success"
        ∨ ¬ HasMarker (JSVal.obj [("error", JSVal.str "Amount too large")]) "error") ∧
    ModifyExpense.handleSubmitFinish
        (Except.ok (JSVal.obj [("error", JSVal.str "Amount too large")]))
        (ModifyExpense.State.ofForm sampleForm)
      = { ModifyExpense.State.ofForm sampleForm with error := JSVal.str "Amount too large" } ∧
    ModifyExpense.handleSubmitFinish
        (Except.ok (JSVal.obj [("id", JSVal.num (JSNum.ofNat 7)), ("error", JSVal.str "ignored")]))
        (ModifyExpense.State.ofForm sampleForm)
      = { ModifyExpense.State.ofForm sampleForm with navigation := some "/view-expenses" } :=
  ⟨by decide,
   (modifyExpense_success_heuristic [("error", JSVal.str "Amount too large")]
      (ModifyExpense.State.ofForm sampleForm)).2.1 (by decide),
   (modifyExpense_success_heuristic
      [("id", JSVal.num (JSNum.ofNat 7)), ("error", JSVal.str "ignored")]
      (ModifyExpense.State.ofForm sampleForm)).1 (Or.inl (by decide))⟩

/-! ## The session store -/

/-- C16: for a non-empty token and a JSON-serialisable user record, the startup read of
the storage left by `handleLogin` returns with `isAuthenticated = true` and that user
record; the startup read of the storage left by `handleLogout` returns with
`isAuthenticated = false` and the user `null`. -/
theorem session_round_trip (P : Platform) (t : String) (u : JSVal) (st : App.State)
    (ht : t ≠ "") (hu : Serialisable P u) :
    App.startupRead P (App.handleLogin P (JSVal.str t) u st).storage
      = Except.ok { storage := (App.handleLogin P (JSVal.str t) u st).storage,
                    isAuthenticated := true, user := u, loading := false } ∧
    (App.handleLogin P (JSVal.str t) u st).storage.token = some t ∧
    App.startupRead P (App.handleLogout st).storage
      = Except.ok { storage := { token := none, user := none },
                    isAuthenticated := false, user := JSVal.null, loading := false } := by
  obtain ⟨text, htext, hne, hparse⟩ := hu
  refine ⟨?_, rfl, rfl⟩
  have hstorage : (App.handleLogin P (JSVal.str t) u st).storage
      = { token := some t, user := some text } := by
    unfold App.handleLogin
    simp [htext, JSVal.toStr]
  rw [hstorage]
  unfold App.startupRead
  have h1 : optTruthy (some t) = true := by
    unfold optTruthy
    simpa using ht
  have h2 : optTruthy (some text) = true := by
    unfold optTruthy
    simpa using hne
  simp [h1, h2, hparse, App.mounted]

/-- C16 (witness): the token "tok" and the user record {id: 7, name: "Ann", email:
"ann@example.com"}, whose JSON text reads back as the same record. -/
theorem session_round_trip_witness :
    ("tok" ≠ "" ∧ Serialisable samplePlatform sampleUser) ∧
    App.startupRead samplePlatform
        (App.handleLogin samplePlatform (JSVal.str "tok") sampleUser
          (App.mounted { token := none, user := none })).storage
      = Except.ok
          { storage :=
              { token := some "tok",
                user := some "\x7b\"id\":7,\"name\":\"Ann\",\"email\":\"ann@example.com\"\x7d" },
            isAuthenticated := true, user := sampleUser, loading := false } :=
  ⟨⟨by decide,
    ⟨"\x7b\"id\":7,\"name\":\"Ann\",\"email\":\"ann@example.com\"\x7d", by rfl, by decide,
      by rfl⟩⟩,
   (session_round_trip samplePlatform "tok" sampleUser
      (App.mounted { token := none, user := none }) (by decide)
      ⟨"\x7b\"id\":7,\"name\":\"Ann\",\"email\":\"ann@example.com\"\x7d", by rfl, by decide,
        by rfl⟩).1⟩

theorem append_ne_empty (a b : String) (ha : a ≠ "") : a ++ b ≠ "" := by
  intro h
  apply ha
  rw [String.ext_iff] at h ⊢
  rw [String.data_append] at h
  exact (List.append_eq_nil.1 h).1

/-- The JSON text of an object is not empty. -/
theorem jsonStringify_obj (P : Platform) (fields : List (String × JSVal)) :
    ∃ text, jsonStringify P (JSVal.obj fields) = some text ∧ text ≠ "" := by
  refine ⟨_, by unfold jsonStringify; rfl, ?_⟩
  rw [String.append_assoc]
  exact append_ne_empty _ _ (by decide)

/-- C17: after the startup read, after `handleLogin` (with a non-empty token and a user
record) and after `handleLogout`, `isAuthenticated` is true exactly when the storage
holds a non-empty token and a non-empty user record.  The startup read leaves the
storage as it is and returns whenever the stored user record is JSON; `handleLogin`
writes both keys; `handleLogout` removes both. -/
theorem session_invariant (P : Platform) (storage : Storage) (st : App.State) (t : String)
    (token userData : JSVal) (fields : List (String × JSVal)) :
    (∀ st1, App.startupRead P storage = Except.ok st1 →
      SessionInvariant st1 ∧ st1.storage = storage) ∧
    ((∀ text, storage.user = some text → (P.jsonParse text).isSome = true) →
      ∃ st1, App.startupRead P storage = Except.ok st1) ∧
    ((App.handleLogin P token userData st).storage
        = { token := some (JSVal.toStr P token),
            user := some ((jsonStringify P userData).getD "undefined") } ∧
      (App.handleLogin P token userData st).isAuthenticated = true) ∧
    (t ≠ "" → SessionInvariant (App.handleLogin P (JSVal.str t) (JSVal.obj fields) st)) ∧
    (SessionInvariant (App.handleLogout st) ∧
      (App.handleLogout st).storage = { token := none, user := none } ∧
      (App.handleLogout st).isAuthenticated = false) := by
  refine ⟨?_, ?_, ⟨rfl, rfl⟩, ?_, ⟨?_, rfl, rfl⟩⟩
  · intro st1 h
    unfold App.startupRead at h
    cases hb : (optTruthy storage.token && optTruthy storage.user)
    · rw [hb] at h
      simp only [Bool.false_eq_true, if_false] at h
      have h1 := Except.ok.inj h
      subst h1
      refine ⟨?_, rfl⟩
      unfold SessionInvariant App.mounted
      simp only [Bool.false_eq_true, false_iff]
      intro hc
      rw [hc.1, hc.2] at hb
      exact absurd hb (by decide)
    · rw [hb] at h
      simp only [if_true] at h
      cases hp : P.jsonParse (storage.user.getD "") with
      | none => rw [hp] at h; simp at h
      | some u =>
        rw [hp] at h
        have h1 := Except.ok.inj h
        subst h1
        refine ⟨?_, rfl⟩
        unfold SessionInvariant App.mounted
        simp only [true_iff]
        exact Bool.and_eq_true_iff.1 hb
  · intro hjson
    unfold App.startupRead
    cases hb : (optTruthy storage.token && optTruthy storage.user)
    · simp only [Bool.false_eq_true, if_false]
      exact ⟨_, rfl⟩
    · have hu : optTruthy storage.user = true := (Bool.and_eq_true_iff.1 hb).2
      cases hs : storage.user with
      | none => rw [hs] at hu; simp [optTruthy] at hu
      | some text =>
        have := hjson text hs
        cases hp : P.jsonParse text with
        | none => rw [hp] at this; simp at this
        | some u =>
          simp only [if_true, Option.getD_some, hp]
          exact ⟨_, rfl⟩
  · intro ht
    obtain ⟨text, htext, hne⟩ := jsonStringify_obj P fields
    unfold SessionInvariant App.handleLogin
    simp only [true_iff, htext, Option.getD_some, JSVal.toStr]
    refine ⟨?_, ?_⟩
    · unfold optTruthy
      simpa using ht
    · unfold optTruthy
      simpa using hne
  · unfold SessionInvariant App.handleLogout
    simp [optTruthy]

/-- C17 (witness): the storage {token: "tok", user: "{}"} is read at startup into an
authenticated session, and logging in with the token "tok" and the sample user record
gives a state in which the invariant holds. -/
theorem session_invariant_witness :
    App.startupRead samplePlatform { token := some "tok", user := some "\x7b\x7d" }
      = Except.ok { storage := { token := some "tok", user := some "\x7b\x7d" },
                    isAuthenticated := true, user := JSVal.obj [], loading := false } ∧
    SessionInvariant
      { storage := { token := some "tok", user := some "\x7b\x7d" },
        isAuthenticated := true, user := JSVal.obj [], loading := false } ∧
    ("tok" ≠ "" ∧
      SessionInvariant (App.handleLogin samplePlatform (JSVal.str "tok")
        (JSVal.obj [("email", JSVal.str "ann@example.com")])
        (App.mounted { token := none, user := none }))) :=
  ⟨by rfl,
   ((session_invariant samplePlatform { token := some "tok", user := some "\x7b\x7d" }
      (App.mounted { token := none, user := none }) "tok" JSVal.null JSVal.null []).1
      _ (by rfl)).1,
   ⟨by decide,
    (session_invariant samplePlatform { token := none, user := none }
      (App.mounted { token := none, user := none }) "tok" JSVal.null JSVal.null
      [("email", JSVal.str "ann@example.com")]).2.2.2.1 (by decide)⟩⟩

/-! ## Requests and the token -/

/-- C18: when the storage holds no token (or an empty one), none of the six page
operations reaches its gateway call: each returns from its synchronous part.
`fetchExpenses` of Dashboard and of ViewExpenses, `fetchExpense` of ModifyExpense and a
confirmed `handleDelete` report the missing authentication; so do the two `handleSubmit`
handlers when the form passes its checks. -/
theorem no_request_without_token (P : Platform) (fetch : Fetch) (token : Option String)
    (htoken : optTruthy token = false) (dst : Dashboard.State) (vst : ViewState)
    (ast : AddExpense.State) (mst : ModifyExpense.State) (confirmed : Bool)
    (id user : JSVal) :
    Dashboard.fetchExpensesStart token dst
      = Pending.returned { dst with error := JSVal.str "Not authenticated. Please login.",
                                    expenses := [], stats := Dashboard.emptyStats,
                                    loading := false } ∧
    fetchExpensesStart token vst
      = Suspended.returned { vst with error := some "Not authenticated. Please login.",
                                      expenses := [], loading := false } ∧
    handleDeleteStart P confirmed token id vst
      = Suspended.returned
          (if confirmed then
            { vst with alerts := vst.alerts ++ ["Not authenticated. Please login."] }
           else vst) ∧
    handleDelete P fetch confirmed token id vst
      = { state := (if confirmed then
                      { vst with alerts := vst.alerts ++ ["Not authenticated. Please login."] }
                    else vst),
          refetching := false } ∧
    (∃ st1, AddExpense.handleSubmitStart user token ast = Pending.returned st1 ∧
      AddExpense.handleSubmit P fetch user token ast = st1) ∧
    (firstFailure (AddExpense.checks ast.formData) = none →
      AddExpense.handleSubmit P fetch user token ast
        = { ast with loading := false,
                     error := JSVal.str "You are not authenticated. Please login again.",
                     success := "", serverDebug := none }) ∧
    ModifyExpense.fetchExpenseStart token mst
      = Pending.returned { mst with error := JSVal.str "Not authenticated. Please login again.",
                                    fetching := false } ∧
    (∃ st1, ModifyExpense.handleSubmitStart id token mst = Pending.returned st1 ∧
      ModifyExpense.handleSubmit P fetch id token mst = st1) ∧
    (firstFailure (ModifyExpense.checks mst.formData) = none →
      ModifyExpense.handleSubmit P fetch id token mst
        = { mst with loading := false,
                     error := JSVal.str "Not authenticated. Please login again." }) := by
  have hdel : handleDeleteStart P confirmed token id vst
      = Suspended.returned
          (if confirmed then
            { vst with alerts := vst.alerts ++ ["Not authenticated. Please login."] }
           else vst) := by
    unfold handleDeleteStart
    cases confirmed <;> simp [htoken]
  have hadd := addExpense_start_cases user token ast
  have hmod := modifyExpense_start_cases id token mst
  refine ⟨?_, ?_, hdel, ?_, ?_, ?_, ?_, ?_, ?_⟩
  · unfold Dashboard.fetchExpensesStart
    simp [htoken]
  · unfold fetchExpensesStart
    simp [htoken]
  · unfold handleDelete
    rw [hdel]
  · cases hf : firstFailure (AddExpense.checks ast.formData) with
    | none =>
      rw [hf] at hadd
      simp only [htoken, Bool.false_eq_true, if_false] at hadd
      exact ⟨_, hadd, by unfold AddExpense.handleSubmit; rw [hadd]⟩
    | some msg =>
      rw [hf] at hadd
      exact ⟨_, hadd, by unfold AddExpense.handleSubmit; rw [hadd]⟩
  · intro hf
    rw [hf] at hadd
    simp only [htoken, Bool.false_eq_true, if_false] at hadd
    unfold AddExpense.handleSubmit
    rw [hadd]
  · unfold ModifyExpense.fetchExpenseStart
    simp [htoken]
  · cases hf : firstFailure (ModifyExpense.checks mst.formData) with
    | none =>
      rw [hf] at hmod
      simp only [htoken, Bool.false_eq_true, if_false] at hmod
      exact ⟨_, hmod, by unfold ModifyExpense.handleSubmit; rw [hmod]⟩
    | some msg =>
      rw [hf] at hmod
      exact ⟨_, hmod, by unfold ModifyExpense.handleSubmit; rw [hmod]⟩
  · intro hf
    rw [hf] at hmod
    simp only [htoken, Bool.false_eq_true, if_false] at hmod
    unfold ModifyExpense.handleSubmit
    rw [hmod]

/-- C18 (witness): without a stored token, submitting the filled-in sample form on the
AddExpense page ends with the authentication error, against any server. -/
theorem no_request_without_token_witness :
    optTruthy none = false ∧
    AddExpense.handleSubmit samplePlatform failingFetch sampleUser none
        (AddExpense.State.ofForm sampleForm)
      = { AddExpense.State.ofForm sampleForm with
          error := JSVal.str "You are not authenticated. Please login again." } :=
  ⟨rfl,
   (no_request_without_token samplePlatform failingFetch none rfl
      { expenses := [], stats := Dashboard.emptyStats, loading := false, error := JSVal.null }
      (ViewState.ofList []) (AddExpense.State.ofForm sampleForm)
      (ModifyExpense.State.ofForm sampleForm) true (JSVal.str "7") sampleUser).2.2.2.2.2.1
      (by decide)⟩

/-! ## Identifiers and normalisation -/

theorem requests_of_falsy_id (P : Platform) (fetch : Fetch) (id payload : JSVal)
    (token : String) (h : id.truthy = false) :
    Call.requests fetch (getExpenseCall P id token) = [] ∧
    Call.requests fetch (updateExpenseCall P id payload token) = [] ∧
    Call.requests fetch (deleteExpenseCall P id token) = [] := by
  unfold getExpenseCall updateExpenseCall deleteExpenseCall
  simp [h, Call.requests]

theorem requests_of_truthy_id (P : Platform) (fetch : Fetch) (id payload : JSVal)
    (token : String) (h : id.truthy = true) :
    Call.requests fetch (getExpenseCall P id token) = [idRequest P "GET" id token none] ∧
    Call.requests fetch (updateExpenseCall P id payload token)
      = [idRequest P "PUT" id token (some payload)] ∧
    Call.requests fetch (deleteExpenseCall P id token)
      = [idRequest P "DELETE" id token none] := by
  unfold getExpenseCall updateExpenseCall deleteExpenseCall
  simp only [h, Bool.not_true, Bool.false_eq_true, if_false, Call.requests]
  refine ⟨?_, ?_, ?_⟩
  · cases fetch (idRequest P "GET" id token none) <;> rfl
  · cases fetch (idRequest P "PUT" id token (some payload)) <;> rfl
  · cases fetch (idRequest P "DELETE" id token none) with
    | error e => rfl
    | ok res => cases hok : res.ok <;> simp [Call.requests, hok]

/-- C19: `getExpense`, `updateExpense` and `deleteExpense`, read as programs over
`fetch`, throw "Expense id is required" and issue no request when the identifier is
falsy (absent, `null` or the empty string); with a truthy identifier, such as any
non-empty string, each issues exactly one request, to `/api/expenses/{id}`. -/
theorem identifier_validation (P : Platform) (fetch : Fetch) (id payload : JSVal)
    (token : String) :
    (Call.run fetch (getExpenseCall P id token) = ExpenseService.getExpense P fetch id token ∧
     Call.run fetch (updateExpenseCall P id payload token)
       = ExpenseService.updateExpense P fetch id payload token ∧
     Call.run fetch (deleteExpenseCall P id token)
       = ExpenseService.deleteExpense P fetch id token) ∧
    (id.truthy = false →
      (thrownMessage (ExpenseService.getExpense P fetch id token)
          = some "Expense id is required" ∧
       thrownMessage (ExpenseService.updateExpense P fetch id payload token)
          = some "Expense id is required" ∧
       thrownMessage (ExpenseService.deleteExpense P fetch id token)
          = some "Expense id is required") ∧
      (Call.requests fetch (getExpenseCall P id token) = [] ∧
       Call.requests fetch (updateExpenseCall P id payload token) = [] ∧
       Call.requests fetch (deleteExpenseCall P id token) = [])) ∧
    (id.truthy = true →
      Call.requests fetch (getExpenseCall P id token) = [idRequest P "GET" id token none] ∧
      Call.requests fetch (updateExpenseCall P id payload token)
        = [idRequest P "PUT" id token (some payload)] ∧
      Call.requests fetch (deleteExpenseCall P id token)
        = [idRequest P "DELETE" id token none]) ∧
    (∀ method body, (idRequest P method id token body).url
      = API_BASE_URL P ++ "/api/expenses/" ++ JSVal.toStr P id) ∧
    (JSVal.undefined.truthy = false ∧ JSVal.null.truthy = false ∧
      (JSVal.str "").truthy = false ∧ ∀ s : String, s ≠ "" → (JSVal.str s).truthy = true) := by
  refine ⟨⟨getExpenseCall_run P fetch id token, updateExpenseCall_run P fetch id payload token,
    deleteExpenseCall_run P fetch id token⟩, ?_, requests_of_truthy_id P fetch id payload token,
    fun _ _ => rfl, ⟨rfl, rfl, rfl, ?_⟩⟩
  · intro h
    refine ⟨?_, requests_of_falsy_id P fetch id payload token h⟩
    unfold ExpenseService.getExpense ExpenseService.updateExpense ExpenseService.deleteExpense
    simp [h, thrownMessage, idRequired]
  · intro s hs
    unfold JSVal.truthy
    simpa using hs

/-- C19 (witness): with the empty identifier `deleteExpense` throws "Expense id is
required" and issues no request; with the identifier "42" it issues the single request
DELETE https://localhost:7202/api/expenses/42. -/
theorem identifier_validation_witness :
    ((JSVal.str "").truthy = false ∧
     thrownMessage (ExpenseService.deleteExpense samplePlatform failingFetch (JSVal.str "") "t")
       = some "Expense id is required" ∧
     Call.requests failingFetch (deleteExpenseCall samplePlatform (JSVal.str "") "t") = []) ∧
    ((JSVal.str "42").truthy = true ∧
     Call.requests failingFetch (deleteExpenseCall samplePlatform (JSVal.str "42") "t")
       = [{ method := "DELETE", url := "https://localhost:7202/api/expenses/42",
            headers := [("Authorization", "Bearer t"), ("Accept", "application/json")],
            body := none }]) :=
  ⟨⟨rfl,
    ((identifier_validation samplePlatform failingFetch (JSVal.str "") JSVal.null "t").2.1
      rfl).1.2.2,
    ((identifier_validation samplePlatform failingFetch (JSVal.str "") JSVal.null "t").2.1
      rfl).2.2.2⟩,
   ⟨rfl,
    ((identifier_validation samplePlatform failingFetch (JSVal.str "42") JSVal.null "t").2.2.1
      rfl).2.2⟩⟩

/-- C20: `parseResponse` returns the `ok` flag and the status of the response and, as
`raw`, its text; `data` is the parsed value when the text is not empty and is JSON, the
text itself when it is not empty and is not JSON, and `null` when the text is empty or
could not be read. -/
theorem parseResponse_normalises (P : Platform) (r : Response) :
    (parseResponse P r).ok = r.ok ∧
    (parseResponse P r).status = r.status ∧
    (parseResponse P r).raw = r.text ∧
    (∀ t v, r.text = some t → t ≠ "" → P.jsonParse t = some v → (parseResponse P r).data = v) ∧
    (∀ t, r.text = some t → t ≠ "" → P.jsonParse t = none →
      (parseResponse P r).data = JSVal.str t) ∧
    (r.text = some "" → (parseResponse P r).data = JSVal.null) ∧
    (r.text = none → (parseResponse P r).data = JSVal.null ∧ (parseResponse P r).raw = none) := by
  refine ⟨rfl, rfl, rfl, ?_, ?_, ?_, ?_⟩
  · intro t v ht hne hp
    unfold parseResponse
    simp [ht, hne, hp]
  · intro t ht hne hp
    unfold parseResponse
    simp [ht, hne, hp]
  · intro ht
    unfold parseResponse
    simp [ht]
  · intro ht
    unfold parseResponse
    simp [ht]

/-- C20 (witness): a JSON body, a text body that is not JSON, an empty body and an
unreadable body. -/
theorem parseResponse_normalises_witness :
    (parseResponse samplePlatform (Response.ofText true 201 "\x7b\"id\":5\x7d")).data
      = JSVal.obj [("id", JSVal.num (JSNum.ofNat 5))] ∧
    (parseResponse samplePlatform (Response.ofText false 502 "Bad Gateway")).data
      = JSVal.str "Bad Gateway" ∧
    (parseResponse samplePlatform (Response.ofText true 204 "")).data = JSVal.null ∧
    (parseResponse samplePlatform
        { ok := false, status := 500, text := none, headers := none }).data = JSVal.null :=
  ⟨(parseResponse_normalises samplePlatform
      (Response.ofText true 201 "\x7b\"id\":5\x7d")).2.2.2.1 _ _ rfl (by decide) (by rfl),
   (parseResponse_normalises samplePlatform
      (Response.ofText false 502 "Bad Gateway")).2.2.2.2.1 _ rfl (by decide) (by rfl),
   (parseResponse_normalises samplePlatform (Response.ofText true 204 "")).2.2.2.2.2.1 rfl,
   ((parseResponse_normalises samplePlatform
      { ok := false, status := 500, text := none, headers := none }).2.2.2.2.2.2 rfl).1⟩

/-! ## The auth gateway and the delete call -/

/-- C21 (counterexample): for the response text `Bad Gateway`, which is not JSON, the
expense gateway yields the raw text as the body and the auth gateway yields `null`, so
the two bodies differ and the auth body is not the raw text. -/
theorem auth_body_not_raw_text :
    (parseResponse samplePlatform (Response.ofText false 502 "Bad Gateway")).data
        = JSVal.str "Bad Gateway" ∧
      (AuthService.handleResponse samplePlatform (Response.ofText false 502 "Bad Gateway")).data
        = JSVal.null ∧
      (AuthService.handleResponse samplePlatform (Response.ofText false 502 "Bad Gateway")).data
        ≠ (parseResponse samplePlatform (Response.ofText false 502 "Bad Gateway")).data := by
  have h1 : (parseResponse samplePlatform (Response.ofText false 502 "Bad Gateway")).data
      = JSVal.str "Bad Gateway" := by rfl
  have h2 : (AuthService.handleResponse samplePlatform
      (Response.ofText false 502 "Bad Gateway")).data = JSVal.null := by rfl
  refine ⟨h1, h2, ?_⟩
  rw [h1, h2]
  exact fun h => JSVal.noConfusion h

/-- C21 (amended): the two gateways yield the same `ok` and the same `status` for every
response, and the same body whenever the text is unreadable, empty or valid JSON; for a
non-empty text that is not valid JSON the expense gateway yields the raw text and the
auth gateway yields `null`. -/
theorem auth_and_expense_normalisation (P : Platform) (response : Response) :
    (AuthService.handleResponse P response).ok = (parseResponse P response).ok ∧
    (AuthService.handleResponse P response).status = (parseResponse P response).status ∧
    ((response.text = none ∨ response.text = some "" ∨
        ∃ t v, response.text = some t ∧ P.jsonParse t = some v) →
      (AuthService.handleResponse P response).data = (parseResponse P response).data) ∧
    (∀ t, response.text = some t → t ≠ "" → P.jsonParse t = none →
      (parseResponse P response).data = JSVal.str t ∧
      (AuthService.handleResponse P response).data = JSVal.null) := by
  refine ⟨rfl, rfl, ?_, ?_⟩
  · intro h
    unfold AuthService.handleResponse parseResponse
    rcases h with h | h | ⟨t, v, ht, hv⟩
    · simp [h]
    · simp [h]
    · simp only [ht, hv]
  · intro t ht hne hp
    unfold AuthService.handleResponse parseResponse
    simp [ht, hne, hp]

/-- Witness of C21 (amended): the JSON text `[1]` gives the same body in both gateways;
the text `Bad Gateway` gives the raw text in one and `null` in the other. -/
theorem auth_and_expense_normalisation_witness :
    (AuthService.handleResponse samplePlatform (Response.ofText true 200 "[1]")).data
        = (parseResponse samplePlatform (Response.ofText true 200 "[1]")).data ∧
      (parseResponse samplePlatform (Response.ofText false 502 "Bad Gateway")).data
        = JSVal.str "Bad Gateway" ∧
      (AuthService.handleResponse samplePlatform (Response.ofText false 502 "Bad Gateway")).data
        = JSVal.null :=
  ⟨(auth_and_expense_normalisation samplePlatform (Response.ofText true 200 "[1]")).2.2.1
      (Or.inr (Or.inr ⟨"[1]", JSVal.arr [JSVal.num (JSNum.ofNat 1)], rfl, rfl⟩)),
   (auth_and_expense_normalisation samplePlatform (Response.ofText false 502 "Bad Gateway")).2.2.2
      "Bad Gateway" rfl (by decide) rfl⟩

theorem deleteExpense_of_response (P : Platform) (fetch : Fetch) (id : JSVal) (token : String)
    (res : Response) (hid : id.truthy = true)
    (hres : fetch (idRequest P "DELETE" id token none) = Except.ok res) :
    ExpenseService.deleteExpense P fetch id token
      = (if res.ok then Except.ok true
         else Except.error (responseError P (parseResponse P res)
                ("Delete failed (" ++ toString res.status ++ ")"))) := by
  unfold ExpenseService.deleteExpense
  simp only [hid, Bool.not_true, Bool.false_eq_true, if_false]
  show (match fetch (idRequest P "DELETE" id token none) with
        | Except.error e => Except.error e
        | Except.ok res => _) = _
  rw [hres]
  rfl

theorem deleteExpense_of_rejection (P : Platform) (fetch : Fetch) (id : JSVal) (token : String)
    (e : JSError) (hid : id.truthy = true)
    (hres : fetch (idRequest P "DELETE" id token none) = Except.error e) :
    ExpenseService.deleteExpense P fetch id token = Except.error e := by
  unfold ExpenseService.deleteExpense
  simp only [hid, Bool.not_true, Bool.false_eq_true, if_false]
  show (match fetch (idRequest P "DELETE" id token none) with
        | Except.error e => Except.error e
        | Except.ok res => _) = _
  rw [hres]

/-- C22: for a truthy identifier and a response that is HTTP ok, `deleteExpense` returns
`true`, and it makes no access to the body of the response: the text is neither read
nor parsed, whatever it is. -/
theorem deleteExpense_short_circuit (P : Platform) (fetch : Fetch) (id : JSVal)
    (token : String) (res : Response) (hid : id.truthy = true)
    (hres : fetch (idRequest P "DELETE" id token none) = Except.ok res)
    (hok : res.ok = true) :
    ExpenseService.deleteExpense P fetch id token = Except.ok true ∧
    deleteExpenseAccesses P fetch id token = [] := by
  constructor
  · rw [deleteExpense_of_response P fetch id token res hid hres, if_pos hok]
  · unfold deleteExpenseAccesses
    simp [hid, hres, hok]

/-- Witness of C22: an ok response whose body is the error-shaped object
`{"error":"boom"}`. -/
theorem deleteExpense_short_circuit_witness :
    ExpenseService.deleteExpense samplePlatform
        (constFetch (Response.ofText true 200 "\x7b\"error\":\"boom\"\x7d"))
        (JSVal.num (JSNum.ofNat 2)) "t" = Except.ok true ∧
    deleteExpenseAccesses samplePlatform
        (constFetch (Response.ofText true 200 "\x7b\"error\":\"boom\"\x7d"))
        (JSVal.num (JSNum.ofNat 2)) "t" = [] :=
  deleteExpense_short_circuit samplePlatform
    (constFetch (Response.ofText true 200 "\x7b\"error\":\"boom\"\x7d"))
    (JSVal.num (JSNum.ofNat 2)) "t" (Response.ofText true 200 "\x7b\"error\":\"boom\"\x7d")
    (by decide) rfl rfl

theorem errorMessageValue_of_text (data : JSVal) (fallback : String) (h : HasErrorText data) :
    errorMessageValue data fallback
      = (if (data.getProp "message").truthy then data.getProp "message"
         else data.getProp "error") := by
  have hd : data.truthy = true := by
    cases hdt : data.truthy
    · rcases h with h | h <;> cases data <;>
        simp_all [JSVal.truthy, JSVal.getProp]
    · rfl
  unfold errorMessageValue
  simp only [hd, if_true]
  rcases h with h | h
  · simp [h]
  · cases hm : (data.getProp "message").truthy <;> simp [h, hm]

theorem errorMessageValue_of_no_text (data : JSVal) (fallback : String)
    (h : ¬ HasErrorText data) : errorMessageValue data fallback = JSVal.str fallback := by
  unfold HasErrorText at h
  have hm : (data.getProp "message").truthy = false := by
    cases hx : (data.getProp "message").truthy
    · rfl
    · exact absurd (Or.inl hx) h
  have he : (data.getProp "error").truthy = false := by
    cases hx : (data.getProp "error").truthy
    · rfl
    · exact absurd (Or.inr hx) h
  unfold errorMessageValue
  cases hd : data.truthy
  · simp [hd]
  · simp [hm, he]

/-- C23 (counterexample): for status 500 and an empty body the error of `deleteExpense`
says `Delete failed (500)` and the error of `handleResponse` says `Request failed (500)`. -/
theorem deleteExpense_fallback_differs :
    thrownMessage (ExpenseService.deleteExpense samplePlatform failingFetch
        (JSVal.num (JSNum.ofNat 2)) "t") = some "Delete failed (500)" ∧
    thrownMessage (handleResponse samplePlatform (Response.failure 500 ""))
      = some "Request failed (500)" ∧
    thrownMessage (ExpenseService.deleteExpense samplePlatform failingFetch
        (JSVal.num (JSNum.ofNat 2)) "t")
      ≠ thrownMessage (handleResponse samplePlatform (Response.failure 500 "")) := by
  have h1 : thrownMessage (ExpenseService.deleteExpense samplePlatform failingFetch
      (JSVal.num (JSNum.ofNat 2)) "t") = some "Delete failed (500)" := by rfl
  have h2 : thrownMessage (handleResponse samplePlatform (Response.failure 500 ""))
      = some "Request failed (500)" := by rfl
  refine ⟨h1, h2, ?_⟩
  rw [h1, h2]
  decide

/-- C23 (amended): for a truthy identifier and a non-ok response, `deleteExpense` and
`handleResponse` both throw, with the same `status`, `data`, `raw` and `headers`, and
with the same message when the body has a truthy `message` or `error`; when it has
neither, the message of `deleteExpense` is `Delete failed (<status>)` and that of
`handleResponse` is `Request failed (<status>)`. -/
theorem deleteExpense_error_shape (P : Platform) (fetch : Fetch) (id : JSVal)
    (token : String) (res : Response) (hid : id.truthy = true)
    (hres : fetch (idRequest P "DELETE" id token none) = Except.ok res)
    (hok : res.ok = false) :
    ∃ e e1 : JSError,
      ExpenseService.deleteExpense P fetch id token = Except.error e ∧
      handleResponse P res = Except.error e1 ∧
      e.info = e1.info ∧
      e.info = some { status := res.status, data := (parseResponse P res).data,
                      raw := res.text, headers := (parseResponse P res).headers } ∧
      (HasErrorText (parseResponse P res).data → e.message = e1.message) ∧
      (¬ HasErrorText (parseResponse P res).data →
        e.message = "Delete failed (" ++ toString res.status ++ ")" ∧
        e1.message = "Request failed (" ++ toString res.status ++ ")") := by
  refine ⟨responseError P (parseResponse P res) ("Delete failed (" ++ toString res.status ++ ")"),
    responseError P (parseResponse P res) ("Request failed (" ++ toString res.status ++ ")"),
    ?_, ?_, rfl, rfl, ?_, ?_⟩
  · rw [deleteExpense_of_response P fetch id token res hid hres]
    simp [hok]
  · unfold handleResponse
    have : (parseResponse P res).ok = false := hok
    simp [this]
    rfl
  · intro h
    unfold responseError
    simp only [errorMessageValue_of_text _ _ h]
  · intro h
    unfold responseError
    simp only [errorMessageValue_of_no_text _ _ h]
    exact ⟨rfl, rfl⟩

/-- Witness of C23 (amended): status 404 with the body `{"message":"not found"}`. -/
theorem deleteExpense_error_shape_witness :
    ∃ e e1 : JSError,
      ExpenseService.deleteExpense samplePlatform
          (constFetch (Response.failure 404 "\x7b\"message\":\"not found\"\x7d"))
          (JSVal.num (JSNum.ofNat 2)) "t" = Except.error e ∧
      handleResponse samplePlatform (Response.failure 404 "\x7b\"message\":\"not found\"\x7d")
        = Except.error e1 ∧
      e.info = e1.info ∧
      e.info = some { status := 404,
                      data := (parseResponse samplePlatform
                        (Response.failure 404 "\x7b\"message\":\"not found\"\x7d")).data,
                      raw := some "\x7b\"message\":\"not found\"\x7d",
                      headers := (parseResponse samplePlatform
                        (Response.failure 404 "\x7b\"message\":\"not found\"\x7d")).headers } ∧
      (HasErrorText (parseResponse samplePlatform
          (Response.failure 404 "\x7b\"message\":\"not found\"\x7d")).data →
        e.message = e1.message) ∧
      (¬ HasErrorText (parseResponse samplePlatform
          (Response.failure 404 "\x7b\"message\":\"not found\"\x7d")).data →
        e.message = "Delete failed (" ++ toString 404 ++ ")" ∧
        e1.message = "Request failed (" ++ toString 404 ++ ")") :=
  deleteExpense_error_shape samplePlatform
    (constFetch (Response.failure 404 "\x7b\"message\":\"not found\"\x7d"))
    (JSVal.num (JSNum.ofNat 2)) "t" (Response.failure 404 "\x7b\"message\":\"not found\"\x7d")
    (by decide) rfl rfl

/-! ## The rollback branch of `handleDelete` -/

theorem deleteExpense_true_or_throws (P : Platform) (fetch : Fetch) (id : JSVal)
    (token : String) :
    ExpenseService.deleteExpense P fetch id token = Except.ok true ∨
      ∃ e, ExpenseService.deleteExpense P fetch id token = Except.error e := by
  cases hid : id.truthy
  · right
    refine ⟨idRequired, ?_⟩
    unfold ExpenseService.deleteExpense
    simp [hid]
  · cases hres : fetch (idRequest P "DELETE" id token none) with
    | error e => exact Or.inr ⟨e, deleteExpense_of_rejection P fetch id token e hid hres⟩
    | ok res =>
      rw [deleteExpense_of_response P fetch id token res hid hres]
      cases hok : res.ok
      · right; simp
      · left; simp

theorem handleDeleteFinish_alerts (token : Option String) (previous : List Expense)
    (e : JSError) (st : ViewState) :
    (handleDeleteFinish token previous (Except.error e) st).state.alerts
        = st.alerts ++ ["An error occurred while deleting the expense."] ∧
    (handleDeleteFinish token previous (Except.error e) st).state.expenses
        = (if optTruthy token then st.expenses else []) ∧
    (handleDeleteFinish token previous (Except.error e) st).refetching = optTruthy token := by
  unfold handleDeleteFinish fetchExpensesStart
  cases optTruthy token <;> simp

/-- C27: `deleteExpense` returns `true` or throws, for every identifier and every
answer of the server, so it never yields a falsy result.  In `handleDelete` the rollback
branch is therefore never taken: the only alerts a completed `handleDelete` can have
added are the one of the missing token and the one of the `catch` block, never the one
of the rollback.  A delete that the server answers with a non-ok response ends in the
`catch` block: the list is the one after the optimistic removal, not the snapshot, the
alert of the `catch` block is shown and a refetch is started. -/
theorem deleteExpense_never_falsy (P : Platform) (fetch : Fetch) :
    (∀ (id : JSVal) (token : String),
      ExpenseService.deleteExpense P fetch id token = Except.ok true ∨
        ∃ e, ExpenseService.deleteExpense P fetch id token = Except.error e) ∧
    (∀ (confirmed : Bool) (token : Option String) (id : JSVal) (st : ViewState),
      (handleDelete P fetch confirmed token id st).state.alerts = st.alerts ∨
      (handleDelete P fetch confirmed token id st).state.alerts
        = st.alerts ++ ["Not authenticated. Please login."] ∨
      (handleDelete P fetch confirmed token id st).state.alerts
        = st.alerts ++ ["An error occurred while deleting the expense."]) ∧
    (∀ (token : Option String) (id : JSVal) (st : ViewState) (res : Response),
      optTruthy token = true → id.truthy = true →
      fetch (idRequest P "DELETE" id (token.getD "") none) = Except.ok res → res.ok = false →
      (handleDelete P fetch true token id st).state.expenses = removeFromList P id st.expenses ∧
      (handleDelete P fetch true token id st).state.alerts
        = st.alerts ++ ["An error occurred while deleting the expense."] ∧
      (handleDelete P fetch true token id st).refetching = true) := by
  refine ⟨deleteExpense_true_or_throws P fetch, ?_, ?_⟩
  · intro confirmed token id st
    unfold handleDelete handleDeleteStart
    cases confirmed
    · left; rfl
    · cases ht : optTruthy token
      · right; left; rfl
      · simp only [Bool.not_true, Bool.false_eq_true, if_false]
        rcases deleteExpense_true_or_throws P fetch id (token.getD "") with h | ⟨e, h⟩
        · rw [h]; left; rfl
        · rw [h]; right; right
          exact (handleDeleteFinish_alerts token _ e _).1
  · intro token id st res ht hid hres hok
    unfold handleDelete handleDeleteStart
    simp only [ht, Bool.not_true, Bool.false_eq_true, if_false]
    rw [deleteExpense_of_response P fetch id (token.getD "") res hid hres]
    simp only [hok, Bool.false_eq_true, if_false]
    have h := handleDeleteFinish_alerts token st.expenses
      (responseError P (parseResponse P res) ("Delete failed (" ++ toString res.status ++ ")"))
      { st with expenses := removeFromList P id st.expenses }
    rw [ht] at h
    exact ⟨h.2.1, h.1, h.2.2⟩

/-- Witness of C27: on the list [A, B, C] the server answers the delete of B with
status 500. -/
theorem deleteExpense_never_falsy_witness :
    (handleDelete samplePlatform failingFetch true (some "t") (JSVal.num (JSNum.ofNat 2))
        (ViewState.ofList [Expense.sample 1 "A", Expense.sample 2 "B", Expense.sample 3 "C"])).state.expenses
      = removeFromList samplePlatform (JSVal.num (JSNum.ofNat 2))
          [Expense.sample 1 "A", Expense.sample 2 "B", Expense.sample 3 "C"] ∧
    (handleDelete samplePlatform failingFetch true (some "t") (JSVal.num (JSNum.ofNat 2))
        (ViewState.ofList [Expense.sample 1 "A", Expense.sample 2 "B", Expense.sample 3 "C"])).state.alerts
      = [] ++ ["An error occurred while deleting the expense."] ∧
    (handleDelete samplePlatform failingFetch true (some "t") (JSVal.num (JSNum.ofNat 2))
        (ViewState.ofList [Expense.sample 1 "A", Expense.sample 2 "B", Expense.sample 3 "C"])).refetching
      = true :=
  (deleteExpense_never_falsy samplePlatform failingFetch).2.2 (some "t")
    (JSVal.num (JSNum.ofNat 2))
    (ViewState.ofList [Expense.sample 1 "A", Expense.sample 2 "B", Expense.sample 3 "C"])
    (Response.failure 500 "") (by decide) (by decide) rfl rfl

/-! ## An update without a body -/

theorem updateExpense_of_response (P : Platform) (fetch : Fetch) (id expenseData : JSVal)
    (token : String) (res : Response) (hid : id.truthy = true)
    (hres : fetch (idRequest P "PUT" id token (some expenseData)) = Except.ok res) :
    ExpenseService.updateExpense P fetch id expenseData token = handleResponse P res := by
  unfold ExpenseService.updateExpense
  simp only [hid, Bool.not_true, Bool.false_eq_true, if_false]
  show (match fetch (idRequest P "PUT" id token (some expenseData)) with
        | Except.error e => Except.error e
        | Except.ok res => _) = _
  rw [hres]

theorem handleResponse_of_empty_body (P : Platform) (res : Response) (hok : res.ok = true)
    (hbody : res.text = none ∨ res.text = some "" ∨
      ∃ t, res.text = some t ∧ P.jsonParse t = some JSVal.null) :
    handleResponse P res = Except.ok JSVal.null := by
  unfold handleResponse parseResponse
  simp only [hok, Bool.not_true, Bool.false_eq_true, if_false]
  rcases hbody with h | h | ⟨t, ht, hp⟩
  · simp [h]
  · simp [h]
  · simp only [ht, hp]
    cases hne : (t != "") <;> simp

/-- C28: in `handleSubmit` of ModifyExpense, for a form that passes the four checks,
with a token and a truthy route identifier, when the server answers the update with an
ok response whose body is unreadable, empty or the JSON text `null`, `updateExpense`
returns `null`, and the page shows "No response from server." and does not navigate:
`navigation` is what it was. -/
theorem modifyExpense_no_response (P : Platform) (fetch : Fetch) (id : JSVal)
    (token : Option String) (st : ModifyExpense.State) (res : Response)
    (hvalid : firstFailure (ModifyExpense.checks st.formData) = none)
    (htoken : optTruthy token = true) (hid : id.truthy = true)
    (hres : fetch (idRequest P "PUT" id (token.getD "")
      (some (ModifyExpense.payload st.formData))) = Except.ok res)
    (hok : res.ok = true)
    (hbody : res.text = none ∨ res.text = some "" ∨
      ∃ t, res.text = some t ∧ P.jsonParse t = some JSVal.null) :
    ExpenseService.updateExpense P fetch id (ModifyExpense.payload st.formData) (token.getD "")
      = Except.ok JSVal.null ∧
    ModifyExpense.handleSubmit P fetch id token st
      = { st with error := JSVal.str "No response from server.", loading := false } ∧
    (ModifyExpense.handleSubmit P fetch id token st).navigation = st.navigation := by
  have hupd : ExpenseService.updateExpense P fetch id (ModifyExpense.payload st.formData)
      (token.getD "") = Except.ok JSVal.null := by
    rw [updateExpense_of_response P fetch id _ _ res hid hres]
    exact handleResponse_of_empty_body P res hok hbody
  have hsub : ModifyExpense.handleSubmit P fetch id token st
      = { st with error := JSVal.str "No response from server.", loading := false } := by
    unfold ModifyExpense.handleSubmit
    rw [modifyExpense_start_cases, hvalid]
    simp only [htoken, if_true]
    rw [hupd]
    rfl
  refine ⟨hupd, hsub, ?_⟩
  rw [hsub]

/-- Witness of C28: the filled-in form, and a server that answers status 204 with an
empty body. -/
theorem modifyExpense_no_response_witness :
    ExpenseService.updateExpense samplePlatform (constFetch (Response.ofText true 204 ""))
        (JSVal.str "7") (ModifyExpense.payload (ModifyExpense.State.ofForm sampleForm).formData)
        ((some "t").getD "")
      = Except.ok JSVal.null ∧
    ModifyExpense.handleSubmit samplePlatform (constFetch (Response.ofText true 204 ""))
        (JSVal.str "7") (some "t") (ModifyExpense.State.ofForm sampleForm)
      = { ModifyExpense.State.ofForm sampleForm with
          error := JSVal.str "No response from server.", loading := false } ∧
    (ModifyExpense.handleSubmit samplePlatform (constFetch (Response.ofText true 204 ""))
        (JSVal.str "7") (some "t") (ModifyExpense.State.ofForm sampleForm)).navigation
      = (ModifyExpense.State.ofForm sampleForm).navigation :=
  modifyExpense_no_response samplePlatform (constFetch (Response.ofText true 204 ""))
    (JSVal.str "7") (some "t") (ModifyExpense.State.ofForm sampleForm)
    (Response.ofText true 204 "") (by decide) (by decide) (by decide) rfl rfl
    (Or.inr (Or.inl rfl))

/-! ## Loading the edit form -/

theorem splitChars_head (sep : Char) (cs : List Char) :
    (splitChars sep cs).head? = some (cs.takeWhile (fun c => c != sep)) := by
  induction cs with
  | nil => rfl
  | cons c cs ih =>
    unfold splitChars
    by_cases h : c = sep
    · simp [h]
    · simp only [h, if_false]
      cases hs : splitChars sep cs with
      | nil => rw [hs] at ih; simp at ih
      | cons piece pieces =>
        rw [hs] at ih
        simp only [List.head?_cons, Option.some.injEq] at ih
        simp [List.takeWhile_cons, h, ih]

theorem jsSplit_head (s : String) (sep : Char) :
    (jsSplit s sep).head? = some (String.mk (s.toList.takeWhile (fun c => c != sep))) := by
  unfold jsSplit
  rw [List.head?_map, splitChars_head]
  rfl

theorem isDayOf_takeWhile (s : String) :
    IsDayOf (String.mk (s.toList.takeWhile (fun c => c != Char.ofNat 84))) s := by
  refine ⟨s.toList.dropWhile (fun c => c != Char.ofNat 84), ?_, ?_, ?_⟩
  · simp [List.takeWhile_append_dropWhile]
  · intro hmem
    have := List.mem_takeWhile_imp hmem
    simp at this
  · cases hd : s.toList.dropWhile (fun c => c != Char.ofNat 84) with
    | nil => left; rfl
    | cons c rest =>
      right
      have := List.head_dropWhile_not (fun c => c != Char.ofNat 84) s.toList
        (by rw [hd]; simp)
      simp only [hd, List.head_cons] at this
      simp at this
      simp [this]

theorem takeWhile_of_not_mem (sep : Char) (cs : List Char) (h : sep ∉ cs) :
    cs.takeWhile (fun c => c != sep) = cs := by
  rw [List.takeWhile_eq_self_iff]
  intro c hc
  simp
  rintro rfl
  exact h hc

theorem dateOnly_of_text (expense : JSVal) (s : String)
    (h : expense.getProp "date" = JSVal.str s) :
    ModifyExpense.dateOnly expense
      = some (String.mk (s.toList.takeWhile (fun c => c != Char.ofNat 84))) := by
  unfold ModifyExpense.dateOnly
  simp only [h]
  by_cases hs : s = ""
  · subst hs
    rfl
  · have : (JSVal.str s).truthy = true := by simp [JSVal.truthy, hs]
    simp only [this, if_true]
    exact jsSplit_head s (Char.ofNat 84)

theorem dateOnly_of_falsy (expense : JSVal) (h : (expense.getProp "date").truthy = false) :
    ModifyExpense.dateOnly expense = some "" := by
  unfold ModifyExpense.dateOnly
  simp [h]

/-- C24: for every record that `fetchExpense` finds in a truthy body, with a date that
is a text or falsy, the form is set, and in it: the date is the record's date cut at its
first `T`, and the record's date itself when that has no `T`; the amount is `String` of
the record's amount whenever that is not `null` or missing, so an amount of `0` gives the
text of the number `0`; the description and the category are the record's when truthy;
and every field that is missing (or otherwise falsy; for the amount: missing or `null`)
becomes the empty text. -/
theorem fetchExpense_projection (P : Platform) (id data expense : JSVal)
    (hdata : data.truthy = true)
    (hloc : ModifyExpense.locate P data id = some expense)
    (hfound : expense.truthy = true)
    (hdate : (expense.getProp "date").truthy = false ∨
      ∃ s, expense.getProp "date" = JSVal.str s) :
    ∃ form : ModifyExpense.LoadedForm,
      ModifyExpense.fetchExpenseFinish P id (Except.ok data)
        = ModifyExpense.Fetched.loaded form ∧
      (∀ s, expense.getProp "date" = JSVal.str s → IsDayOf form.date s) ∧
      (∀ s, expense.getProp "date" = JSVal.str s → 'T' ∉ s.toList → form.date = s) ∧
      (isNullish (expense.getProp "amount") = false →
        form.amount = JSVal.toStr P (expense.getProp "amount")) ∧
      (expense.getProp "amount" = JSVal.num JSNum.zero →
        form.amount = P.numberToString JSNum.zero) ∧
      ((expense.getProp "description").truthy = true →
        form.description = expense.getProp "description") ∧
      ((expense.getProp "category").truthy = true →
        form.category = expense.getProp "category") ∧
      ((expense.getProp "description").truthy = false → form.description = JSVal.str "") ∧
      (isNullish (expense.getProp "amount") = true → form.amount = "") ∧
      ((expense.getProp "category").truthy = false → form.category = JSVal.str "") ∧
      ((expense.getProp "date").truthy = false → form.date = "") := by
  obtain ⟨day, hday⟩ : ∃ day, ModifyExpense.dateOnly expense = some day := by
    rcases hdate with h | ⟨s, h⟩
    · exact ⟨_, dateOnly_of_falsy expense h⟩
    · exact ⟨_, dateOnly_of_text expense s h⟩
  refine ⟨{ description := orEmpty (expense.getProp "description")
            amount := ModifyExpense.amountText P expense
            category := orEmpty (expense.getProp "category")
            date := day }, ?_, ?_, ?_, ?_, ?_, ?_, ?_, ?_, ?_, ?_, ?_⟩
  · unfold ModifyExpense.fetchExpenseFinish
    simp only [hdata, hloc, hfound, hday, Bool.not_true, Bool.false_eq_true, if_false]
  · intro s hs
    have := dateOnly_of_text expense s hs
    rw [hday] at this
    simp only [Option.some.injEq] at this
    show IsDayOf day s
    rw [this]
    exact isDayOf_takeWhile s
  · intro s hs hT
    have := dateOnly_of_text expense s hs
    rw [hday] at this
    simp only [Option.some.injEq] at this
    show day = s
    rw [this, takeWhile_of_not_mem _ _ hT]
    rfl
  · intro h
    show ModifyExpense.amountText P expense = _
    unfold ModifyExpense.amountText
    simp [h]
  · intro h
    show ModifyExpense.amountText P expense = _
    unfold ModifyExpense.amountText
    rw [h]
    rfl
  · intro h
    show orEmpty _ = _
    unfold orEmpty
    simp [h]
  · intro h
    show orEmpty _ = _
    unfold orEmpty
    simp [h]
  · intro h
    show orEmpty _ = _
    unfold orEmpty
    simp [h]
  · intro h
    show ModifyExpense.amountText P expense = _
    unfold ModifyExpense.amountText
    simp [h]
  · intro h
    show orEmpty _ = _
    unfold orEmpty
    simp [h]
  · intro h
    have := dateOnly_of_falsy expense h
    rw [hday] at this
    simp only [Option.some.injEq] at this
    exact this

/-- Witness of C24: the record `{"id":7,"description":"Lunch","amount":0,
"date":"2024-03-05T10:30:00"}` fetched in a list gives the form with the description
"Lunch", the amount "0", the empty category and the date "2024-03-05". -/
theorem fetchExpense_projection_witness :
    ModifyExpense.fetchExpenseFinish samplePlatform (JSVal.str "7")
        (ExpenseService.getExpenses samplePlatform
          (constFetch (Response.ofText true 200 sampleListText)) "t")
      = ModifyExpense.Fetched.loaded
          { description := JSVal.str "Lunch", amount := "0", category := JSVal.str "",
            date := "2024-03-05" } ∧
    ∃ form : ModifyExpense.LoadedForm,
      ModifyExpense.fetchExpenseFinish samplePlatform (JSVal.str "7")
          (Except.ok (JSVal.arr [sampleRecord]))
        = ModifyExpense.Fetched.loaded form ∧
      IsDayOf form.date "2024-03-05T10:30:00" ∧
      form.amount = "0" ∧
      form.description = JSVal.str "Lunch" ∧
      form.category = JSVal.str "" :=
  ⟨by rfl,
   match fetchExpense_projection samplePlatform (JSVal.str "7") (JSVal.arr [sampleRecord])
      sampleRecord rfl rfl rfl (Or.inr ⟨"2024-03-05T10:30:00", rfl⟩) with
   | ⟨form, h1, h2, _, _, h5, h6, _, _, _, h10, _⟩ =>
     ⟨form, h1, h2 "2024-03-05T10:30:00" rfl, h5 rfl, h6 rfl, h10 rfl⟩⟩

theorem findById_of_records (P : Platform) (id : JSVal) (items : List JSVal)
    (h : ∀ v ∈ items, isRecord v = true) :
    ModifyExpense.findById P id items
      = some ((items.find? (fun c => decide (HasId P id c))).getD JSVal.undefined) := by
  induction items with
  | nil => rfl
  | cons item rest ih =>
    have hitem : isRecord item = true := h item (List.mem_cons_self _ _)
    have hnull : isNullish item = false := by
      cases item <;> simp_all [isRecord, isNullish]
    unfold ModifyExpense.findById readProp
    simp only [hnull, Bool.false_eq_true, if_false]
    by_cases hid : JSVal.toStr P (item.getProp "id") = JSVal.toStr P id
    · simp [hid, HasId, List.find?]
    · simp only [hid, if_false]
      rw [ih (fun v hv => h v (List.mem_cons_of_mem _ hv))]
      simp [HasId, hid, List.find?]

theorem truthy_of_isRecord (v : JSVal) (h : isRecord v = true) : v.truthy = true := by
  cases v <;> simp_all [isRecord, JSVal.truthy]

/-- The lookup in terms of the candidates: the first candidate with the identifier, and
a falsy value when there is none; every candidate is truthy. -/
theorem locate_eq_find (P : Platform) (id data : JSVal)
    (hitems : ∀ items, data = JSVal.arr items → ∀ v ∈ items, isRecord v = true) :
    (∀ c ∈ lookupCandidates data, c.truthy = true) ∧
    (∀ c, (lookupCandidates data).find? (fun c => decide (HasId P id c)) = some c →
      ModifyExpense.locate P data id = some c) ∧
    ((lookupCandidates data).find? (fun c => decide (HasId P id c)) = none →
      ∃ v, ModifyExpense.locate P data id = some v ∧ v.truthy = false) := by
  cases data with
  | arr items =>
    have hrec := hitems items rfl
    refine ⟨fun c hc => truthy_of_isRecord c (hrec c hc), ?_, ?_⟩
    · intro c hc
      show ModifyExpense.findById P id items = some c
      rw [findById_of_records P id items hrec]
      simp only [lookupCandidates] at hc
      rw [hc]; rfl
    · intro hc
      refine ⟨JSVal.undefined, ?_, rfl⟩
      show ModifyExpense.findById P id items = _
      rw [findById_of_records P id items hrec]
      simp only [lookupCandidates] at hc
      rw [hc]; rfl
  | obj fields =>
    unfold lookupCandidates ModifyExpense.locate
    simp only [HasId]
    cases h1 : (JSVal.getProp (JSVal.obj fields) "id").truthy <;>
    cases h2 : (JSVal.getProp (JSVal.obj fields) "result").truthy <;>
    by_cases h3 : JSVal.toStr P (JSVal.getProp (JSVal.obj fields) "id") = JSVal.toStr P id <;>
    by_cases h4 : JSVal.toStr P (JSVal.getProp (JSVal.getProp (JSVal.obj fields) "result") "id")
      = JSVal.toStr P id <;>
    simp [h1, h2, h3, h4, List.find?, show (JSVal.obj fields).truthy = true from rfl,
      show JSVal.null.truthy = false from rfl]
  | undefined => simp [lookupCandidates, ModifyExpense.locate, JSVal.truthy]
  | null => simp [lookupCandidates, ModifyExpense.locate, JSVal.truthy]
  | bool b => simp [lookupCandidates, ModifyExpense.locate, JSVal.truthy]
  | num n => simp [lookupCandidates, ModifyExpense.locate, JSVal.truthy]
  | str s => simp [lookupCandidates, ModifyExpense.locate, JSVal.truthy]

theorem find_first_match {α : Type} (p : α → Bool) (pre : List α) (c : α) (post : List α)
    (hc : p c = true) (hpre : ∀ x ∈ pre, p x = false) :
    (pre ++ c :: post).find? p = some c := by
  induction pre with
  | nil => simp [List.find?, hc]
  | cons x xs ih =>
    have hx : p x = false := hpre x (List.mem_cons_self _ _)
    simp only [List.cons_append, List.find?, hx]
    exact ih (fun y hy => hpre y (List.mem_cons_of_mem _ hy))

theorem fetchExpenseFinish_of_found (P : Platform) (id data c : JSVal)
    (hdata : data.truthy = true) (hloc : ModifyExpense.locate P data id = some c)
    (hc : c.truthy = true) :
    ModifyExpense.fetchExpenseFinish P id (Except.ok data)
      ≠ ModifyExpense.Fetched.failed "Expense not found." := by
  unfold ModifyExpense.fetchExpenseFinish
  simp only [hdata, hloc, hc, Bool.not_true, Bool.false_eq_true, if_false]
  cases ModifyExpense.dateOnly c with
  | none =>
    intro h
    have h1 := ModifyExpense.Fetched.failed.inj h
    revert h1
    unfold ModifyExpense.fetchFailed
    decide
  | some day => intro h; cases h

theorem fetchExpenseFinish_of_missing (P : Platform) (id data v : JSVal)
    (hdata : data.truthy = true) (hloc : ModifyExpense.locate P data id = some v)
    (hv : v.truthy = false) :
    ModifyExpense.fetchExpenseFinish P id (Except.ok data)
      = ModifyExpense.Fetched.failed "Expense not found." := by
  unfold ModifyExpense.fetchExpenseFinish
  simp only [hdata, hloc, hv, Bool.not_true, Bool.not_false, Bool.false_eq_true, if_false,
    if_true]

/-- A falsy body of any kind ends with "Failed to load expense data.", whatever the
route identifier. -/
theorem fetchExpenseFinish_of_falsy_body (P : Platform) (id data : JSVal)
    (hdata : data.truthy = false) :
    ModifyExpense.fetchExpenseFinish P id (Except.ok data)
      = ModifyExpense.Fetched.failed "Failed to load expense data." := by
  unfold ModifyExpense.fetchExpenseFinish
  simp [hdata]

/-- C25 (counterexample): an ok response with an empty body gives the body `null`, in
which no record exists under any lookup strategy; `fetchExpense` ends with "Failed to
load expense data.", not with "Expense not found.". -/
theorem fetchExpense_empty_body_message :
    (∀ c ∈ lookupCandidates JSVal.null, ¬ HasId samplePlatform (JSVal.str "7") c) ∧
    ModifyExpense.fetchExpenseFinish samplePlatform (JSVal.str "7")
        (ExpenseService.getExpenses samplePlatform (constFetch (Response.ofText true 200 "")) "t")
      = ModifyExpense.Fetched.failed "Failed to load expense data." ∧
    ModifyExpense.fetchExpenseFinish samplePlatform (JSVal.str "7")
        (ExpenseService.getExpenses samplePlatform (constFetch (Response.ofText true 200 "")) "t")
      ≠ ModifyExpense.Fetched.failed "Expense not found." := by
  have h : ModifyExpense.fetchExpenseFinish samplePlatform (JSVal.str "7")
      (ExpenseService.getExpenses samplePlatform (constFetch (Response.ofText true 200 "")) "t")
      = ModifyExpense.Fetched.failed "Failed to load expense data." := by rfl
  refine ⟨?_, h, ?_⟩
  · intro c hc
    simp [lookupCandidates] at hc
  · rw [h]
    intro h1
    have h2 := ModifyExpense.Fetched.failed.inj h1
    revert h2
    decide

/-- C25 (amended): for every truthy body whose list items are records, and every route
identifier, `fetchExpense` locates the first candidate whose identifier equals the route
identifier as a string, where the candidates are the items of a list body and, for
another object, the body itself when its `id` is truthy, then the value of its `result`
property when that is truthy; it ends with "Expense not found." if and only if no
candidate has the identifier.  In a list the first record with the identifier is used;
in a wrapper the value of `result` is used when the body itself is not accepted. -/
theorem fetchExpense_lookup (P : Platform) (id data : JSVal)
    (hdata : data.truthy = true)
    (hitems : ∀ items, data = JSVal.arr items → ∀ v ∈ items, isRecord v = true) :
    (∀ c, (lookupCandidates data).find? (fun c => decide (HasId P id c)) = some c →
      ModifyExpense.locate P data id = some c) ∧
    (ModifyExpense.fetchExpenseFinish P id (Except.ok data)
        = ModifyExpense.Fetched.failed "Expense not found."
      ↔ ∀ c ∈ lookupCandidates data, ¬ HasId P id c) ∧
    (∀ pre c post, data = JSVal.arr (pre ++ c :: post) → HasId P id c →
      (∀ x ∈ pre, ¬ HasId P id x) → ModifyExpense.locate P data id = some c) ∧
    (∀ fields, data = JSVal.obj fields →
      ¬ ((data.getProp "id").truthy = true ∧ HasId P id data) →
      (data.getProp "result").truthy = true → HasId P id (data.getProp "result") →
      ModifyExpense.locate P data id = some (data.getProp "result")) := by
  obtain ⟨htruthy, hsome, hnone⟩ := locate_eq_find P id data hitems
  refine ⟨hsome, ?_, ?_, ?_⟩
  · constructor
    · intro hfin c hc hid
      cases hf : (lookupCandidates data).find? (fun c => decide (HasId P id c)) with
      | none =>
        rw [List.find?_eq_none] at hf
        exact absurd (by simpa using hid) (hf c hc)
      | some d =>
        have hd := List.mem_of_find?_eq_some hf
        exact fetchExpenseFinish_of_found P id data d hdata (hsome d hf) (htruthy d hd) hfin
    · intro hall
      have hf : (lookupCandidates data).find? (fun c => decide (HasId P id c)) = none := by
        rw [List.find?_eq_none]
        intro c hc
        simpa using hall c hc
      obtain ⟨v, hv, hvf⟩ := hnone hf
      exact fetchExpenseFinish_of_missing P id data v hdata hv hvf
  · intro pre c post hd hc hpre
    apply hsome
    subst hd
    simp only [lookupCandidates]
    exact find_first_match _ pre c post (by simpa using hc) (fun x hx => by simpa using hpre x hx)
  · intro fields hd hnot hres hid
    subst hd
    unfold ModifyExpense.locate
    have h1 : ((JSVal.getProp (JSVal.obj fields) "id").truthy
        && decide (JSVal.toStr P (JSVal.getProp (JSVal.obj fields) "id") = JSVal.toStr P id))
        = false := by
      cases h : (JSVal.getProp (JSVal.obj fields) "id").truthy
      · rfl
      · have : ¬ HasId P id (JSVal.obj fields) := fun hh => hnot ⟨h, hh⟩
        unfold HasId at this
        simp [this]
    unfold HasId at hid
    simp [h1, hres, hid]

/-- Witness of C25 (amended): in the list of two records with the identifier 7 the
first one is located; for the route identifier 9 the same list ends with "Expense not
found."; in the wrapper `{result: record}` the record is located. -/
theorem fetchExpense_lookup_witness :
    ModifyExpense.locate samplePlatform (JSVal.arr [sampleRecord, sampleDuplicate]) (JSVal.str "7")
      = some sampleRecord ∧
    ModifyExpense.fetchExpenseFinish samplePlatform (JSVal.str "9")
        (Except.ok (JSVal.arr [sampleRecord, sampleDuplicate]))
      = ModifyExpense.Fetched.failed "Expense not found." ∧
    ModifyExpense.locate samplePlatform (JSVal.obj [("result", sampleRecord)]) (JSVal.str "7")
      = some ((JSVal.obj [("result", sampleRecord)]).getProp "result") :=
  ⟨(fetchExpense_lookup samplePlatform (JSVal.str "7")
      (JSVal.arr [sampleRecord, sampleDuplicate]) rfl
      (fun items h v hv => by cases h; simp at hv; rcases hv with rfl | rfl <;> rfl)).2.2.1
      [] sampleRecord [sampleDuplicate] rfl (by unfold HasId; rfl) (by simp),
   ((fetchExpense_lookup samplePlatform (JSVal.str "9")
      (JSVal.arr [sampleRecord, sampleDuplicate]) rfl
      (fun items h v hv => by cases h; simp at hv; rcases hv with rfl | rfl <;> rfl)).2.1).2
      (fun c hc => by
        simp [lookupCandidates] at hc
        rcases hc with rfl | rfl <;> decide),
   (fetchExpense_lookup samplePlatform (JSVal.str "7") (JSVal.obj [("result", sampleRecord)]) rfl
      (fun items h => by cases h)).2.2.2 [("result", sampleRecord)] rfl
      (by decide) rfl (by unfold HasId; rfl)⟩

/-- The wrapper `{result: [record]}`, which the list page accepts as its list, is not
searched by the edit page: for the identifier of the record it ends with "Expense not
found.". -/
theorem fetchExpense_wrapped_list :
    ModifyExpense.fetchExpenseFinish samplePlatform (JSVal.str "7")
        (Except.ok (JSVal.obj [("result", JSVal.arr [sampleRecord])]))
      = ModifyExpense.Fetched.failed "Expense not found." := by
  rfl

/-! ## The message of a failed create -/

/-- The precedence of `formatServerDebug` on an object body, where it is as claimed: an
`errors` map with entries is rendered entry by entry; without a truthy `errors`, the
detail, with the title in front when there is one; then the message; then the error. -/
theorem formatServerDebug_precedence (P : Platform) (res : Parsed)
    (fields : List (String × JSVal)) (hdata : res.data = JSVal.obj fields) :
    (∀ entries, JSVal.lookup "errors" fields = JSVal.obj entries →
      AddExpense.formatServerDebug P res
        = JSVal.str (String.intercalate " • " (entries.map (AddExpense.errorPart P)))) ∧
    ((JSVal.lookup "errors" fields).truthy = false →
      (JSVal.lookup "detail" fields).truthy = true →
      AddExpense.formatServerDebug P res
        = JSVal.str ((if (JSVal.lookup "title" fields).truthy
                      then JSVal.toStr P (JSVal.lookup "title" fields) ++ " — " else "")
                     ++ JSVal.toStr P (JSVal.lookup "detail" fields))) ∧
    ((JSVal.lookup "errors" fields).truthy = false →
      (JSVal.lookup "detail" fields).truthy = false →
      (JSVal.lookup "message" fields).truthy = true →
      AddExpense.formatServerDebug P res = JSVal.lookup "message" fields) ∧
    ((JSVal.lookup "errors" fields).truthy = false →
      (JSVal.lookup "detail" fields).truthy = false →
      (JSVal.lookup "message" fields).truthy = false →
      (JSVal.lookup "error" fields).truthy = true →
      AddExpense.formatServerDebug P res = JSVal.lookup "error" fields) := by
  have hobj : (JSVal.obj fields).truthy = true := rfl
  have hty : isObjectType (JSVal.obj fields) = true := rfl
  refine ⟨?_, ?_, ?_, ?_⟩
  · intro entries he
    unfold AddExpense.formatServerDebug
    simp [hdata, hobj, hty, JSVal.getProp, he, JSVal.truthy, objectEntries]
  · intro he hd
    unfold AddExpense.formatServerDebug
    simp [hdata, hobj, hty, JSVal.getProp, he, hd]
  · intro he hd hm
    unfold AddExpense.formatServerDebug
    simp [hdata, hobj, hty, JSVal.getProp, he, hd, hm]
  · intro he hd hm her
    unfold AddExpense.formatServerDebug
    simp [hdata, hobj, hty, JSVal.getProp, he, hd, hm, her]

/-- C26 (failing input): the server answers the create call with status 400 and the
body `{"errors":{},"detail":"Invalid input"}`.  The result fails the relaxed success
test and its `errors` map is empty, yet the page does not show the detail: the empty
map is truthy, `formatServerDebug` returns the empty join of no entries, and the page
shows "Server returned 400".  Without the `errors` property the same body shows
"Invalid input". -/
theorem addExpense_empty_errors_map :
    (parseResponse samplePlatform (Response.ofText false 400 emptyErrorsText)).data
      = JSVal.obj [("errors", JSVal.obj []), ("detail", JSVal.str "Invalid input")] ∧
    AddExpense.createSucceeded
        (parseResponse samplePlatform (Response.ofText false 400 emptyErrorsText)) = false ∧
    AddExpense.formatServerDebug samplePlatform
        (parseResponse samplePlatform (Response.ofText false 400 emptyErrorsText))
      = JSVal.str "" ∧
    (AddExpense.handleSubmit samplePlatform (constFetch (Response.ofText false 400 emptyErrorsText))
        sampleUser (some "t") (AddExpense.State.ofForm sampleForm)).error
      = JSVal.str "Server returned 400" ∧
    (AddExpense.handleSubmit samplePlatform (constFetch (Response.ofText false 400 detailOnlyText))
        sampleUser (some "t") (AddExpense.State.ofForm sampleForm)).error
      = JSVal.str "Invalid input" := by
  refine ⟨by rfl, by rfl, by rfl, by rfl, by rfl⟩

/-! ## The state of the dashboard -/

theorem reduceAmounts_eq_foldl (P : Platform) (items : List JSVal) (sum total : JSNum)
    (h : Dashboard.reduceAmounts P sum items = some total) :
    total = (items.map (amountValue P)).foldl JSNum.add sum := by
  induction items generalizing sum with
  | nil =>
    simp only [Dashboard.reduceAmounts, Option.some.injEq] at h
    simp [h]
  | cons e rest ih =>
    unfold Dashboard.reduceAmounts at h
    cases ha : Dashboard.addAmount P sum e with
    | none => rw [ha] at h; cases h
    | some next =>
      rw [ha] at h
      simp only at h
      have hnext : next = JSNum.add sum (amountValue P e) := by
        unfold Dashboard.addAmount readProp at ha
        cases hn : isNullish e
        · simp only [hn, Bool.false_eq_true, if_false, Option.some.injEq] at ha
          rw [← ha]; rfl
        · simp [hn] at ha
      rw [ih next h, hnext]
      rfl

theorem catch_cleared (err : JSError) (st : Dashboard.State) :
    Dashboard.Cleared (Dashboard.fetchExpensesCatch err st) :=
  ⟨rfl, rfl, rfl, rfl⟩

theorem consistent_of_cleared (P : Platform) (st : Dashboard.State)
    (h : Dashboard.Cleared st) : Dashboard.Consistent P st := by
  obtain ⟨h1, h2, h3, _⟩ := h
  unfold Dashboard.Consistent
  rw [h1, h2, h3]
  exact ⟨rfl, rfl⟩

theorem fetchExpensesFinish_cases (P : Platform) (outcome : Except JSError JSVal)
    (st : Dashboard.State) :
    (∃ items total, outcome = Except.ok (JSVal.arr items) ∧
        Dashboard.reduceAmounts P JSNum.zero items = some total ∧
        Dashboard.fetchExpensesFinish P outcome st
          = { st with expenses := items, stats := Dashboard.statsOf total items.length,
                      loading := false }) ∨
    (¬ Dashboard.Aggregates P outcome ∧
      Dashboard.Cleared (Dashboard.fetchExpensesFinish P outcome st)) := by
  unfold Dashboard.Aggregates
  cases outcome with
  | error err =>
    right
    refine ⟨?_, catch_cleared err st⟩
    rintro ⟨items, total, h, _⟩
    cases h
  | ok data =>
    cases data with
    | arr items =>
      cases hr : Dashboard.reduceAmounts P JSNum.zero items with
      | some total =>
        left
        refine ⟨items, total, rfl, hr, ?_⟩
        unfold Dashboard.fetchExpensesFinish
        simp only [hr]
      | none =>
        right
        refine ⟨?_, ?_⟩
        · rintro ⟨items1, total, h, h2⟩
          cases h
          rw [hr] at h2
          cases h2
        · unfold Dashboard.fetchExpensesFinish
          simp only [hr]
          exact catch_cleared _ _
    | undefined => right; exact ⟨(by rintro ⟨_, _, h, _⟩; cases h), rfl, rfl, rfl, rfl⟩
    | null => right; exact ⟨(by rintro ⟨_, _, h, _⟩; cases h), rfl, rfl, rfl, rfl⟩
    | bool b => right; exact ⟨(by rintro ⟨_, _, h, _⟩; cases h), rfl, rfl, rfl, rfl⟩
    | num n => right; exact ⟨(by rintro ⟨_, _, h, _⟩; cases h), rfl, rfl, rfl, rfl⟩
    | str s => right; exact ⟨(by rintro ⟨_, _, h, _⟩; cases h), rfl, rfl, rfl, rfl⟩
    | obj fields => right; exact ⟨(by rintro ⟨_, _, h, _⟩; cases h), rfl, rfl, rfl, rfl⟩

/-- C29: when `fetchExpenses` of the Dashboard has completed, along any path, `count` is
the length of the list held and `total` is the sum of its amounts, added from the left
as numbers, and `loading` is off.  On a success (a token, and a list body that
aggregates) the list held is the fetched list.  On every other path the list is empty
and `total`, `count` and `average` are `0`: without a token, when the call throws, and
when the body is not an array, whatever it contains. -/
theorem dashboard_state_invariant (P : Platform) (fetch : Fetch) (token : Option String)
    (st : Dashboard.State) :
    Dashboard.Consistent P (Dashboard.fetchExpenses P fetch token st) ∧
    (Dashboard.fetchExpenses P fetch token st).loading = false ∧
    (optTruthy token = true →
      Dashboard.Aggregates P (ExpenseService.getExpenses P fetch (token.getD "")) →
      ExpenseService.getExpenses P fetch (token.getD "")
        = Except.ok (JSVal.arr (Dashboard.fetchExpenses P fetch token st).expenses)) ∧
    (¬ (optTruthy token = true ∧
        Dashboard.Aggregates P (ExpenseService.getExpenses P fetch (token.getD ""))) →
      Dashboard.Cleared (Dashboard.fetchExpenses P fetch token st)) ∧
    (optTruthy token = false → Dashboard.Cleared (Dashboard.fetchExpenses P fetch token st)) ∧
    (∀ e, ExpenseService.getExpenses P fetch (token.getD "") = Except.error e →
      Dashboard.Cleared (Dashboard.fetchExpenses P fetch token st)) ∧
    (∀ data, ExpenseService.getExpenses P fetch (token.getD "") = Except.ok data →
      isArray data = false → Dashboard.Cleared (Dashboard.fetchExpenses P fetch token st)) := by
  have hno : optTruthy token = false →
      Dashboard.Cleared (Dashboard.fetchExpenses P fetch token st) := by
    intro ht
    unfold Dashboard.fetchExpenses Dashboard.fetchExpensesStart
    simp only [ht, Bool.not_false, if_true]
    exact ⟨rfl, rfl, rfl, rfl⟩
  have hyes : optTruthy token = true →
      Dashboard.fetchExpenses P fetch token st
        = Dashboard.fetchExpensesFinish P (ExpenseService.getExpenses P fetch (token.getD ""))
            { st with loading := true, error := JSVal.null } := by
    intro ht
    unfold Dashboard.fetchExpenses Dashboard.fetchExpensesStart
    simp only [ht, Bool.not_true, Bool.false_eq_true, if_false]
  have hclear : ¬ (optTruthy token = true ∧
      Dashboard.Aggregates P (ExpenseService.getExpenses P fetch (token.getD ""))) →
      Dashboard.Cleared (Dashboard.fetchExpenses P fetch token st) := by
    intro hn
    cases ht : optTruthy token
    · exact hno ht
    · rw [hyes ht]
      rcases fetchExpensesFinish_cases P (ExpenseService.getExpenses P fetch (token.getD ""))
        { st with loading := true, error := JSVal.null } with ⟨items, total, h1, h2, _⟩ | ⟨_, h⟩
      · exact absurd ⟨ht, items, total, h1, h2⟩ hn
      · exact h
  refine ⟨?_, ?_, ?_, hclear, hno, ?_, ?_⟩
  · cases ht : optTruthy token
    · exact consistent_of_cleared P _ (hno ht)
    · rw [hyes ht]
      rcases fetchExpensesFinish_cases P (ExpenseService.getExpenses P fetch (token.getD ""))
        { st with loading := true, error := JSVal.null } with ⟨items, total, _, h2, h3⟩ | ⟨_, h⟩
      · rw [h3]
        exact ⟨rfl, reduceAmounts_eq_foldl P items JSNum.zero total h2⟩
      · exact consistent_of_cleared P _ h
  · cases ht : optTruthy token
    · unfold Dashboard.fetchExpenses Dashboard.fetchExpensesStart
      simp only [ht, Bool.not_false, if_true]
    · rw [hyes ht]
      generalize ExpenseService.getExpenses P fetch (token.getD "") = outcome
      unfold Dashboard.fetchExpensesFinish Dashboard.fetchExpensesCatch
      cases outcome with
      | error err => rfl
      | ok data =>
        cases data with
        | arr items => simp only; cases Dashboard.reduceAmounts P JSNum.zero items <;> rfl
        | _ => rfl
  · intro ht hagg
    rw [hyes ht]
    rcases fetchExpensesFinish_cases P (ExpenseService.getExpenses P fetch (token.getD ""))
      { st with loading := true, error := JSVal.null } with ⟨items, total, h1, _, h3⟩ | ⟨h, _⟩
    · rw [h3, h1]
    · exact absurd hagg h
  · intro e he
    apply hclear
    rintro ⟨_, items, total, h, _⟩
    rw [he] at h
    cases h
  · intro data hd harr
    apply hclear
    rintro ⟨_, items, total, h, _⟩
    rw [hd] at h
    cases h
    simp [isArray] at harr

/-- Witness of C29: the list with the amounts 12 and 30 gives the total 42, the count 2
and the average 21; the object body `{"message":"maintenance","amount":5}` leaves the
list empty and the statistics at 0. -/
theorem dashboard_state_invariant_witness :
    Dashboard.Consistent samplePlatform
      (Dashboard.fetchExpenses samplePlatform (constFetch (Response.ofText true 200 twoAmountsText))
        (some "t") Dashboard.State.initial) ∧
    (Dashboard.fetchExpenses samplePlatform (constFetch (Response.ofText true 200 twoAmountsText))
        (some "t") Dashboard.State.initial).stats
      = { total := JSNum.ofNat 42, count := 2, average := JSNum.ofNat 21 } ∧
    Dashboard.Cleared
      (Dashboard.fetchExpenses samplePlatform (constFetch (Response.ofText true 200 maintenanceText))
        (some "t") Dashboard.State.initial) :=
  ⟨(dashboard_state_invariant samplePlatform (constFetch (Response.ofText true 200 twoAmountsText))
      (some "t") Dashboard.State.initial).1,
   by rfl,
   (dashboard_state_invariant samplePlatform (constFetch (Response.ofText true 200 maintenanceText))
      (some "t") Dashboard.State.initial).2.2.2.2.2.2
      (JSVal.obj [("message", JSVal.str "maintenance"), ("amount", JSVal.num (JSNum.ofNat 5))])
      rfl rfl⟩

theorem getProp_amount_toJSVal (e : Expense) :
    e.toJSVal.getProp "amount"
      = (match e.amount with
         | some a => JSVal.num a
         | none => JSVal.undefined) := by
  obtain ⟨id, description, amount, category, date⟩ := e
  cases description <;> cases amount <;> cases category <;> cases date <;>
    simp [Expense.toJSVal, JSVal.getProp, JSVal.lookup]

theorem amountValue_toJSVal (P : Platform) (e : Expense) :
    amountValue P e.toJSVal = amountNumber e := by
  unfold amountValue amountNumber
  rw [getProp_amount_toJSVal]
  cases e.amount with
  | none => rfl
  | some a =>
    simp only [orZero, JSVal.truthy]
    cases a.truthy <;> rfl

theorem reduceAmounts_of_records (P : Platform) (data : List Expense) (sum : JSNum) :
    Dashboard.reduceAmounts P sum (data.map Expense.toJSVal)
      = some (data.foldl (fun sum expense => JSNum.add sum (amountNumber expense)) sum) := by
  induction data generalizing sum with
  | nil => rfl
  | cons e rest ih =>
    simp only [List.map_cons, List.foldl_cons]
    unfold Dashboard.reduceAmounts
    have : Dashboard.addAmount P sum e.toJSVal = some (JSNum.add sum (amountNumber e)) := by
      unfold Dashboard.addAmount readProp
      have hn : isNullish e.toJSVal = false := rfl
      simp only [hn, Bool.false_eq_true, if_false]
      rw [← amountValue_toJSVal P e]
      rfl
    rw [this]
    exact ih _

/-- On a list of typed records the page stores the statistics `dashboardStats`. -/
theorem fetchExpensesFinish_of_records (P : Platform) (data : List Expense)
    (st : Dashboard.State) :
    Dashboard.fetchExpensesFinish P (Except.ok (JSVal.arr (data.map Expense.toJSVal))) st
      = { st with expenses := data.map Expense.toJSVal, stats := dashboardStats data,
                  loading := false } := by
  unfold Dashboard.fetchExpensesFinish
  simp only [reduceAmounts_of_records P data JSNum.zero]
  rw [List.length_map]
  rfl

/-! ## Password strength -/

theorem char_le_iff (a b : Char) : a ≤ b ↔ a.toNat ≤ b.toNat := by
  rw [Char.le_def]
  exact UInt32.le_def

theorem utf16Length_append (p s : String) :
    utf16Length (p ++ s) = utf16Length p + utf16Length s := by
  unfold utf16Length
  simp [String.toList, String.append, List.map_append, List.sum_append]

theorem utf16Length_pos_iff (p : String) : 0 < utf16Length p ↔ p ≠ "" := by
  unfold utf16Length
  obtain ⟨cs⟩ := p
  cases cs with
  | nil => simp [String.toList]
  | cons c cs =>
    have h1 : (String.mk (c :: cs)) ≠ "" := by
      intro h; have := congrArg String.data h; simp at this
    simp only [String.toList, List.map_cons, List.sum_cons, ne_eq, h1, not_false_eq_true,
      iff_true]
    split <;> omega

theorem any_append_of_any (p s : String) (f : Char → Bool)
    (h : p.toList.any f = true) : (p ++ s).toList.any f = true := by
  have : (p ++ s).toList = p.toList ++ s.toList := by
    simp [String.toList, String.append]
  rw [this, List.any_append, h]
  rfl

/-- The strength before the cap: one for every test of `calculateStrength` that holds. -/
theorem calculateStrength_eq (p : String) :
    Signup.calculateStrength p
      = min ((if utf16Length p > 0 then 1 else 0) + (if utf16Length p ≥ 8 then 1 else 0)
          + (if hasUpper p then 1 else 0) + (if hasDigit p then 1 else 0)
          + (if hasSpecial p then 1 else 0)) 4 := by
  unfold Signup.calculateStrength
  by_cases h1 : utf16Length p > 0 <;> by_cases h2 : utf16Length p ≥ 8 <;>
    cases hasUpper p <;> cases hasDigit p <;> cases hasSpecial p <;> simp [h1, h2]

theorem hasUpper_iff (p : String) :
    hasUpper p = decide (∃ c ∈ p.toList, 'A' ≤ c ∧ c ≤ 'Z') := by
  unfold hasUpper
  rw [Bool.eq_iff_iff]
  simp only [List.any_eq_true, Bool.and_eq_true, decide_eq_true_eq, char_le_iff]
  rfl

theorem hasDigit_iff (p : String) :
    hasDigit p = decide (∃ c ∈ p.toList, '0' ≤ c ∧ c ≤ '9') := by
  unfold hasDigit
  rw [Bool.eq_iff_iff]
  simp only [List.any_eq_true, Bool.and_eq_true, decide_eq_true_eq, char_le_iff]
  rfl

theorem hasSpecial_iff (p : String) :
    hasSpecial p = decide (∃ c ∈ p.toList,
      ¬ (('A' ≤ c ∧ c ≤ 'Z') ∨ ('a' ≤ c ∧ c ≤ 'z') ∨ ('0' ≤ c ∧ c ≤ '9'))) := by
  unfold hasSpecial
  rw [Bool.eq_iff_iff]
  simp only [List.any_eq_true, Bool.and_eq_true, Bool.or_eq_true, Bool.not_eq_true',
    decide_eq_true_eq, char_le_iff, Bool.not_eq_true, Bool.or_eq_false_iff,
    Bool.and_eq_false_iff, decide_eq_false_iff_not, or_assoc]
  constructor
  · rintro ⟨c, hc, h⟩
    refine ⟨c, hc, ?_⟩
    have e1 : ('A' : Char).toNat = 65 := rfl
    have e2 : ('Z' : Char).toNat = 90 := rfl
    have e3 : ('a' : Char).toNat = 97 := rfl
    have e4 : ('z' : Char).toNat = 122 := rfl
    have e5 : ('0' : Char).toNat = 48 := rfl
    have e6 : ('9' : Char).toNat = 57 := rfl
    rw [e1, e2, e3, e4, e5, e6]
    omega
  · rintro ⟨c, hc, h⟩
    refine ⟨c, hc, ?_⟩
    have e1 : ('A' : Char).toNat = 65 := rfl
    have e2 : ('Z' : Char).toNat = 90 := rfl
    have e3 : ('a' : Char).toNat = 97 := rfl
    have e4 : ('z' : Char).toNat = 122 := rfl
    have e5 : ('0' : Char).toNat = 48 := rfl
    have e6 : ('9' : Char).toNat = 57 := rfl
    rw [e1, e2, e3, e4, e5, e6] at h
    omega

theorem count_true_five (b1 b2 b3 b4 b5 : Bool) :
    [b1, b2, b3, b4, b5].count true
      = (if b1 then 1 else 0) + (if b2 then 1 else 0) + (if b3 then 1 else 0)
        + (if b4 then 1 else 0) + (if b5 then 1 else 0) := by
  cases b1 <;> cases b2 <;> cases b3 <;> cases b4 <;> cases b5 <;> rfl

/-- C30: for every password the strength is the number of criteria it satisfies among
non-empty, length at least 8, an uppercase letter, a digit, a character that is neither
a letter `A`-`Z`, `a`-`z` nor a digit, capped at 4; it lies between 0 and 4; it is 0
exactly for the empty password; and a password with characters appended is never
weaker. -/
theorem calculateStrength_spec (password : String) :
    Signup.calculateStrength password = min 4 ((strengthCriteria password).count true) ∧
    Signup.calculateStrength password ≤ 4 ∧
    (Signup.calculateStrength password = 0 ↔ password = "") ∧
    (∀ suffix : String,
      Signup.calculateStrength password ≤ Signup.calculateStrength (password ++ suffix)) := by
  refine ⟨?_, ?_, ?_, ?_⟩
  · rw [calculateStrength_eq]
    unfold strengthCriteria
    rw [count_true_five, ← hasUpper_iff, ← hasDigit_iff, ← hasSpecial_iff, Nat.min_comm]
    have h1 : decide (password ≠ "") = decide (utf16Length password > 0) := by
      rw [Bool.eq_iff_iff]
      simp only [decide_eq_true_eq]
      exact (utf16Length_pos_iff password).symm
    rw [h1]
    simp only [decide_eq_true_eq, ge_iff_le]
  · rw [calculateStrength_eq]
    exact Nat.min_le_right _ _
  · rw [calculateStrength_eq]
    constructor
    · intro h
      by_contra hne
      have hpos := (utf16Length_pos_iff password).2 hne
      simp only [hpos, if_true] at h
      omega
    · rintro rfl
      rfl
  · intro suffix
    rw [calculateStrength_eq, calculateStrength_eq]
    have hlen := utf16Length_append password suffix
    have a1 : (if utf16Length password > 0 then 1 else 0)
        ≤ (if utf16Length (password ++ suffix) > 0 then 1 else 0) := by
      split <;> split <;> omega
    have a2 : (if utf16Length password ≥ 8 then 1 else 0)
        ≤ (if utf16Length (password ++ suffix) ≥ 8 then 1 else 0) := by
      split <;> split <;> omega
    have mono : ∀ f : Char → Bool,
        (if password.toList.any f then 1 else 0)
          ≤ (if (password ++ suffix).toList.any f then 1 else 0) := by
      intro f
      cases h : password.toList.any f
      · simp
      · rw [any_append_of_any password suffix f h]
    have a3 := mono (fun c => 65 ≤ c.toNat && c.toNat ≤ 90)
    have a4 := mono (fun c => 48 ≤ c.toNat && c.toNat ≤ 57)
    have a5 := mono (fun c => !((65 ≤ c.toNat && c.toNat ≤ 90) || (97 ≤ c.toNat && c.toNat ≤ 122)
      || (48 ≤ c.toNat && c.toNat ≤ 57)))
    unfold hasUpper hasDigit hasSpecial
    omega
